import Mathlib

/-!
SDRangel channel plugins: staged configuration, squelch and analyzer GUI.

Shallow embedding of parts of
`plugins/channeltx/modnfm/nfmmod.{h,cpp}`, `plugins/channelrx/demodatv/atvdemod.cpp`,
`plugins/channeltx/udpsink/udpsink.cpp`, `plugins/channelrx/chanalyzer/chanalyzergui.cpp`
and `plugins/channelrx/demodam/amdemod.cpp`.

Conventions.
* C++ `int`, `qint32`, `qint64` values are `Int`; `quint32` values are `Nat`.
* C++ `float` / `Real` values are only stored, compared and handed to DSP primitives
  by the functions embedded here; they are represented by rationals (`ℚ`), i.e. the
  finite values of the type, and float rounding is not modelled.
* DSP primitives whose code lives elsewhere (NCO, interpolator, FIR filters, CW keyer)
  are represented by the parameters of the calls made on them: a function that
  reconfigures primitives returns the list of those calls next to the new state.
-/

/-- The C++ conversion of a float to an integer type: truncation toward zero. The
conversion of a value outside the range of the target type is undefined in C++; the
embedding keeps the truncated value. -/
def floatToInt (q : ℚ) : Int := q.num.tdiv q.den

/-- The conversion of an integer value to a 32-bit `int` (two's complement; the result of
a signed overflow is taken to wrap). -/
def toInt32 (x : Int) : Int := (x + 2147483648) % 4294967296 - 2147483648

/-- The conversion of an integer value to a 32-bit `unsigned int` / `quint32`. -/
def toUInt32 (x : Int) : Nat := (x % 4294967296).toNat

/-- The conversion of an integer value to `uint64_t` / `quint64` / `size_t`. -/
def toUInt64 (x : Int) : Nat := (x % 18446744073709551616).toNat

namespace NFMMod

/-- The struct `NFMMod::Config` of `nfmmod.h`, field by field. -/
structure Config where
  m_basebandSampleRate : Int
  m_outputSampleRate : Int
  m_inputFrequencyOffset : Int
  m_rfBandwidth : ℚ
  m_afBandwidth : ℚ
  m_fmDeviation : ℚ
  m_toneFrequency : ℚ
  m_volumeFactor : ℚ
  m_audioSampleRate : Nat
  m_channelMute : Bool
  m_playLoop : Bool
  m_ctcssOn : Bool
  m_ctcssFrequency : ℚ
  deriving DecidableEq

/-- The constructor `Config()` of `nfmmod.h`. -/
def Config.init : Config where
  m_basebandSampleRate := 0
  m_outputSampleRate := -1
  m_inputFrequencyOffset := 0
  m_rfBandwidth := -1
  m_afBandwidth := -1
  m_fmDeviation := 5000
  m_toneFrequency := 1000
  m_volumeFactor := 1
  m_audioSampleRate := 0
  m_channelMute := false
  m_playLoop := false
  m_ctcssOn := false
  m_ctcssFrequency := 177 / 2

/-- A call made by `NFMMod::apply` on one of the DSP primitives owned by the modulator,
with the arguments of the call. -/
inductive PrimitiveCall where
  | carrierNcoSetFreq (freq : Int) (sampleRate : Int)
  | interpolatorCreate (phaseSteps : Nat) (sampleRate : Nat) (cutoff : ℚ) (nbTapsPerPhase : ℚ)
  | lowpassCreate (nTaps : Nat) (sampleRate : Nat) (cutoff : ℚ)
  | bandpassCreate (nTaps : Nat) (sampleRate : Nat) (lowCutoff : ℚ) (highCutoff : ℚ)
  | toneNcoSetFreq (freq : ℚ) (sampleRate : Nat)
  | cwKeyerSetSampleRate (sampleRate : Nat)
  | cwSmootherSetNbFadeSamples (nbFadeSamples : Nat)
  | ctcssNcoSetFreq (freq : ℚ) (sampleRate : Nat)
  deriving DecidableEq

/-- The members of `NFMMod` that `apply` reads or writes. -/
structure State where
  m_config : Config
  m_running : Config
  m_interpolatorDistance : ℚ
  m_interpolatorDistanceRemain : ℚ
  m_interpolatorConsumed : Bool
  deriving DecidableEq

/-- The first block of `NFMMod::apply`: carrier NCO. -/
def applyCarrierNco (s : State) : List PrimitiveCall :=
  if s.m_config.m_inputFrequencyOffset ≠ s.m_running.m_inputFrequencyOffset
      ∨ s.m_config.m_outputSampleRate ≠ s.m_running.m_outputSampleRate then
    [.carrierNcoSetFreq s.m_config.m_inputFrequencyOffset s.m_config.m_outputSampleRate]
  else []

/-- The second block of `NFMMod::apply`: interpolator and its distance. -/
def applyInterpolator (s : State) : State × List PrimitiveCall :=
  if s.m_config.m_outputSampleRate ≠ s.m_running.m_outputSampleRate
      ∨ s.m_config.m_rfBandwidth ≠ s.m_running.m_rfBandwidth then
    ({ s with
        m_interpolatorDistanceRemain := 0
        m_interpolatorConsumed := false
        m_interpolatorDistance :=
          (s.m_config.m_audioSampleRate : ℚ) / (s.m_config.m_outputSampleRate : ℚ) },
     [.interpolatorCreate 48 s.m_config.m_audioSampleRate (s.m_config.m_rfBandwidth / (11 / 5)) 3])
  else (s, [])

/-- The third block of `NFMMod::apply`: audio low-pass and band-pass filters. -/
def applyFilters (s : State) : List PrimitiveCall :=
  if s.m_config.m_afBandwidth ≠ s.m_running.m_afBandwidth
      ∨ s.m_config.m_audioSampleRate ≠ s.m_running.m_audioSampleRate then
    [.lowpassCreate 301 s.m_config.m_audioSampleRate 250,
     .bandpassCreate 301 s.m_config.m_audioSampleRate 300 s.m_config.m_afBandwidth]
  else []

/-- The fourth block of `NFMMod::apply`: tone NCO. -/
def applyToneNco (s : State) : List PrimitiveCall :=
  if s.m_config.m_toneFrequency ≠ s.m_running.m_toneFrequency
      ∨ s.m_config.m_audioSampleRate ≠ s.m_running.m_audioSampleRate then
    [.toneNcoSetFreq s.m_config.m_toneFrequency s.m_config.m_audioSampleRate]
  else []

/-- The fifth block of `NFMMod::apply`: CW keyer and smoother. -/
def applyCW (s : State) : List PrimitiveCall :=
  if s.m_config.m_audioSampleRate ≠ s.m_running.m_audioSampleRate then
    [.cwKeyerSetSampleRate s.m_config.m_audioSampleRate,
     .cwSmootherSetNbFadeSamples (s.m_config.m_audioSampleRate / 250)]
  else []

/-- The sixth block of `NFMMod::apply`: CTCSS NCO. -/
def applyCtcssNco (s : State) : List PrimitiveCall :=
  if s.m_config.m_ctcssFrequency ≠ s.m_running.m_ctcssFrequency
      ∨ s.m_config.m_audioSampleRate ≠ s.m_running.m_audioSampleRate then
    [.ctcssNcoSetFreq s.m_config.m_ctcssFrequency s.m_config.m_audioSampleRate]
  else []

/-- The eleven assignments that end `NFMMod::apply`, in the order of the source.
`m_basebandSampleRate` and `m_toneFrequency` are not among them. -/
def copyRunning (s : State) : State :=
  { s with
    m_running :=
      { s.m_running with
        m_outputSampleRate := s.m_config.m_outputSampleRate
        m_inputFrequencyOffset := s.m_config.m_inputFrequencyOffset
        m_rfBandwidth := s.m_config.m_rfBandwidth
        m_afBandwidth := s.m_config.m_afBandwidth
        m_fmDeviation := s.m_config.m_fmDeviation
        m_volumeFactor := s.m_config.m_volumeFactor
        m_audioSampleRate := s.m_config.m_audioSampleRate
        m_channelMute := s.m_config.m_channelMute
        m_playLoop := s.m_config.m_playLoop
        m_ctcssOn := s.m_config.m_ctcssOn
        m_ctcssFrequency := s.m_config.m_ctcssFrequency } }

/-- `NFMMod::apply`: the new state and the calls made on the DSP primitives, in order. -/
def apply (s : State) : State × List PrimitiveCall :=
  let c1 := applyCarrierNco s
  let r2 := applyInterpolator s
  let s2 := r2.1
  let c3 := applyFilters s2
  let c4 := applyToneNco s2
  let c5 := applyCW s2
  let c6 := applyCtcssNco s2
  (copyRunning s2, c1 ++ r2.2 ++ c3 ++ c4 ++ c5 ++ c6)

/-- The state built by the constructor `NFMMod::NFMMod()` up to and including its call
of `apply()`; `audioSampleRate` is `DSPEngine::instance()->getAudioSampleRate()`.
`m_interpolatorDistance`, `m_interpolatorDistanceRemain` and `m_interpolatorConsumed`
have no initialiser; the interpolator block of `apply` runs (the bandwidth goes from
`-1` to `12500`) and sets them. -/
def new (audioSampleRate : Nat) : State :=
  (apply
    { m_config :=
        { Config.init with
          m_outputSampleRate := 48000
          m_inputFrequencyOffset := 0
          m_rfBandwidth := 12500
          m_afBandwidth := 3000
          m_fmDeviation := 5000
          m_toneFrequency := 1000
          m_audioSampleRate := audioSampleRate }
      m_running := Config.init
      m_interpolatorDistance := 0
      m_interpolatorDistanceRemain := 0
      m_interpolatorConsumed := false }).1

/-- The message `NFMMod::MsgConfigureNFMMod` of `nfmmod.h`. -/
structure MsgConfigureNFMMod where
  m_rfBandwidth : ℚ
  m_afBandwidth : ℚ
  m_fmDeviation : ℚ
  m_toneFrequency : ℚ
  m_volumeFactor : ℚ
  m_channelMute : Bool
  m_playLoop : Bool
  m_ctcssOn : Bool
  m_ctcssFrequency : ℚ

/-- The branch of `NFMMod::handleMessage` for `MsgConfigureNFMMod`. -/
def handleConfigure (s : State) (cfg : MsgConfigureNFMMod) : State × List PrimitiveCall :=
  apply
    { s with
      m_config :=
        { s.m_config with
          m_rfBandwidth := cfg.m_rfBandwidth
          m_afBandwidth := cfg.m_afBandwidth
          m_fmDeviation := cfg.m_fmDeviation
          m_toneFrequency := cfg.m_toneFrequency
          m_volumeFactor := cfg.m_volumeFactor
          m_channelMute := cfg.m_channelMute
          m_playLoop := cfg.m_playLoop
          m_ctcssOn := cfg.m_ctcssOn
          m_ctcssFrequency := cfg.m_ctcssFrequency } }

/-- A configuration message that asks for a 440 Hz tone and otherwise repeats the
values the constructor installed. -/
def tone440 : MsgConfigureNFMMod where
  m_rfBandwidth := 12500
  m_afBandwidth := 3000
  m_fmDeviation := 5000
  m_toneFrequency := 440
  m_volumeFactor := 1
  m_channelMute := false
  m_playLoop := false
  m_ctcssOn := false
  m_ctcssFrequency := 177 / 2

/-- The constant `NFMMod::m_levelNbSamples` of `nfmmod.cpp`, line 36. -/
def m_levelNbSamples : Nat := 480

/-- The level meter members of `NFMMod`: `m_levelCalcCount` (`quint32`), `m_peakLevel`
and `m_levelSum`. -/
structure LevelMeter where
  m_levelCalcCount : Nat
  m_peakLevel : ℚ
  m_levelSum : ℚ
  deriving DecidableEq

/-- The arguments of one emission of the signal `levelChanged(rmsLevel, peakLevel,
numSamples)`. The rms level is `sqrt(m_levelSum / m_levelNbSamples)`; it is represented by
the quotient under the square root. -/
structure LevelChanged where
  rmsLevelSquared : ℚ
  peakLevel : ℚ
  numSamples : Nat
  deriving DecidableEq

/-- `NFMMod::calculateLevel`: the new meter and the emission, if any. -/
def calculateLevel (m : LevelMeter) (sample : ℚ) : LevelMeter × Option LevelChanged :=
  if m.m_levelCalcCount < m_levelNbSamples then
    ({ m_peakLevel := max |m.m_peakLevel| sample
       m_levelSum := m.m_levelSum + sample * sample
       m_levelCalcCount := m.m_levelCalcCount + 1 },
     none)
  else
    ({ m_peakLevel := 0, m_levelSum := 0, m_levelCalcCount := 0 },
     some
      { rmsLevelSquared := m.m_levelSum / (m_levelNbSamples : ℚ)
        peakLevel := m.m_peakLevel
        numSamples := m_levelNbSamples })

/-- Consecutive calls of `calculateLevel`, one per audio sample: the meter after the last
call and the emissions, in order. -/
def calculateLevels (m : LevelMeter) : List ℚ → LevelMeter × List LevelChanged
  | [] => (m, [])
  | sample :: samples =>
    let r := calculateLevel m sample
    let r2 := calculateLevels r.1 samples
    (r2.1, r.2.toList ++ r2.2)

/-- The meter as the constructor leaves it and as every emission leaves it. -/
def LevelMeter.reset : LevelMeter := { m_levelCalcCount := 0, m_peakLevel := 0, m_levelSum := 0 }

/-- The members of `NFMMod` that `openFileStream` and `seekFileStream` read or write:
whether `m_ifstream` is open, `m_fileSize` (`quint64`), `m_recordLength` (`quint32`) and
`m_sampleRate` (`int`). -/
structure FileSource where
  isOpen : Bool
  m_fileSize : Nat
  m_recordLength : Nat
  m_sampleRate : Int
  deriving DecidableEq

/-- `NFMMod::openFileStream` for a file that opens and whose size `tellg` reports as
`size` bytes. `sizeof(Real)` is 4; the divisor `sizeof(Real) * m_sampleRate` is a `size_t`
and the quotient is converted to `quint32`. -/
def openFileStream (size : Nat) : FileSource :=
  let m_fileSize := toUInt64 size
  let m_sampleRate : Int := 48000
  { isOpen := true
    m_fileSize := m_fileSize
    m_sampleRate := m_sampleRate
    m_recordLength := toUInt32 ((m_fileSize / toUInt64 (4 * toUInt64 m_sampleRate) : Nat) : Int) }

/-- `NFMMod::seekFileStream`: the offset handed to `m_ifstream.seekg`, `none` when the
stream is not open and no seek is made. `m_recordLength * seekPercentage` and the product
with `m_sampleRate` are `unsigned int` operations, the result is converted to `int`, and
`seekPoint *= sizeof(Real)` multiplies as `size_t` and converts back to `int`. -/
def seekFileStream (f : FileSource) (seekPercentage : Int) : Option Int :=
  if f.isOpen then
    let product : Nat := toUInt32 ((f.m_recordLength * toUInt32 seekPercentage : Nat) : Int)
    let seekPoint : Int :=
      toInt32 ((toUInt32 ((product / 100 * toUInt32 f.m_sampleRate : Nat) : Int) : Nat) : Int)
    let seekPoint : Int := toInt32 ((toUInt64 ((toUInt64 seekPoint * 4 : Nat) : Int) : Nat) : Int)
    some seekPoint
  else none

end NFMMod

namespace ATVDemod

/-- The enum `ATVStd` used by `ATVDemod::applyStandard`. -/
inductive ATVStd where
  | ATVStdPAL625 | ATVStdPAL525 | ATVStd405 | ATVStdShortInterleaved | ATVStdShort | ATVStdHSkip
  deriving DecidableEq

/-- The enum `ATVModulation` used by `ATVDemod::getRFBandwidthDivisor` and `demod`. -/
inductive ATVModulation where
  | ATV_FM1 | ATV_FM2 | ATV_FM3 | ATV_AM | ATV_USB | ATV_LSB
  deriving DecidableEq

/-- The pending/running set `m_objConfig` / `m_objRunning`; the fields are those the
source reads and writes. -/
structure ATVConfig where
  m_intSampleRate : Int
  m_enmATVStandard : ATVStd
  m_intNumberOfLines : Int
  m_fltLineDuration : ℚ
  m_fltTopDuration : ℚ
  m_fltFramePerS : ℚ
  m_fltRatioOfRowsToDisplay : ℚ
  m_fltVoltLevelSynchroTop : ℚ
  m_fltVoltLevelSynchroBlack : ℚ
  m_blnHSync : Bool
  m_blnVSync : Bool
  m_blnInvertVideo : Bool
  m_intVideoTabIndex : Int
  deriving DecidableEq

/-- The pending/running set `m_objRFConfig` / `m_objRFRunning`. -/
structure ATVRFConfig where
  m_intFrequencyOffset : Int
  m_enmModulation : ATVModulation
  m_fltRFBandwidth : ℚ
  m_fltRFOppBandwidth : ℚ
  m_blnFFTFiltering : Bool
  m_blndecimatorEnable : Bool
  m_fltBFOFrequency : ℚ
  m_fmDeviation : ℚ
  deriving DecidableEq

/-- The pending/running set `m_objConfigPrivate` / `m_objRunningPrivate`. -/
structure ATVConfigPrivate where
  m_intTVSampleRate : Int
  m_intNumberSamplePerLine : Int
  deriving DecidableEq

/-- What `applySettings` sets on the registered `ATVScreen`. -/
structure ATVScreen where
  renderImmediate : Bool
  cols : Int
  rows : Int
  deriving DecidableEq

/-- A call made by `ATVDemod::applySettings` on a DSP primitive or on the output
message queue, with its arguments. -/
inductive Call where
  | ncoSetFreq (freq : Int) (sampleRate : Int)
  | interpolatorCreate (phaseSteps : Nat) (sampleRate : Int) (cutoff : ℚ) (nbTapsPerPhase : ℚ)
  | createAsymFilter (fopp : ℚ) (fin : ℚ)
  | bfoPLLConfigure (freq : ℚ) (bandwidth : ℚ) (damping : ℚ)
  | bfoFilterSetFrequencies (frequency : ℚ) (sampleRate : Int)
  | setFMScaling (fmScaling : ℚ)
  | reportEffectiveSampleRate (sampleRate : Int) (nbPointsPerLine : Int)
  deriving DecidableEq

/-- The members of `ATVDemod` that `applySettings` and `applyStandard` read or write.
`m_objRegisteredATVScreen` is `none` for the null pointer the constructor installs. -/
structure State where
  m_objConfig : ATVConfig
  m_objRunning : ATVConfig
  m_objRFConfig : ATVRFConfig
  m_objRFRunning : ATVRFConfig
  m_objConfigPrivate : ATVConfigPrivate
  m_objRunningPrivate : ATVConfigPrivate
  m_objRegisteredATVScreen : Option ATVScreen
  m_interpolatorDistance : ℚ
  m_interpolatorDistanceRemain : ℚ
  m_intNumberOfLines : Int
  m_intNumberOfSyncLines : Int
  m_intNumberOfBlackLines : Int
  m_intNumberOfEqLines : Int
  m_interleaved : Bool
  m_intNumberSamplePerLineSignals : Int
  m_intNumberSaplesPerHSync : Int
  m_intNumberSamplePerTop : Int
  m_intImageIndex : Int
  m_intColIndex : Int
  m_intRowIndex : Int
  m_DSBFilterBuffer : List (ℚ × ℚ)
  m_DSBFilterBufferIndex : Int
  deriving DecidableEq

/-- The constant `ATVDemod::m_ssbFftLen`. -/
def m_ssbFftLen : Nat := 1024

/-- `ATVDemod::getRFBandwidthDivisor`. -/
def getRFBandwidthDivisor : ATVModulation → ℚ
  | .ATV_USB => 21 / 20
  | .ATV_LSB => 21 / 20
  | _ => 11 / 5

/-- `ATVDemod::applyStandard`. -/
def applyStandard (s : State) : State :=
  let t : State :=
    match s.m_objConfig.m_enmATVStandard with
    | .ATVStdHSkip =>
      { s with m_intNumberOfSyncLines := 0, m_intNumberOfBlackLines := 0,
               m_intNumberOfEqLines := 0, m_interleaved := false }
    | .ATVStdShort =>
      { s with m_intNumberOfSyncLines := 4, m_intNumberOfBlackLines := 4,
               m_intNumberOfEqLines := 0, m_interleaved := false }
    | .ATVStdShortInterleaved =>
      { s with m_intNumberOfSyncLines := 4, m_intNumberOfBlackLines := 4,
               m_intNumberOfEqLines := 0, m_interleaved := true }
    | .ATVStd405 =>
      { s with m_intNumberOfSyncLines := 24, m_intNumberOfBlackLines := 28,
               m_intNumberOfEqLines := 3, m_interleaved := true }
    | .ATVStdPAL525 =>
      { s with m_intNumberOfSyncLines := 40, m_intNumberOfBlackLines := 44,
               m_intNumberOfEqLines := 3, m_interleaved := true }
    | .ATVStdPAL625 =>
      { s with m_intNumberOfSyncLines := 44, m_intNumberOfBlackLines := 48,
               m_intNumberOfEqLines := 3, m_interleaved := true }
  { t with
    m_intNumberSamplePerLineSignals :=
      floatToInt ((12 / 64 : ℚ) * t.m_objConfig.m_fltLineDuration * t.m_objConfig.m_intSampleRate)
    m_intNumberSaplesPerHSync :=
      floatToInt ((48 / 5 / 64 : ℚ) * t.m_objConfig.m_fltLineDuration * t.m_objConfig.m_intSampleRate) }

/-- The loop `for (; i > 0; i--) if ((i * linesPerSecond) % 10 == 0) break;` started at
`i`: the value of `i` when the loop is left. -/
def searchPoints (linesPerSecond : Int) : Nat → Nat
  | 0 => 0
  | i + 1 =>
    if (((i + 1 : Nat) : Int) * linesPerSecond).tmod 10 = 0 then i + 1
    else searchPoints linesPerSecond i

/-- The value of `i` after the loop of `applySettings`, for any `maxPoints`: the loop
body does not run when `maxPoints <= 0`. -/
def loopExit (linesPerSecond maxPoints : Int) : Int :=
  if 0 < maxPoints then (searchPoints linesPerSecond maxPoints.toNat : Int) else maxPoints

/-- `linesPerSecond` of `applySettings`: the float product converted to `int`. -/
def linesPerSecond (c : ATVConfig) : Int :=
  floatToInt ((c.m_intNumberOfLines : ℚ) * c.m_fltFramePerS)

/-- The condition of the first block of `applySettings` (NCO). -/
def ncoChanged (s : State) : Prop :=
  s.m_objRFConfig.m_intFrequencyOffset ≠ s.m_objRFRunning.m_intFrequencyOffset
    ∨ s.m_objRFConfig.m_enmModulation ≠ s.m_objRFRunning.m_enmModulation
    ∨ s.m_objConfig.m_intSampleRate ≠ s.m_objRunning.m_intSampleRate

instance (s : State) : Decidable (ncoChanged s) := by unfold ncoChanged; infer_instance

/-- The condition of the second block of `applySettings` (TV sample rate, interpolator). -/
def rateChanged (s : State) : Prop :=
  s.m_objConfig.m_intSampleRate ≠ s.m_objRunning.m_intSampleRate
    ∨ s.m_objRFConfig.m_fltRFBandwidth ≠ s.m_objRFRunning.m_fltRFBandwidth
    ∨ s.m_objConfig.m_fltFramePerS ≠ s.m_objRunning.m_fltFramePerS
    ∨ s.m_objConfig.m_intNumberOfLines ≠ s.m_objRunning.m_intNumberOfLines

instance (s : State) : Decidable (rateChanged s) := by unfold rateChanged; infer_instance

/-- The condition of the third block of `applySettings` (framing, screen size). -/
def frameChanged (s : State) : Prop :=
  s.m_objConfig.m_fltFramePerS ≠ s.m_objRunning.m_fltFramePerS
    ∨ s.m_objConfig.m_fltLineDuration ≠ s.m_objRunning.m_fltLineDuration
    ∨ s.m_objConfig.m_intSampleRate ≠ s.m_objRunning.m_intSampleRate
    ∨ s.m_objConfig.m_fltTopDuration ≠ s.m_objRunning.m_fltTopDuration
    ∨ s.m_objConfig.m_fltRatioOfRowsToDisplay ≠ s.m_objRunning.m_fltRatioOfRowsToDisplay
    ∨ s.m_objConfig.m_enmATVStandard ≠ s.m_objRunning.m_enmATVStandard
    ∨ s.m_objConfig.m_intNumberOfLines ≠ s.m_objRunning.m_intNumberOfLines

instance (s : State) : Decidable (frameChanged s) := by unfold frameChanged; infer_instance

/-- The second block of `applySettings`, entered when `rateChanged`. The integer division
by `linesPerSecond` is undefined for a zero divisor: `none`. -/
def applyRate (s : State) : Option (State × List Call) :=
  let lps := linesPerSecond s.m_objConfig
  if lps = 0 then none
  else
    let maxPoints := s.m_objConfig.m_intSampleRate.tdiv lps
    let i := loopExit lps maxPoints
    let nbPointsPerRateUnit := if i = 0 then maxPoints else i
    let tv := nbPointsPerRateUnit * lps
    let s1 : State :=
      if 0 < tv then
        { s with
          m_objConfigPrivate := { s.m_objConfigPrivate with m_intTVSampleRate := tv }
          m_interpolatorDistance := (tv : ℚ) / (s.m_objConfig.m_intSampleRate : ℚ) }
      else
        { s with
          m_objConfigPrivate :=
            { s.m_objConfigPrivate with m_intTVSampleRate := s.m_objConfig.m_intSampleRate }
          m_interpolatorDistance := 1 }
    some ({ s1 with m_interpolatorDistanceRemain := 0 },
      [.interpolatorCreate 24 s1.m_objConfigPrivate.m_intTVSampleRate
        (s1.m_objRFConfig.m_fltRFBandwidth
          / getRFBandwidthDivisor s1.m_objRFConfig.m_enmModulation) 3])

/-- The third block of `applySettings`, entered when `frameChanged`. The calls through
`m_objRegisteredATVScreen` are undefined for the null pointer: `none`. -/
def applyFrame (s : State) : Option State :=
  let s1 := applyStandard { s with m_intNumberOfLines := s.m_objConfig.m_intNumberOfLines }
  let s2 : State :=
    { s1 with
      m_objConfigPrivate :=
        { s1.m_objConfigPrivate with
          m_intNumberSamplePerLine :=
            floatToInt (s1.m_objConfig.m_fltLineDuration * s1.m_objConfig.m_intSampleRate) }
      m_intNumberSamplePerTop :=
        floatToInt (s1.m_objConfig.m_fltTopDuration * s1.m_objConfig.m_intSampleRate) }
  match s2.m_objRegisteredATVScreen with
  | none => none
  | some _ =>
    some { s2 with
      m_objRegisteredATVScreen := some
        { renderImmediate := !(decide (25 < s2.m_objConfig.m_fltFramePerS))
          cols := s2.m_objConfigPrivate.m_intNumberSamplePerLine
                    - s2.m_intNumberSamplePerLineSignals
          rows := s2.m_intNumberOfLines - s2.m_intNumberOfBlackLines }
      m_intImageIndex := 0
      m_intColIndex := 0
      m_intRowIndex := 0 }

/-- The condition that sets `forwardSampleRateChange` in `applySettings`. -/
def forwardChanged (s : State) : Prop :=
  s.m_objConfigPrivate.m_intTVSampleRate ≠ s.m_objRunningPrivate.m_intTVSampleRate
    ∨ s.m_objConfigPrivate.m_intNumberSamplePerLine
        ≠ s.m_objRunningPrivate.m_intNumberSamplePerLine
    ∨ s.m_objConfig.m_intSampleRate ≠ s.m_objRunning.m_intSampleRate
    ∨ s.m_objRFConfig.m_blndecimatorEnable ≠ s.m_objRFRunning.m_blndecimatorEnable

instance (s : State) : Decidable (forwardChanged s) := by unfold forwardChanged; infer_instance

/-- The block of `applySettings` that rebuilds the asymmetric FFT filter. -/
def applyDSBFilter (s : State) : State × List Call :=
  if s.m_objConfigPrivate.m_intTVSampleRate ≠ s.m_objRunningPrivate.m_intTVSampleRate
      ∨ s.m_objRFConfig.m_fltRFBandwidth ≠ s.m_objRFRunning.m_fltRFBandwidth
      ∨ s.m_objRFConfig.m_fltRFOppBandwidth ≠ s.m_objRFRunning.m_fltRFOppBandwidth then
    ({ s with
        m_DSBFilterBuffer := List.replicate m_ssbFftLen (0, 0)
        m_DSBFilterBufferIndex := 0 },
     [.createAsymFilter
        (s.m_objRFConfig.m_fltRFOppBandwidth / (s.m_objConfigPrivate.m_intTVSampleRate : ℚ))
        (s.m_objRFConfig.m_fltRFBandwidth / (s.m_objConfigPrivate.m_intTVSampleRate : ℚ))])
  else (s, [])

/-- The block of `applySettings` that reconfigures the BFO PLL and its filter. -/
def applyBFO (s : State) : List Call :=
  if s.m_objConfigPrivate.m_intTVSampleRate ≠ s.m_objRunningPrivate.m_intTVSampleRate
      ∨ s.m_objRFConfig.m_fltBFOFrequency ≠ s.m_objRFRunning.m_fltBFOFrequency then
    [.bfoPLLConfigure
        (s.m_objRFConfig.m_fltBFOFrequency / (s.m_objConfigPrivate.m_intTVSampleRate : ℚ))
        (100 / (s.m_objConfigPrivate.m_intTVSampleRate : ℚ)) (1 / 100),
     .bfoFilterSetFrequencies s.m_objRFConfig.m_fltBFOFrequency
        s.m_objConfigPrivate.m_intTVSampleRate]
  else []

/-- The block of `applySettings` that rescales the phase discriminator. -/
def applyFMScaling (s : State) : List Call :=
  if s.m_objRFConfig.m_fmDeviation ≠ s.m_objRFRunning.m_fmDeviation then
    [.setFMScaling (1 / s.m_objRFConfig.m_fmDeviation)]
  else []

/-- The three assignments `m_objRunning = m_objConfig; m_objRFRunning = m_objRFConfig;
m_objRunningPrivate = m_objConfigPrivate;` of `applySettings`. -/
def copyRunning (s : State) : State :=
  { s with
    m_objRunning := s.m_objConfig
    m_objRFRunning := s.m_objRFConfig
    m_objRunningPrivate := s.m_objConfigPrivate }

/-- The report pushed at the end of `applySettings` when `forwardSampleRateChange`. -/
def report (s : State) : Call :=
  .reportEffectiveSampleRate
    (if s.m_objRFRunning.m_blndecimatorEnable then s.m_objRunningPrivate.m_intTVSampleRate
     else s.m_objRunning.m_intSampleRate)
    s.m_objRunningPrivate.m_intNumberSamplePerLine

/-- `ATVDemod::applySettings`: the new state and the calls made, or `none` where the
C++ has no defined result (integer division by zero, call through the null screen). -/
def applySettings (s : State) : Option (State × List Call) :=
  if s.m_objConfig.m_intSampleRate = 0 then some (s, [])
  else
    let c1 : List Call :=
      if ncoChanged s then
        [.ncoSetFreq (-s.m_objRFConfig.m_intFrequencyOffset) s.m_objConfig.m_intSampleRate]
      else []
    (if rateChanged s then applyRate s else some (s, [])).bind fun r2 =>
    (if frameChanged r2.1 then applyFrame r2.1 else some r2.1).bind fun s3 =>
    let forwardSampleRateChange := decide (forwardChanged s3)
    let r4 := applyDSBFilter s3
    let c5 := applyBFO r4.1
    let c6 := applyFMScaling r4.1
    let s7 := copyRunning r4.1
    some (s7, c1 ++ r2.2 ++ r4.2 ++ c5 ++ c6
                ++ (if forwardSampleRateChange then [report s7] else []))

/-- The branch of `ATVDemod::handleMessage` for `MsgConfigureATVDemod`: the message's
configuration set replaces `m_objConfig`, then `applySettings()`. -/
def handleConfigure (s : State) (m_objMsgConfig : ATVConfig) : Option (State × List Call) :=
  applySettings { s with m_objConfig := m_objMsgConfig }

/-- The branch of `ATVDemod::handleMessage` for `MsgChannelizerNotification`. -/
def handleChannelizerNotification (s : State) (sampleRate frequencyOffset : Int) :
    Option (State × List Call) :=
  applySettings
    { s with
      m_objConfig := { s.m_objConfig with m_intSampleRate := sampleRate }
      m_objRFConfig := { s.m_objRFConfig with m_intFrequencyOffset := frequencyOffset } }

/-- A PAL 625-line configuration set at the given sample rate. -/
def pal625 (sampleRate : Int) : ATVConfig where
  m_intSampleRate := sampleRate
  m_enmATVStandard := .ATVStdPAL625
  m_intNumberOfLines := 625
  m_fltLineDuration := 64 / 1000000
  m_fltTopDuration := 3 / 1000000
  m_fltFramePerS := 25
  m_fltRatioOfRowsToDisplay := 1 / 2
  m_fltVoltLevelSynchroTop := 0
  m_fltVoltLevelSynchroBlack := 1
  m_blnHSync := false
  m_blnVSync := false
  m_blnInvertVideo := false
  m_intVideoTabIndex := 0

/-- An RF configuration set: FM1, 6 MHz. -/
def rfFM1 : ATVRFConfig where
  m_intFrequencyOffset := 0
  m_enmModulation := .ATV_FM1
  m_fltRFBandwidth := 6000000
  m_fltRFOppBandwidth := 0
  m_blnFFTFiltering := false
  m_blndecimatorEnable := false
  m_fltBFOFrequency := 0
  m_fmDeviation := 1

/-- A demodulator with a registered screen whose running sets are `running` and `rfFM1`
and whose pending sets are `pending` and `rfFM1`. -/
def stateWith (pending running : ATVConfig) : State where
  m_objConfig := pending
  m_objRunning := running
  m_objRFConfig := rfFM1
  m_objRFRunning := rfFM1
  m_objConfigPrivate := { m_intTVSampleRate := 0, m_intNumberSamplePerLine := 0 }
  m_objRunningPrivate := { m_intTVSampleRate := 0, m_intNumberSamplePerLine := 0 }
  m_objRegisteredATVScreen := some { renderImmediate := false, cols := 0, rows := 0 }
  m_interpolatorDistance := 1
  m_interpolatorDistanceRemain := 0
  m_intNumberOfLines := 0
  m_intNumberOfSyncLines := 44
  m_intNumberOfBlackLines := 48
  m_intNumberOfEqLines := 3
  m_interleaved := true
  m_intNumberSamplePerLineSignals := 0
  m_intNumberSaplesPerHSync := 0
  m_intNumberSamplePerTop := 0
  m_intImageIndex := 0
  m_intColIndex := 0
  m_intRowIndex := 0
  m_DSBFilterBuffer := List.replicate m_ssbFftLen (0, 0)
  m_DSBFilterBufferIndex := 0

/-- The states at which `applySettings`, once past its sample-rate guard, has no defined
result: the rate block divides by a zero `linesPerSecond`, or the framing block calls
through a null screen pointer. -/
def applySettingsUndefined (s : State) : Prop :=
  (rateChanged s ∧ linesPerSecond s.m_objConfig = 0)
    ∨ (frameChanged s ∧ s.m_objRegisteredATVScreen = none)

/-- A demodulator that has not yet been told its sample rate (pending rate 0), running a
405-line configuration while a 625-line one is pending. -/
def stalled : State :=
  stateWith (pal625 0) { pal625 0 with m_intNumberOfLines := 405 }

/-- Modelled from the spec: the framer table `(sync, black, eq, interleaved)` per
standard. -/
def framerTable : ATVStd → Int × Int × Int × Bool
  | .ATVStdHSkip => (0, 0, 0, false)
  | .ATVStdShort => (4, 4, 0, false)
  | .ATVStdShortInterleaved => (4, 4, 0, true)
  | .ATVStd405 => (24, 28, 3, true)
  | .ATVStdPAL525 => (40, 44, 3, true)
  | .ATVStdPAL625 => (44, 48, 3, true)

/-- A demodulator with a registered screen to which a PAL 625-line configuration at
20 kS/s is pending (15625 lines per second, so `maxPoints` is 1). -/
def slowPal : State := stateWith (pal625 20000) (pal625 0)

/-- A demodulator with a registered screen to which a PAL 625-line configuration at
2.01 MS/s is pending: 15625 lines per second, `maxPoints` 128 and a TV sample rate of
2 MS/s. -/
def offGrid : State := stateWith (pal625 2010000) (pal625 0)

end ATVDemod

namespace UDPSink

/-- The sample formats `UDPSink::modulateSample` distinguishes; `FormatNone` stands for
every other value of the enum. -/
inductive SampleFormat where
  | FormatS16LE | FormatNFM | FormatLSB | FormatUSB | FormatAM | FormatNone
  deriving DecidableEq

/-- The pending/running set `m_config` / `m_running` of `UDPSink`: the fields
`udpsink.cpp` reads and writes. -/
structure Config where
  m_basebandSampleRate : Int
  m_outputSampleRate : ℚ
  m_inputFrequencyOffset : Int
  m_sampleFormat : SampleFormat
  m_inputSampleRate : ℚ
  m_rfBandwidth : ℚ
  m_lowCutoff : ℚ
  m_fmDeviation : Int
  m_amModFactor : ℚ
  m_udpAddressStr : String
  m_udpPort : Int
  m_channelMute : Bool
  m_gainIn : ℚ
  m_gainOut : ℚ
  m_squelch : ℚ
  m_squelchGate : ℚ
  m_squelchEnabled : Bool
  m_autoRWBalance : Bool
  m_stereoInput : Bool
  deriving DecidableEq

/-- The squelch flag and counters that `initSquelch` acts on. -/
structure Squelch where
  m_squelchOpen : Bool
  m_squelchOpenCount : Int
  m_squelchCloseCount : Int
  deriving DecidableEq

/-- The two helpers `udpsink.cpp` calls without defining them: `CalcDb::powerFromdB`
and `UDPSink::initSquelch`, the latter given the threshold in force, its argument and
the squelch flag and counters. -/
structure Helpers where
  powerFromdB : ℚ → ℚ
  initSquelch : ℚ → Bool → Squelch → Squelch

/-- A call made by `UDPSink::apply` on a DSP primitive or on the UDP handler. -/
inductive Call where
  | carrierNcoSetFreq (freq : Int) (sampleRate : ℚ)
  | interpolatorCreate (phaseSteps : Nat) (sampleRate : ℚ) (cutoff : ℚ) (nbTapsPerPhase : ℚ)
  | resetReadIndex
  | resizeBuffer (sampleRate : ℚ)
  | inMovingAverageResize (historySize : ℚ) (initial : ℚ)
  | ssbCreateFilter (f1 : ℚ) (f2 : ℚ)
  | configureUDPLink (address : String) (port : Int)
  | setAutoRWBalance (autoRWBalance : Bool)
  deriving DecidableEq

/-- The members of `UDPSink` that `handleMessage` and `apply` read or write. Members
assigned from a float expression hold the value of that expression. -/
structure State where
  m_config : Config
  m_running : Config
  m_interpolatorDistance : ℚ
  m_interpolatorDistanceRemain : ℚ
  m_interpolatorConsumed : Bool
  m_actualInputSampleRate : ℚ
  m_sampleRateSum : ℚ
  m_sampleRateAvgCounter : Int
  m_sampleRateAverageItems : Int
  m_spectrumEnabled : Bool
  m_spectrumChunkSize : ℚ
  m_spectrumChunkCounter : Int
  m_levelNbSamples : ℚ
  m_levelCalcCount : Int
  m_peakLevel : ℚ
  m_levelSum : ℚ
  m_squelchThreshold : ℚ
  squelch : Squelch
  deriving DecidableEq

/-- The message `UDPSink::MsgUDPSinkConfigure`: one field per argument of `create`. -/
structure MsgUDPSinkConfigure where
  m_sampleFormat : SampleFormat
  m_inputSampleRate : ℚ
  m_rfBandwidth : ℚ
  m_fmDeviation : Int
  m_amModFactor : ℚ
  m_udpAddress : String
  m_udpPort : Int
  m_channelMute : Bool
  m_gainIn : ℚ
  m_gainOut : ℚ
  m_squelchDB : ℚ
  m_squelchGate : ℚ
  m_squelchEnabled : Bool
  m_autoRWBalance : Bool
  m_stereoInput : Bool
  m_force : Bool
  deriving DecidableEq

/-- `UDPSink::configure`: the message it pushes on the queue, built from its arguments in
the order of `MsgUDPSinkConfigure::create`. -/
def configure (sampleFormat : SampleFormat) (outputSampleRate rfBandwidth : ℚ)
    (fmDeviation : Int) (amModFactor : ℚ) (udpAddress : String) (udpPort : Int)
    (channelMute : Bool) (gainIn gainOut squelchDB squelchGate : ℚ)
    (squelchEnabled autoRWBalance stereoInput force : Bool) : MsgUDPSinkConfigure where
  m_sampleFormat := sampleFormat
  m_inputSampleRate := outputSampleRate
  m_rfBandwidth := rfBandwidth
  m_fmDeviation := fmDeviation
  m_amModFactor := amModFactor
  m_udpAddress := udpAddress
  m_udpPort := udpPort
  m_channelMute := channelMute
  m_gainIn := gainIn
  m_gainOut := gainOut
  m_squelchDB := squelchDB
  m_squelchGate := squelchGate
  m_squelchEnabled := squelchEnabled
  m_autoRWBalance := autoRWBalance
  m_stereoInput := stereoInput
  m_force := force

/-- First block of `UDPSink::apply`: carrier NCO. -/
def applyCarrierNco (s : State) (force : Bool) : List Call :=
  if s.m_config.m_inputFrequencyOffset ≠ s.m_running.m_inputFrequencyOffset
      ∨ s.m_config.m_outputSampleRate ≠ s.m_running.m_outputSampleRate ∨ force = true then
    [.carrierNcoSetFreq s.m_config.m_inputFrequencyOffset s.m_config.m_outputSampleRate]
  else []

/-- Second block of `UDPSink::apply`: resampler, rate averager, chunk and level sizes,
input power average, squelch threshold, SSB filter. -/
def applyRates (hp : Helpers) (s : State) (force : Bool) : State × List Call :=
  if s.m_config.m_outputSampleRate ≠ s.m_running.m_outputSampleRate
      ∨ s.m_config.m_rfBandwidth ≠ s.m_running.m_rfBandwidth
      ∨ s.m_config.m_inputSampleRate ≠ s.m_running.m_inputSampleRate ∨ force = true then
    let threshold := s.m_config.m_inputSampleRate * s.m_config.m_squelchGate
    ({ s with
        m_interpolatorDistanceRemain := 0
        m_interpolatorConsumed := false
        m_interpolatorDistance := s.m_config.m_inputSampleRate / s.m_config.m_outputSampleRate
        m_actualInputSampleRate := s.m_config.m_inputSampleRate
        m_sampleRateSum := 0
        m_sampleRateAvgCounter := 0
        m_spectrumChunkSize := s.m_config.m_inputSampleRate * (5 / 100)
        m_spectrumChunkCounter := 0
        m_levelNbSamples := s.m_config.m_inputSampleRate * (1 / 100)
        m_levelCalcCount := 0
        m_peakLevel := 0
        m_levelSum := 0
        m_squelchThreshold := threshold
        squelch := hp.initSquelch threshold s.squelch.m_squelchOpen s.squelch },
     [.interpolatorCreate 48 s.m_config.m_inputSampleRate (s.m_config.m_rfBandwidth / (11 / 5)) 3,
      .resetReadIndex,
      .resizeBuffer s.m_config.m_inputSampleRate,
      .inMovingAverageResize (s.m_config.m_inputSampleRate * (1 / 100)) (1 / 10000000000),
      .ssbCreateFilter (s.m_config.m_lowCutoff / s.m_config.m_inputSampleRate)
        (s.m_config.m_rfBandwidth / s.m_config.m_inputSampleRate)])
  else (s, [])

/-- Third block of `UDPSink::apply`: squelch threshold on a gate change or force. -/
def applySquelchGate (hp : Helpers) (s : State) (force : Bool) : State :=
  if s.m_config.m_squelchGate ≠ s.m_running.m_squelchGate ∨ force = true then
    let threshold := s.m_config.m_outputSampleRate * s.m_config.m_squelchGate
    { s with
      m_squelchThreshold := threshold
      squelch := hp.initSquelch threshold s.squelch.m_squelchOpen s.squelch }
  else s

/-- Fourth block of `UDPSink::apply`: UDP link. -/
def applyUDPLink (s : State) (force : Bool) : List Call :=
  if s.m_config.m_udpAddressStr ≠ s.m_running.m_udpAddressStr
      ∨ s.m_config.m_udpPort ≠ s.m_running.m_udpPort ∨ force = true then
    [.configureUDPLink s.m_config.m_udpAddressStr s.m_config.m_udpPort]
  else []

/-- Fifth block of `UDPSink::apply`: read index reset when the channel is unmuted. -/
def applyChannelMute (s : State) (force : Bool) : List Call :=
  if s.m_config.m_channelMute ≠ s.m_running.m_channelMute ∨ force = true then
    if s.m_config.m_channelMute = false then [.resetReadIndex] else []
  else []

/-- Sixth block of `UDPSink::apply`: automatic read/write balance. -/
def applyAutoRWBalance (s : State) (force : Bool) : State × List Call :=
  if s.m_config.m_autoRWBalance ≠ s.m_running.m_autoRWBalance ∨ force = true then
    if s.m_config.m_autoRWBalance = false then
      ({ s with
          m_interpolatorDistanceRemain := 0
          m_interpolatorConsumed := false
          m_interpolatorDistance := s.m_config.m_inputSampleRate / s.m_config.m_outputSampleRate
          m_actualInputSampleRate := s.m_config.m_inputSampleRate },
       [.setAutoRWBalance s.m_config.m_autoRWBalance,
        .interpolatorCreate 48 s.m_config.m_inputSampleRate
          (s.m_config.m_rfBandwidth / (11 / 5)) 3,
        .resetReadIndex])
    else (s, [.setAutoRWBalance s.m_config.m_autoRWBalance])
  else (s, [])

/-- `UDPSink::apply(force)`: the new state and the calls made, in order. It ends with
`m_running = m_config`. -/
def apply (hp : Helpers) (s : State) (force : Bool) : State × List Call :=
  let c1 := applyCarrierNco s force
  let r2 := applyRates hp s force
  let s3 := applySquelchGate hp r2.1 force
  let c4 := applyUDPLink s3 force
  let c5 := applyChannelMute s3 force
  let r6 := applyAutoRWBalance s3 force
  ({ r6.1 with m_running := r6.1.m_config }, c1 ++ r2.2 ++ c4 ++ c5 ++ r6.2)

/-- The branch of `UDPSink::handleMessage` for `MsgUDPSinkConfigure`: fourteen
assignments to `m_config`, then `apply(cfg.getForce())`. The message's AM modulation
factor is not among the assignments. -/
def handleConfigure (hp : Helpers) (s : State) (cfg : MsgUDPSinkConfigure) :
    State × List Call :=
  apply hp
    { s with
      m_config :=
        { s.m_config with
          m_sampleFormat := cfg.m_sampleFormat
          m_inputSampleRate := cfg.m_inputSampleRate
          m_rfBandwidth := cfg.m_rfBandwidth
          m_fmDeviation := cfg.m_fmDeviation
          m_udpAddressStr := cfg.m_udpAddress
          m_udpPort := cfg.m_udpPort
          m_channelMute := cfg.m_channelMute
          m_gainIn := cfg.m_gainIn
          m_gainOut := cfg.m_gainOut
          m_squelch := hp.powerFromdB cfg.m_squelchDB
          m_squelchGate := cfg.m_squelchGate
          m_squelchEnabled := cfg.m_squelchEnabled
          m_autoRWBalance := cfg.m_autoRWBalance
          m_stereoInput := cfg.m_stereoInput } }
    cfg.m_force

/-- The branch of `UDPSink::handleMessage` for `MsgChannelizerNotification`. -/
def handleChannelizerNotification (hp : Helpers) (s : State)
    (basebandSampleRate : Int) (sampleRate : ℚ) (frequencyOffset : Int) : State × List Call :=
  apply hp
    { s with
      m_config :=
        { s.m_config with
          m_basebandSampleRate := basebandSampleRate
          m_outputSampleRate := sampleRate
          m_inputFrequencyOffset := frequencyOffset } }
    false

/-- A configuration set for AM at 48 kS/s with modulation factor 0.95. -/
def am48k : Config where
  m_basebandSampleRate := 48000
  m_outputSampleRate := 48000
  m_inputFrequencyOffset := 0
  m_sampleFormat := .FormatAM
  m_inputSampleRate := 48000
  m_rfBandwidth := 12500
  m_lowCutoff := 300
  m_fmDeviation := 1
  m_amModFactor := 19 / 20
  m_udpAddressStr := "127.0.0.1"
  m_udpPort := 9999
  m_channelMute := false
  m_gainIn := 1
  m_gainOut := 1
  m_squelch := 1 / 1000
  m_squelchGate := 1 / 20
  m_squelchEnabled := true
  m_autoRWBalance := true
  m_stereoInput := false

/-- A modulator whose pending and running sets both are `am48k`. -/
def settled : State where
  m_config := am48k
  m_running := am48k
  m_interpolatorDistance := 1
  m_interpolatorDistanceRemain := 0
  m_interpolatorConsumed := false
  m_actualInputSampleRate := 48000
  m_sampleRateSum := 0
  m_sampleRateAvgCounter := 0
  m_sampleRateAverageItems := 128
  m_spectrumEnabled := false
  m_spectrumChunkSize := 2400
  m_spectrumChunkCounter := 0
  m_levelNbSamples := 480
  m_levelCalcCount := 0
  m_peakLevel := 0
  m_levelSum := 0
  m_squelchThreshold := 2400
  squelch := { m_squelchOpen := false, m_squelchOpenCount := 0, m_squelchCloseCount := 0 }

/-- Stand-ins for the two helpers, used only to evaluate the functions above on
concrete states: a squelch level that ignores the dB figure and an `initSquelch` that
clears the counters. -/
def sampleHelpers : Helpers where
  powerFromdB := fun _ => 1 / 1000
  initSquelch := fun _ open_ _ =>
    { m_squelchOpen := open_, m_squelchOpenCount := 0, m_squelchCloseCount := 0 }

/-- The message `configure` builds when the caller asks for an AM modulation factor of
0.5 and otherwise repeats `am48k`. -/
def amFactorHalf : MsgUDPSinkConfigure :=
  configure .FormatAM 48000 12500 1 (1 / 2) "127.0.0.1" 9999 false 1 1 (-30) (1 / 20)
    true true false false

/-- The message `UDPSinkMessages::MsgSampleRateCorrection` (`udpsinkmsg.h` is not among
the sources): the two values `handleMessage` reads from it. -/
structure MsgSampleRateCorrection where
  m_correctionFactor : ℚ
  m_rawDeltaRatio : ℚ
  deriving DecidableEq

/-- The branch of `UDPSink::handleMessage` for `MsgSampleRateCorrection`: the value
returned and the new state. The divisions are those of the rationals; the float results of
a division by a zero averaging length or a zero output rate are not represented. -/
def handleSampleRateCorrection (s : State) (cfg : MsgSampleRateCorrection) : Bool × State :=
  let newSampleRate := s.m_actualInputSampleRate + cfg.m_correctionFactor * s.m_actualInputSampleRate
  if newSampleRate < s.m_running.m_inputSampleRate * (6 / 5)
      ∧ s.m_running.m_inputSampleRate * (4 / 5) < newSampleRate then
    let s1 : State := { s with m_actualInputSampleRate := newSampleRate }
    let s2 : State :=
      if -(1 / 20) < cfg.m_rawDeltaRatio ∨ cfg.m_rawDeltaRatio < 1 / 20 then
        if s1.m_sampleRateAvgCounter < s1.m_sampleRateAverageItems then
          { s1 with
            m_sampleRateSum := s1.m_sampleRateSum + s1.m_actualInputSampleRate
            m_sampleRateAvgCounter := s1.m_sampleRateAvgCounter + 1 }
        else s1
      else
        { s1 with m_sampleRateSum := 0, m_sampleRateAvgCounter := 0 }
    let s3 : State :=
      if s2.m_sampleRateAvgCounter = s2.m_sampleRateAverageItems then
        let avgRate := s2.m_sampleRateSum / (s2.m_sampleRateAverageItems : ℚ)
        { s2 with
          m_actualInputSampleRate := avgRate
          m_sampleRateSum := 0
          m_sampleRateAvgCounter := 0 }
      else s2
    (true,
      { s3 with
        m_interpolatorDistanceRemain := 0
        m_interpolatorConsumed := false
        m_interpolatorDistance := s3.m_actualInputSampleRate / s3.m_config.m_outputSampleRate })
  else (true, s)

/-- Consecutive `MsgSampleRateCorrection` messages handled one after the other. -/
def handleSampleRateCorrections (s : State) (msgs : List MsgSampleRateCorrection) : State :=
  msgs.foldl (fun t cfg => (handleSampleRateCorrection t cfg).2) s

/-- The members of `UDPSink` that the last block of `modulateSample` (lines 237-250) reads
or writes. `m_spectrum` is `false` for the null pointer; the chunk size and counter are
taken as `int` (`udpsink.h` is not among the sources). -/
structure SpectrumFeed where
  m_spectrum : Bool
  m_spectrumEnabled : Bool
  m_spectrumChunkSize : Int
  m_spectrumChunkCounter : Int
  m_sampleBuffer : List (Int × Int)
  deriving DecidableEq

/-- What the code outside `udpsink.cpp` delivers to one call of `modulateSample`: the
sample that `readSample` or `readMonoSample` reads, `m_squelchOpen` after
`calculateSquelch`, the cosine and sine of `m_modPhasor` after its update, and the entry of
`m_SSBFilterBuffer` that is read. -/
structure ModInputs where
  s : ℚ × ℚ
  t : ℚ
  squelchOpen : Bool
  phasor : ℚ × ℚ
  filtered : ℚ × ℚ
  deriving DecidableEq

/-- The value of `m_modSample` after the format branches of `modulateSample`, lines
123-235. The squelch, the level meter, the phasor and the SSB buffer index that these
branches also update are not represented. -/
def modSample (running : Config) (i : ModInputs) : ℚ × ℚ :=
  match running.m_sampleFormat with
  | .FormatS16LE =>
    if i.squelchOpen then (i.s.1 * running.m_gainOut, i.s.2 * running.m_gainOut) else (0, 0)
  | .FormatNFM =>
    if i.squelchOpen then
      (i.phasor.1 * (51811 / 5) * running.m_gainOut, i.phasor.2 * (51811 / 5) * running.m_gainOut)
    else (0, 0)
  | .FormatAM =>
    if i.squelchOpen then
      (((i.t / 32768) * running.m_amModFactor * running.m_gainOut + 1) * 16384, 0)
    else (0, 0)
  | .FormatLSB => if i.squelchOpen then (i.filtered.1 * 32768, i.filtered.2 * 32768) else (0, 0)
  | .FormatUSB => if i.squelchOpen then (i.filtered.1 * 32768, i.filtered.2 * 32768) else (0, 0)
  | .FormatNone => (0, 0)

/-- `UDPSink::modulateSample`, as far as the spectrum sink is concerned: the new members
and the buffers handed to `m_spectrum->feed`, in order. The call `m_spectrum->feed` through
the null pointer is undefined: `none`. -/
def modulateSample (running : Config) (m : SpectrumFeed) (i : ModInputs) :
    Option (SpectrumFeed × List (List (Int × Int))) :=
  let m_modSample := modSample running i
  if m.m_spectrum = true ∧ m.m_spectrumEnabled = true
      ∧ m.m_spectrumChunkCounter < m.m_spectrumChunkSize - 1 then
    some
      ({ m with
          m_sampleBuffer := m.m_sampleBuffer ++ [(floatToInt m_modSample.1, floatToInt m_modSample.2)]
          m_spectrumChunkCounter := m.m_spectrumChunkCounter + 1 },
       [])
  else if m.m_spectrum = true then
    some ({ m with m_sampleBuffer := [], m_spectrumChunkCounter := 0 }, [m.m_sampleBuffer])
  else none

/-- The modulator `settled` with the averaging length replaced. -/
def averaging (items : Int) : State := { settled with m_sampleRateAverageItems := items }

/-- The modulator `settled` with a pending output rate of 64 kS/s: the input is
resampled from 48 kS/s. -/
def resampled : State :=
  { settled with m_config := { am48k with m_outputSampleRate := 64000 } }

/-- A correction message with a correction factor and a raw delta ratio of +0.1. -/
def outlier : MsgSampleRateCorrection := { m_correctionFactor := 1 / 10, m_rawDeltaRatio := 1 / 10 }

/-- A correction message with a correction factor of +0.001. -/
def sustained : MsgSampleRateCorrection :=
  { m_correctionFactor := 1 / 1000, m_rawDeltaRatio := 1 / 1000 }

/-- The members of the constructor's initializer list for the spectrum sink, for a sink
pointer `spectrum`: disabled, chunk size 2160, counter 0, empty buffer. -/
def constructed (spectrum : Bool) : SpectrumFeed :=
  { m_spectrum := spectrum, m_spectrumEnabled := false, m_spectrumChunkSize := 2160,
    m_spectrumChunkCounter := 0, m_sampleBuffer := [] }

/-- The actual input sample rate lies strictly between 0.8 and 1.2 times the running
nominal input sample rate. -/
def WithinWindow (s : State) : Prop :=
  s.m_running.m_inputSampleRate * (4 / 5) < s.m_actualInputSampleRate
    ∧ s.m_actualInputSampleRate < s.m_running.m_inputSampleRate * (6 / 5)

instance (s : State) : Decidable (WithinWindow s) := by unfold WithinWindow; infer_instance

/-- The averager holds fewer rates than the averaging length, and its sum is that of
`m_sampleRateAvgCounter` rates within the window. -/
def AveragerSound (s : State) : Prop :=
  0 ≤ s.m_sampleRateAvgCounter ∧ s.m_sampleRateAvgCounter < s.m_sampleRateAverageItems
    ∧ (s.m_sampleRateAvgCounter : ℚ) * (s.m_running.m_inputSampleRate * (4 / 5))
        ≤ s.m_sampleRateSum
    ∧ s.m_sampleRateSum
        ≤ (s.m_sampleRateAvgCounter : ℚ) * (s.m_running.m_inputSampleRate * (6 / 5))

end UDPSink

namespace AMDemod

/-- The running set `m_running` of `AMDemod`: the fields assigned at the end of
`AMDemod::apply`. -/
structure Config where
  m_inputSampleRate : Int
  m_inputFrequencyOffset : Int
  m_rfBandwidth : ℚ
  m_afBandwidth : ℚ
  m_squelch : ℚ
  m_volume : ℚ
  m_audioSampleRate : Nat
  m_audioMute : Bool
  deriving DecidableEq

/-- A stereo frame of `m_audioBuffer`. -/
structure AudioSample where
  l : Int
  r : Int
  deriving DecidableEq

/-- The members of `AMDemod` that the body of `feed` reads or writes after the
decimator. `m_audioBuffer` holds the `m_audioBufferFill` frames not yet written to the
FIFO and `audioBufferSize` is `m_audioBuffer.size()`. The squelch count is never
negative in the source (`start` sets it to 0 and `feed` only subtracts 2 from a count
above 1), so it is a natural number here. -/
structure State where
  m_running : Config
  m_squelchLevel : ℚ
  m_squelchCount : Nat
  m_squelchOpen : Bool
  m_magsq : ℚ
  m_audioBuffer : List AudioSample
  audioBufferSize : Nat
  deriving DecidableEq

/-- What the DSP primitives deliver for one input sample at which
`m_interpolator.decimate` returns true: `average` is `m_movingAverage.average()` after
the sample's power was fed, `filtered` is `m_lowpass.filter(sqrt(magsq))` and `agcValue`
is `m_volumeAGC.getValue()` after the clipped value was fed. -/
structure Decimated where
  average : ℚ
  filtered : ℚ
  agcValue : ℚ
  deriving DecidableEq

/-- `AMDemod::start`: the squelch count is reset (the FIFO is cleared). -/
def start (s : State) : State := { s with m_squelchCount := 0 }

/-- The squelch counter update of `feed`, lines 90-103. -/
def squelchCount (s : State) (average : ℚ) : Nat :=
  if s.m_squelchLevel ≤ average then
    if s.m_squelchCount ≤ s.m_running.m_audioSampleRate / 10 then s.m_squelchCount + 1
    else s.m_squelchCount
  else
    if 1 < s.m_squelchCount then s.m_squelchCount - 2
    else s.m_squelchCount

/-- The condition of the `if` at line 107 of `feed`, for the squelch count `count`. -/
def gateOpen (s : State) (count : Nat) : Bool :=
  decide (s.m_running.m_audioSampleRate / 20 ≤ count) && !s.m_running.m_audioMute

/-- The value of `sample` in the open branch of `feed`, lines 109-127, for the squelch
count `count`. -/
def openSample (s : State) (count : Nat) (d : Decimated) : Int :=
  let demod : ℚ := if d.filtered < -1 then -1 else if 1 < d.filtered then 1 else d.filtered
  let attack : ℚ :=
    ((count - s.m_running.m_audioSampleRate / 20 : Nat) : ℚ)
      / ((s.m_running.m_audioSampleRate / 20 : Nat) : ℚ)
  let demod := demod * ((3 / 1000 * attack) / d.agcValue)
  let demod := demod * s.m_running.m_volume
  floatToInt (demod * 32700 * 16)

/-- The value of `sample` stored in both channels of the frame, lines 105-134. -/
def audioSample (s : State) (count : Nat) (d : Decimated) : Int :=
  if gateOpen s count then openSample s count d else 0

/-- The frame `feed` stores in `m_audioBuffer` for a decimated sample met in state `s`. -/
def frame (s : State) (d : Decimated) : AudioSample :=
  { l := audioSample s (squelchCount s d.average) d
    r := audioSample s (squelchCount s d.average) d }

/-- The body of the loop of `feed` for one input sample: nothing when the decimator
holds its output back (`none`), otherwise squelch, demodulation, one frame stored and,
when the buffer is full, one write to the FIFO. Returns the frames written, if any. -/
def processSample (s : State) : Option Decimated → State × List (List AudioSample)
  | none => (s, [])
  | some d =>
    let count := squelchCount s d.average
    let s1 : State :=
      { s with
        m_magsq := d.average
        m_squelchCount := count
        m_squelchOpen := gateOpen s count
        m_audioBuffer := s.m_audioBuffer ++ [frame s d] }
    if s1.audioBufferSize ≤ s1.m_audioBuffer.length then
      ({ s1 with m_audioBuffer := [] }, [s1.m_audioBuffer])
    else (s1, [])

/-- The loop of `feed` over the input samples. -/
def feedLoop (s : State) : List (Option Decimated) → State × List (List AudioSample)
  | [] => (s, [])
  | x :: xs =>
    let r := processSample s x
    let r2 := feedLoop r.1 xs
    (r2.1, r.2 ++ r2.2)

/-- `AMDemod::feed`: the loop, then the write of the frames left in the buffer. Returns
the state and the blocks of frames handed to `m_audioFifo.write`, in order. -/
def feed (s : State) (xs : List (Option Decimated)) : State × List (List AudioSample) :=
  let r := feedLoop s xs
  if 0 < r.1.m_audioBuffer.length then
    ({ r.1 with m_audioBuffer := [] }, r.2 ++ [r.1.m_audioBuffer])
  else r

/-- The number of decimated samples among the input samples. -/
def decimatedCount (xs : List (Option Decimated)) : Nat :=
  (xs.filter Option.isSome).length

/-- The default running set of the constructor, with squelch level 1/10000 (-40 dB),
after `start()`. -/
def started (audioSampleRate : Nat) (audioMute : Bool) : State where
  m_running :=
    { m_inputSampleRate := 96000
      m_inputFrequencyOffset := 0
      m_rfBandwidth := 12500
      m_afBandwidth := 3000
      m_squelch := -40
      m_volume := 2
      m_audioSampleRate := audioSampleRate
      m_audioMute := audioMute }
  m_squelchLevel := 1 / 10000
  m_squelchCount := 0
  m_squelchOpen := false
  m_magsq := 0
  m_audioBuffer := []
  audioBufferSize := 16384

/-- The demodulator `started 48000 false` (volume 2) with the squelch count at 4799, one
short of twice `audio_rate/20`. -/
def opened : State := { started 48000 false with m_squelchCount := 4799 }

/-- A decimated sample of full scale: average power 1, low-pass output 1, and an AGC value
at its target 0.003. -/
def fullScale : Decimated := { average := 1, filtered := 1, agcValue := 3 / 1000 }

/-- The demodulator `started 48000 false` with the squelch count at 1. -/
def almostClosed : State := { started 48000 false with m_squelchCount := 1 }

/-- A decimated sample whose averaged power 1e-5 is below the squelch level of `started`. -/
def belowLevel : Decimated := { average := 1 / 100000, filtered := 1 / 2, agcValue := 1 }

end AMDemod

namespace ChannelAnalyzerGUI

/-- A `QSlider` (`ui->BW`, `ui->lowCut`, `ui->spanLog2`): its range and value. -/
structure Slider where
  minimum : Int
  maximum : Int
  value : Int
  deriving DecidableEq

/-- `QAbstractSliderPrivate::bound`: `qMax(minimum, qMin(maximum, val))`. -/
def Slider.bound (s : Slider) (val : Int) : Int := max s.minimum (min s.maximum val)

/-- The enum `ChannelMarker::sidebands_t`. -/
inductive sidebands_t where
  | dsb | lsb | usb
  deriving DecidableEq

/-- The members of `m_channelMarker` that the analyzer GUI sets and reads; the colour is
held as its `rgb()` value. `signalsBlocked` is the flag of `QObject::blockSignals`. -/
structure ChannelMarker where
  m_centerFrequency : Int
  m_bandwidth : Int
  m_lowCutoff : Int
  m_sidebands : sidebands_t
  m_color : Nat
  signalsBlocked : Bool
  deriving DecidableEq

/-- What the analyzer GUI sets on `ui->glSpectrum`. -/
structure GLSpectrum where
  centerFrequency : Int
  sampleRate : Int
  ssbSpectrum : Bool
  deriving DecidableEq

/-- A message pushed by `ChannelAnalyzerGUI::applySettings`. -/
inductive Message where
  | channelizerConfigure (sampleRate : Int) (centerFrequency : Int)
  | analyzerConfigure (bandwidth : Int) (lowCutoff : Int) (spanLog2 : Int) (ssb : Bool)
  deriving DecidableEq

/-- The state of the analyzer GUI: widgets, channel marker, members, and the two values it
reads from its collaborators (`m_channelAnalyzer->getSampleRate()` and
`m_channelizer->getInputSampleRate()`). The label texts are not represented.
`spectrumGUI` and `scopeGUI` stand for the state of the two sub-widgets, each given by the
blob its `serialize()` returns; `messages` lists what `applySettings` has pushed. -/
structure State where
  BW : Slider
  lowCut : Slider
  spanLog2 : Slider
  ssb : Bool
  deltaFrequency : Int
  deltaMinus : Bool
  spectrumGUI : List Nat
  scopeGUI : List Nat
  glSpectrum : GLSpectrum
  glScopeSampleRate : Int
  scopeVisSampleRate : Int
  titleColor : Nat
  m_channelMarker : ChannelMarker
  m_doApplySettings : Bool
  m_rate : Int
  m_spanLog2 : Int
  analyzerSampleRate : Int
  channelizerInputSampleRate : Int
  messages : List Message
  deriving DecidableEq

/-- The value of `ui->BW` replaced, no signal. -/
def storeBW (g : State) (v : Int) : State := { g with BW := { g.BW with value := v } }

/-- The value of `ui->lowCut` replaced, no signal. -/
def storeLowCut (g : State) (v : Int) : State := { g with lowCut := { g.lowCut with value := v } }

/-- The value of `ui->spanLog2` replaced, no signal. -/
def storeSpanLog2 (g : State) (v : Int) : State :=
  { g with spanLog2 := { g.spanLog2 with value := v } }

/-- The range of `ui->BW` replaced, no signal. -/
def rangeBW (g : State) (min max : Int) : State :=
  { g with BW := { g.BW with minimum := min, maximum := max } }

/-- The range of `ui->lowCut` replaced, no signal. -/
def rangeLowCut (g : State) (min max : Int) : State :=
  { g with lowCut := { g.lowCut with minimum := min, maximum := max } }

/-- `m_channelMarker.blockSignals(block)`. -/
def markerBlockSignals (g : State) (block : Bool) : State :=
  { g with m_channelMarker := { g.m_channelMarker with signalsBlocked := block } }

/-- `ui->spectrumGUI->deserialize(blob)`: the sub-widget takes the state the blob
describes (GLSpectrumGUI is not among the sources). -/
def spectrumGUI_deserialize (g : State) (blob : List Nat) : State :=
  { g with spectrumGUI := blob }

/-- `ui->scopeGUI->deserialize(blob)`: the sub-widget takes the state the blob describes
(GLScopeGUI is not among the sources). -/
def scopeGUI_deserialize (g : State) (blob : List Nat) : State :=
  { g with scopeGUI := blob }

/-- `ui->deltaFrequency->setValue(value)`: the dial shows the value; no `changed` signal
is taken to be emitted by a programmatic `setValue` (ValueDial is not among the sources). -/
def deltaFrequency_setValue (g : State) (value : Int) : State :=
  { g with deltaFrequency := value }

/-- `ChannelAnalyzerGUI::blockApplySettings`. -/
def blockApplySettings (g : State) (block : Bool) : State :=
  { g with m_doApplySettings := !block }

/-- `ChannelAnalyzerGUI::applySettings`. `ui->deltaFrequency->setValue` is taken to set
the dial without emitting `changed` (ValueDial is not among the sources), and
`ui->deltaMinus->setChecked(centre < 0)` reaches `on_deltaMinus_toggled` with
`minus == (centre < 0)`, where that slot changes nothing. -/
def applySettings (g : State) : State :=
  if g.m_doApplySettings then
    { g with
      titleColor := g.m_channelMarker.m_color
      deltaFrequency := |g.m_channelMarker.m_centerFrequency|
      deltaMinus := decide (g.m_channelMarker.m_centerFrequency < 0)
      messages := g.messages ++
        [.channelizerConfigure g.channelizerInputSampleRate g.m_channelMarker.m_centerFrequency,
         .analyzerConfigure (g.BW.value * 100) (g.lowCut.value * 100) g.m_spanLog2 g.ssb] }
  else g

/-- The signal `changed()` of the channel marker, connected to `viewChanged()`, which
calls `applySettings()`; nothing when the marker's signals are blocked. -/
def markerChanged (g : State) : State :=
  if g.m_channelMarker.signalsBlocked then g else applySettings g

/-- `m_channelMarker.setCenterFrequency`. -/
def setCenterFrequency (g : State) (centerFrequency : Int) : State :=
  markerChanged
    { g with m_channelMarker := { g.m_channelMarker with m_centerFrequency := centerFrequency } }

/-- `m_channelMarker.setBandwidth`. -/
def setBandwidth (g : State) (bandwidth : Int) : State :=
  markerChanged { g with m_channelMarker := { g.m_channelMarker with m_bandwidth := bandwidth } }

/-- `m_channelMarker.setLowCutoff`. -/
def setLowCutoff (g : State) (lowCutoff : Int) : State :=
  markerChanged { g with m_channelMarker := { g.m_channelMarker with m_lowCutoff := lowCutoff } }

/-- `m_channelMarker.setSidebands`. -/
def setSidebands (g : State) (sidebands : sidebands_t) : State :=
  markerChanged { g with m_channelMarker := { g.m_channelMarker with m_sidebands := sidebands } }

/-- `m_channelMarker.setColor`. -/
def setColor (g : State) (color : Nat) : State :=
  markerChanged { g with m_channelMarker := { g.m_channelMarker with m_color := color } }

/-- `ChannelAnalyzerGUI::getEffectiveLowCutoff` for a marker bandwidth `bandwidth`. -/
def effectiveLowCutoff (bandwidth lowCutoff : Int) : Int :=
  let ssbBW := bandwidth.tdiv 2
  let guard : Int := 100
  if ssbBW < 0 then
    let e1 := if lowCutoff < ssbBW + guard then ssbBW + guard else lowCutoff
    if 0 < e1 then 0 else e1
  else
    let e1 := if ssbBW - guard < lowCutoff then ssbBW - guard else lowCutoff
    if e1 < 0 then 0 else e1

/-- `ChannelAnalyzerGUI::getEffectiveLowCutoff`. -/
def getEffectiveLowCutoff (g : State) (lowCutoff : Int) : Int :=
  effectiveLowCutoff g.m_channelMarker.m_bandwidth lowCutoff

/-- `ChannelAnalyzerGUI::on_lowCut_valueChanged`, with a bound on the depth of the
re-entry through `ui->lowCut->setValue` (a `QSlider::setValue` bounds the value to the
range and, when the bounded value differs from the current one, stores it and emits
`valueChanged`, which runs this slot again). -/
def on_lowCut_valueChanged_depth : Nat → State → Int → State
  | 0, g, _ => g
  | depth + 1, g, value =>
    let lowCutoff := getEffectiveLowCutoff g (value * 100)
    let g1 := setLowCutoff g lowCutoff
    let v := g1.lowCut.bound (lowCutoff.tdiv 100)
    let g2 :=
      if v = g1.lowCut.value then g1
      else on_lowCut_valueChanged_depth depth (storeLowCut g1 v) v
    applySettings g2

/-- `ChannelAnalyzerGUI::on_lowCut_valueChanged`. The slot re-enters itself at most once
(`on_lowCut_valueChanged_depth_enough`), so depth 2 is the whole behaviour. -/
def on_lowCut_valueChanged (g : State) (value : Int) : State :=
  on_lowCut_valueChanged_depth 2 g value

/-- `ui->lowCut->setValue(value)` with the slot connected to `valueChanged`. -/
def lowCut_setValue (g : State) (value : Int) : State :=
  let v := g.lowCut.bound value
  if v = g.lowCut.value then g
  else on_lowCut_valueChanged (storeLowCut g v) v

/-- `ChannelAnalyzerGUI::on_BW_valueChanged`. -/
def on_BW_valueChanged (g : State) (value : Int) : State :=
  let g1 := setBandwidth g (value * 100 * 2)
  let g2 :=
    if g1.ssb then
      if value < 0 then setSidebands g1 .lsb else setSidebands g1 .usb
    else setSidebands g1 .dsb
  on_lowCut_valueChanged g2 (g2.m_channelMarker.m_lowCutoff.tdiv 100)

/-- `ui->BW->setValue(value)` with the slot connected to `valueChanged`. -/
def BW_setValue (g : State) (value : Int) : State :=
  let v := g.BW.bound value
  if v = g.BW.value then g
  else on_BW_valueChanged (storeBW g v) v

/-- `QAbstractSlider::setRange` on `ui->BW`: the maximum is raised to the minimum if
below it and, when the range changed, the value is bounded again through `setValue`. -/
def BW_setRange (g : State) (min max : Int) : State :=
  let max' := if max < min then min else max
  if g.BW.minimum = min ∧ g.BW.maximum = max' then g
  else BW_setValue (rangeBW g min max') g.BW.value

/-- `QAbstractSlider::setRange` on `ui->lowCut`. -/
def lowCut_setRange (g : State) (min max : Int) : State :=
  let max' := if max < min then min else max
  if g.lowCut.minimum = min ∧ g.lowCut.maximum = max' then g
  else lowCut_setValue (rangeLowCut g min max') g.lowCut.value

/-- `ui->BW->setMinimum(min)`: `setRange(min, qMax(maximum, min))`. -/
def BW_setMinimum (g : State) (min : Int) : State :=
  BW_setRange g min (if g.BW.maximum < min then min else g.BW.maximum)

/-- `ui->BW->setMaximum(max)`: `setRange(qMin(minimum, max), max)`. -/
def BW_setMaximum (g : State) (max : Int) : State :=
  BW_setRange g (if max < g.BW.minimum then max else g.BW.minimum) max

/-- `ui->lowCut->setMinimum(min)`. -/
def lowCut_setMinimum (g : State) (min : Int) : State :=
  lowCut_setRange g min (if g.lowCut.maximum < min then min else g.lowCut.maximum)

/-- `ui->lowCut->setMaximum(max)`. -/
def lowCut_setMaximum (g : State) (max : Int) : State :=
  lowCut_setRange g (if max < g.lowCut.minimum then max else g.lowCut.minimum) max

/-- The part of `setNewRate` and `on_ssb_toggled` that sets the marker sidebands and the
spectrum display from the SSB flag, for the flag value `checked`. -/
def applySsbDisplay (g : State) (checked : Bool) : State :=
  if checked then
    let g1 := if g.BW.value < 0 then setSidebands g .lsb else setSidebands g .usb
    { g1 with
      glSpectrum :=
        { centerFrequency := g1.m_rate.tdiv 4, sampleRate := g1.m_rate.tdiv 2,
          ssbSpectrum := true } }
  else
    let g1 := setSidebands g .dsb
    { g1 with glSpectrum := { centerFrequency := 0, sampleRate := g1.m_rate, ssbSpectrum := false } }

/-- Lines 394-400 of `setNewRate`: the bandwidth control is brought within
`±m_rate/200`; when it was outside, the marker bandwidth is set to `±2 * m_rate`. -/
def clampBW (g : State) : State :=
  if g.BW.value < (-g.m_rate).tdiv 200 then
    let g1 := BW_setValue g ((-g.m_rate).tdiv 200)
    setBandwidth g1 (-g1.m_rate * 2)
  else if g.m_rate.tdiv 200 < g.BW.value then
    let g1 := BW_setValue g (g.m_rate.tdiv 200)
    setBandwidth g1 (g1.m_rate * 2)
  else g

/-- Lines 402-408 of `setNewRate`: the same for the low-cut control and the marker's low
cut-off. -/
def clampLowCut (g : State) : State :=
  if g.lowCut.value < (-g.m_rate).tdiv 200 then
    let g1 := lowCut_setValue g ((-g.m_rate).tdiv 200)
    setLowCutoff g1 (-g1.m_rate)
  else if g.m_rate.tdiv 200 < g.lowCut.value then
    let g1 := lowCut_setValue g (g.m_rate.tdiv 200)
    setLowCutoff g1 g1.m_rate
  else g

/-- Lines 410-413 of `setNewRate`: the ranges of the two controls. -/
def setRanges (g : State) : State :=
  let g1 := BW_setMinimum g ((-g.m_rate).tdiv 200)
  let g2 := lowCut_setMinimum g1 ((-g1.m_rate).tdiv 200)
  let g3 := BW_setMaximum g2 (g2.m_rate.tdiv 200)
  lowCut_setMaximum g3 (g3.m_rate.tdiv 200)

/-- `ChannelAnalyzerGUI::setNewRate`: the returned flag and the new state. -/
def setNewRate (g : State) (spanLog2 : Int) : Bool × State :=
  if spanLog2 < 0 ∨ 6 < spanLog2 then (false, g)
  else
    let g0 : State :=
      { g with m_spanLog2 := spanLog2
               m_rate := g.analyzerSampleRate.tdiv (2 ^ spanLog2.toNat) }
    let g1 := setRanges (clampLowCut (clampBW g0))
    let g2 := applySsbDisplay g1 g1.ssb
    (true, { g2 with glScopeSampleRate := g2.m_rate, scopeVisSampleRate := g2.m_rate })

/-- `ChannelAnalyzerGUI::on_spanLog2_valueChanged`. -/
def on_spanLog2_valueChanged (g : State) (value : Int) : State :=
  let r := setNewRate g value
  if r.1 then applySettings r.2 else r.2

/-- `ui->spanLog2->setValue(value)` with the slot connected to `valueChanged`. -/
def spanLog2_setValue (g : State) (value : Int) : State :=
  let v := g.spanLog2.bound value
  if v = g.spanLog2.value then g
  else on_spanLog2_valueChanged (storeSpanLog2 g v) v

/-- `ChannelAnalyzerGUI::on_ssb_toggled`. -/
def on_ssb_toggled (g : State) (checked : Bool) : State :=
  if checked then
    let g1 := applySsbDisplay g true
    on_lowCut_valueChanged g1 (g1.m_channelMarker.m_lowCutoff.tdiv 100)
  else
    applySettings (applySsbDisplay g false)

/-- `ui->ssb->setChecked(checked)` with the slot connected to `toggled`. -/
def ssb_setChecked (g : State) (checked : Bool) : State :=
  if g.ssb = checked then g else on_ssb_toggled { g with ssb := checked } checked

/-- `ChannelAnalyzerGUI::resetToDefaults`. -/
def resetToDefaults (g : State) : State :=
  let g1 := blockApplySettings g true
  let g2 := BW_setValue g1 30
  let g3 := deltaFrequency_setValue g2 0
  let g4 := spanLog2_setValue g3 3
  let g5 := blockApplySettings g4 false
  applySettings g5

/-- A value stored under a tag by `SimpleSerializer`. -/
inductive Value where
  | s32 (v : Int)
  | u32 (v : Nat)
  | bool (v : Bool)
  | blob (v : List Nat)
  deriving DecidableEq

/-- Modelled from the spec: `SimpleSerializer` / `SimpleDeserializer`
(`util/simpleserializer.cpp`, not among the sources). The spec describes the persisted
data as "an ordered, tagged blob of key → {S32, U32, Bool, Blob} entries" with a version;
a byte array is represented by what the deserializer finds in it: whether it is valid, its
version and its tagged entries. -/
structure Serialized where
  valid : Bool
  version : Nat
  entries : List (Nat × Value)
  deriving DecidableEq

/-- Modelled from the spec: the entry stored under the tag `id`, if any. -/
def Serialized.find (d : Serialized) (id : Nat) : Option Value :=
  (d.entries.find? fun e => e.1 == id).map Prod.snd

/-- Modelled from the spec: `SimpleDeserializer::readS32(id, &result, def)`. -/
def Serialized.readS32 (d : Serialized) (id : Nat) (default : Int) : Int :=
  match d.find id with
  | some (.s32 v) => v
  | _ => default

/-- Modelled from the spec: `SimpleDeserializer::readU32(id, &result)`, `none` when the
call returns false. -/
def Serialized.readU32 (d : Serialized) (id : Nat) : Option Nat :=
  match d.find id with
  | some (.u32 v) => some v
  | _ => none

/-- Modelled from the spec: `SimpleDeserializer::readBool(id, &result, def)`. -/
def Serialized.readBool (d : Serialized) (id : Nat) (default : Bool) : Bool :=
  match d.find id with
  | some (.bool v) => v
  | _ => default

/-- Modelled from the spec: `SimpleDeserializer::readBlob(id, &result)`, empty by
default. -/
def Serialized.readBlob (d : Serialized) (id : Nat) : List Nat :=
  match d.find id with
  | some (.blob v) => v
  | _ => []

/-- `ChannelAnalyzerGUI::serialize`. -/
def serialize (g : State) : Serialized where
  valid := true
  version := 1
  entries :=
    [(1, .s32 g.m_channelMarker.m_centerFrequency),
     (2, .s32 g.BW.value),
     (3, .blob g.spectrumGUI),
     (4, .u32 g.m_channelMarker.m_color),
     (5, .s32 g.lowCut.value),
     (6, .s32 g.spanLog2.value),
     (7, .bool g.ssb),
     (8, .blob g.scopeGUI)]

/-- `ChannelAnalyzerGUI::deserialize`: the returned flag and the new state. -/
def deserialize (g : State) (d : Serialized) : Bool × State :=
  if !d.valid then (false, resetToDefaults g)
  else if d.version = 1 then
    let g1 := blockApplySettings g true
    let g2 := markerBlockSignals g1 true
    let g3 := setCenterFrequency g2 (d.readS32 1 0)
    let bw := d.readS32 2 30
    let g4 := BW_setValue g3 bw
    let g5 := spectrumGUI_deserialize g4 (d.readBlob 3)
    let g6 :=
      match d.readU32 4 with
      | some u32tmp => setColor g5 u32tmp
      | none => g5
    let lowCut := d.readS32 5 3
    let g7 := lowCut_setValue g6 lowCut
    let tmp := d.readS32 6 20
    let g8 := spanLog2_setValue g7 tmp
    let g9 := (setNewRate g8 tmp).2
    let g10 := ssb_setChecked g9 (d.readBool 7 false)
    let g11 := scopeGUI_deserialize g10 (d.readBlob 8)
    let g12 := blockApplySettings g11 false
    let g13 := markerBlockSignals g12 false
    let g14 := BW_setValue g13 bw
    let g15 := lowCut_setValue g14 lowCut
    (true, g15)
  else (false, resetToDefaults g)

/-- The parts of the state that no slot of the bandwidth, low-cut and span controls and no
marker signal touches. -/
def Keeps (g g' : State) : Prop :=
  g'.spanLog2.minimum = g.spanLog2.minimum ∧ g'.spanLog2.maximum = g.spanLog2.maximum
    ∧ g'.analyzerSampleRate = g.analyzerSampleRate
    ∧ g'.spectrumGUI = g.spectrumGUI ∧ g'.scopeGUI = g.scopeGUI
    ∧ g'.m_channelMarker.m_centerFrequency = g.m_channelMarker.m_centerFrequency
    ∧ g'.m_channelMarker.m_color = g.m_channelMarker.m_color
    ∧ g'.m_channelMarker.signalsBlocked = g.m_channelMarker.signalsBlocked
    ∧ g'.m_doApplySettings = g.m_doApplySettings

/-- What the slots of the low-cut control, the marker setters and `applySettings` leave
alone, besides `Keeps`: the bandwidth and span controls, the SSB flag, the rate members
and the range of the low-cut control. -/
def Calm (g g' : State) : Prop :=
  Keeps g g' ∧ g'.BW = g.BW ∧ g'.spanLog2 = g.spanLog2 ∧ g'.ssb = g.ssb
    ∧ g'.m_rate = g.m_rate ∧ g'.m_spanLog2 = g.m_spanLog2
    ∧ g'.lowCut.minimum = g.lowCut.minimum ∧ g'.lowCut.maximum = g.lowCut.maximum

/-- `Calm`, and the marker bandwidth is left alone too. -/
def SameButLowCut (g g' : State) : Prop :=
  Calm g g' ∧ g'.m_channelMarker.m_bandwidth = g.m_channelMarker.m_bandwidth

/-- The invariant of a `QSlider`: the value lies within the range. -/
def Slider.wf (s : Slider) : Prop := s.minimum ≤ s.value ∧ s.value ≤ s.maximum

instance (s : Slider) : Decidable s.wf := by unfold Slider.wf; infer_instance

/-- The marker's half bandwidth reaches at least as far as the bandwidth control, on the
same side: every low cut-off that is effective for the bandwidth `200 * BW` is effective
for the marker. It holds after `on_BW_valueChanged` (marker bandwidth `200 * BW`) and
after the clamp of `setNewRate` (marker bandwidth `±2 * m_rate`). -/
def markerCovers (g : State) : Prop :=
  (0 < g.BW.value → 100 * g.BW.value ≤ g.m_channelMarker.m_bandwidth.tdiv 2)
    ∧ (g.BW.value < 0 → g.m_channelMarker.m_bandwidth.tdiv 2 ≤ 100 * g.BW.value)

instance (g : State) : Decidable (markerCovers g) := by unfold markerCovers; infer_instance

/-- `Calm` without the bandwidth control: what the slots of the bandwidth control leave
alone. -/
def Quiet (g g' : State) : Prop :=
  Keeps g g' ∧ g'.spanLog2 = g.spanLog2 ∧ g'.ssb = g.ssb
    ∧ g'.m_rate = g.m_rate ∧ g'.m_spanLog2 = g.m_spanLog2
    ∧ g'.lowCut.minimum = g.lowCut.minimum ∧ g'.lowCut.maximum = g.lowCut.maximum

/-- `SameButLowCut` without the range of the low-cut control: what `setRange` on the
low-cut control leaves alone. -/
def Steady (g g' : State) : Prop :=
  Keeps g g' ∧ g'.BW = g.BW ∧ g'.spanLog2 = g.spanLog2 ∧ g'.ssb = g.ssb
    ∧ g'.m_rate = g.m_rate ∧ g'.m_spanLog2 = g.m_spanLog2
    ∧ g'.m_channelMarker.m_bandwidth = g.m_channelMarker.m_bandwidth

/-- What every slot of the bandwidth and low-cut controls leaves alone: `Keeps`, the span
control, the SSB flag and the rate members. -/
def Base (g g' : State) : Prop :=
  Keeps g g' ∧ g'.spanLog2 = g.spanLog2 ∧ g'.ssb = g.ssb
    ∧ g'.m_rate = g.m_rate ∧ g'.m_spanLog2 = g.m_spanLog2

/-- An analyzer on a 48 kS/s channel at span 3 (rate 6000 S/s): bandwidth control 30
(3 kHz), low cut 3 (300 Hz), no SSB, centre frequency 0. -/
def example48k : State where
  BW := ⟨-30, 30, 30⟩
  lowCut := ⟨-30, 30, 3⟩
  spanLog2 := ⟨0, 6, 3⟩
  ssb := false
  deltaFrequency := 0
  deltaMinus := false
  spectrumGUI := []
  scopeGUI := []
  glSpectrum := ⟨0, 6000, false⟩
  glScopeSampleRate := 6000
  scopeVisSampleRate := 6000
  titleColor := 4288716964
  m_channelMarker := ⟨0, 6000, 300, .dsb, 4288716964, false⟩
  m_doApplySettings := true
  m_rate := 6000
  m_spanLog2 := 3
  analyzerSampleRate := 48000
  channelizerInputSampleRate := 48000
  messages := []

/-- The analyzer `example48k` with the marker bandwidth replaced. -/
def withBandwidth (bandwidth : Int) : State :=
  { example48k with
    m_channelMarker := { example48k.m_channelMarker with m_bandwidth := bandwidth } }

/-- The analyzer `example48k` as it is at span 2 (rate 12000 S/s) with the bandwidth
control at 60. -/
def wide48k : State :=
  { example48k with
    BW := ⟨-60, 60, 60⟩
    lowCut := ⟨-60, 60, 3⟩
    spanLog2 := ⟨0, 6, 2⟩
    m_channelMarker := ⟨0, 12000, 300, .dsb, 4288716964, false⟩
    m_rate := 12000
    m_spanLog2 := 2 }

/-- The analyzer after the user has moved the span control of `wide48k` from 2 to 3
(`setNewRate` clamps the bandwidth control from 60 to 30 and sets the marker bandwidth to
`2 * m_rate = 12000`) and then dragged the low-cut control to 30. -/
def clamped : State := lowCut_setValue (spanLog2_setValue wide48k 3) 30

/-- The states whose bandwidth and low cut agree with what `on_BW_valueChanged` derives
from the bandwidth control: the span is within 0..6, the channel sample rate is not
negative, the bandwidth control is within `±rate/200` for `rate = sample rate / 2^span`,
and the low cut is effective for a marker bandwidth of `200 * BW` Hz. The GUI also reaches
states outside this set: the clamp of `setNewRate` leaves the marker bandwidth at
`±2 * m_rate`, twice the `200 * BW` of the clamped control. -/
def Consistent (g : State) : Prop :=
  0 ≤ g.spanLog2.value ∧ g.spanLog2.value ≤ 6 ∧ 0 ≤ g.analyzerSampleRate
    ∧ (-(g.analyzerSampleRate.tdiv (2 ^ g.spanLog2.value.toNat))).tdiv 200 ≤ g.BW.value
    ∧ g.BW.value ≤ (g.analyzerSampleRate.tdiv (2 ^ g.spanLog2.value.toNat)).tdiv 200
    ∧ effectiveLowCutoff (g.BW.value * 100 * 2) (g.lowCut.value * 100) = g.lowCut.value * 100

instance (g : State) : Decidable (Consistent g) := by unfold Consistent; infer_instance

/-- An analyzer `p` into which the state `s` can be restored: it sits on the same channel
(same sample rate), its span control admits the span of `s`, its bandwidth slider satisfies
the slider invariant and its marker bandwidth covers its bandwidth control. -/
def Restorable (p s : State) : Prop :=
  p.analyzerSampleRate = s.analyzerSampleRate
    ∧ p.spanLog2.minimum ≤ s.spanLog2.value ∧ s.spanLog2.value ≤ p.spanLog2.maximum
    ∧ p.BW.wf ∧ markerCovers p

instance (p s : State) : Decidable (Restorable p s) := by unfold Restorable; infer_instance

/-- The eight values `serialize` writes. -/
def persisted (g : State) : Int × Int × List Nat × Nat × Int × Int × Bool × List Nat :=
  (g.m_channelMarker.m_centerFrequency, g.BW.value, g.spectrumGUI, g.m_channelMarker.m_color,
    g.lowCut.value, g.spanLog2.value, g.ssb, g.scopeGUI)

/-- The bandwidth slider satisfies its invariant and the marker covers it. -/
def Good (g : State) : Prop := g.BW.wf ∧ markerCovers g

/-- What every step of `deserialize` maintains while it restores `s` into `p`: the sample
rate of the channel, the range of the span control of `p`, and `Good`. -/
def Tracked (p s g : State) : Prop :=
  g.analyzerSampleRate = s.analyzerSampleRate
    ∧ g.spanLog2.minimum = p.spanLog2.minimum ∧ g.spanLog2.maximum = p.spanLog2.maximum
    ∧ Good g

end ChannelAnalyzerGUI

/-! ## Theorems -/

namespace ATVDemod

theorem applyRate_eq_some {s : State} {r : State × List Call} (h : applyRate s = some r) :
    linesPerSecond s.m_objConfig ≠ 0 ∧ r.1.m_objConfig = s.m_objConfig
      ∧ r.1.m_objRunning = s.m_objRunning ∧ r.1.m_objRFConfig = s.m_objRFConfig
      ∧ r.1.m_objRFRunning = s.m_objRFRunning
      ∧ r.1.m_objRegisteredATVScreen = s.m_objRegisteredATVScreen := by
  unfold applyRate at h
  by_cases h0 : linesPerSecond s.m_objConfig = 0
  · simp [h0] at h
  · simp only [h0, if_false] at h
    injection h with h
    subst h
    refine ⟨h0, ?_⟩
    split_ifs <;> simp

theorem applyRate_isSome (s : State) :
    (applyRate s).isSome ↔ linesPerSecond s.m_objConfig ≠ 0 := by
  unfold applyRate
  by_cases h0 : linesPerSecond s.m_objConfig = 0 <;> simp [h0]

theorem applyFrame_isSome (s : State) :
    (applyFrame s).isSome ↔ s.m_objRegisteredATVScreen ≠ none := by
  unfold applyFrame applyStandard
  cases hs : s.m_objRegisteredATVScreen <;> cases hst : s.m_objConfig.m_enmATVStandard <;>
    simp [hs, hst]

theorem frameChanged_congr {s t : State} (h1 : t.m_objConfig = s.m_objConfig)
    (h2 : t.m_objRunning = s.m_objRunning) : frameChanged t ↔ frameChanged s := by
  unfold frameChanged
  rw [h1, h2]

theorem applySettings_isSome (s : State) (h : s.m_objConfig.m_intSampleRate ≠ 0) :
    (applySettings s).isSome ↔ ¬ applySettingsUndefined s := by
  unfold applySettings applySettingsUndefined
  simp only [h, if_false]
  by_cases hr : rateChanged s
  · simp only [hr, if_true, true_and]
    cases hrate : applyRate s with
    | none =>
      have := applyRate_isSome s
      simp [hrate] at this
      simp [this]
    | some r =>
      obtain ⟨h0, hc, hrun, -, -, hscr⟩ := applyRate_eq_some hrate
      have hfc := frameChanged_congr hc hrun
      simp only [Option.some_bind, h0, false_or]
      by_cases hf : frameChanged s
      · have hf1 : frameChanged r.1 := hfc.mpr hf
        simp only [hf1, if_true, hf, true_and]
        cases hfr : applyFrame r.1 with
        | none =>
          have := applyFrame_isSome r.1
          simp [hfr, hscr] at this
          simp [this]
        | some s3 =>
          have := applyFrame_isSome r.1
          simp [hfr, hscr] at this
          simp [this]
      · have hf1 : ¬ frameChanged r.1 := fun h => hf (hfc.mp h)
        simp [hf1, hf]
  · simp only [hr, if_false, false_and, false_or, Option.some_bind]
    by_cases hf : frameChanged s
    · simp only [hf, if_true, true_and]
      cases hfr : applyFrame s with
      | none =>
        have := applyFrame_isSome s
        simp [hfr] at this
        simp [this]
      | some s3 =>
        have := applyFrame_isSome s
        simp [hfr] at this
        simp [this]
    · simp [hf]

theorem applySettings_eq_some {s : State} (h : s.m_objConfig.m_intSampleRate ≠ 0)
    {r : State × List Call} (hr : applySettings s = some r) :
    ∃ t, r.1 = copyRunning t := by
  unfold applySettings at hr
  simp only [h, if_false] at hr
  cases h2 : (if rateChanged s then applyRate s else some (s, [])) with
  | none => simp [h2] at hr
  | some r2 =>
    simp only [h2, Option.some_bind] at hr
    cases h3 : (if frameChanged r2.1 then applyFrame r2.1 else some r2.1) with
    | none => simp [h3] at hr
    | some s3 =>
      simp only [h3, Option.some_bind] at hr
      injection hr with hr
      exact ⟨_, by rw [← hr]⟩

end ATVDemod

namespace AMDemod

theorem processSample_fields (s : State) (x : Option Decimated) :
    (processSample s x).1.m_running = s.m_running
      ∧ (processSample s x).1.m_squelchLevel = s.m_squelchLevel
      ∧ (processSample s x).1.m_squelchCount
          = (match x with
             | none => s.m_squelchCount
             | some d => squelchCount s d.average) := by
  cases x with
  | none => simp [processSample]
  | some d =>
    simp only [processSample]
    split_ifs <;> simp

theorem feedLoop_fields (s : State) (xs : List (Option Decimated)) :
    (feedLoop s xs).1.m_running = s.m_running
      ∧ (feedLoop s xs).1.m_squelchLevel = s.m_squelchLevel := by
  induction xs generalizing s with
  | nil => simp [feedLoop]
  | cons x xs ih =>
    obtain ⟨h1, h2, -⟩ := processSample_fields s x
    simp only [feedLoop]
    rw [(ih _).1, (ih _).2, h1, h2]
    exact ⟨rfl, rfl⟩

theorem feed_squelchCount (s : State) (xs : List (Option Decimated)) :
    (feed s xs).1.m_squelchCount = (feedLoop s xs).1.m_squelchCount := by
  unfold feed
  simp only
  split_ifs <;> rfl

/-- With every decimated sample at or above the squelch level, the count after the loop is
the number of decimated samples added to the initial count, capped at `rate/10 + 1`. -/
theorem feedLoop_squelchCount_above (s : State) (xs : List (Option Decimated))
    (hs : s.m_squelchCount ≤ s.m_running.m_audioSampleRate / 10 + 1)
    (h : ∀ d, some d ∈ xs → s.m_squelchLevel ≤ d.average) :
    (feedLoop s xs).1.m_squelchCount
      = min (s.m_squelchCount + decimatedCount xs) (s.m_running.m_audioSampleRate / 10 + 1) := by
  induction xs generalizing s with
  | nil => simp [feedLoop, decimatedCount, hs]
  | cons x xs ih =>
    obtain ⟨h1, h2, h3⟩ := processSample_fields s x
    simp only [feedLoop]
    have hx : ∀ d, some d ∈ xs → (processSample s x).1.m_squelchLevel ≤ d.average := by
      intro d hd
      rw [h2]
      exact h d (List.mem_cons_of_mem _ hd)
    cases x with
    | none =>
      simp only at h3
      have hs' : (processSample s none).1.m_squelchCount
          ≤ (processSample s none).1.m_running.m_audioSampleRate / 10 + 1 := by
        rw [h3, h1]; exact hs
      rw [ih _ hs' hx, h3, h1]
      simp [decimatedCount]
    | some d =>
      simp only at h3
      have hd : s.m_squelchLevel ≤ d.average := h d (List.mem_cons_self _ _)
      have hc : squelchCount s d.average
          = min (s.m_squelchCount + 1) (s.m_running.m_audioSampleRate / 10 + 1) := by
        unfold squelchCount
        simp only [hd, if_true]
        split_ifs with hle
        · omega
        · omega
      have hs' : (processSample s (some d)).1.m_squelchCount
          ≤ (processSample s (some d)).1.m_running.m_audioSampleRate / 10 + 1 := by
        rw [h3, h1, hc]; omega
      rw [ih _ hs' hx, h3, h1, hc]
      simp only [decimatedCount, List.filter_cons, Option.isSome_some, if_true,
        List.length_cons]
      omega

/-- With the count at 0 and every decimated sample below the squelch level, the count stays
at 0 and every frame written is zero, provided the squelch is closed at count 0. -/
theorem feedLoop_below (s : State) (xs : List (Option Decimated))
    (hs : s.m_squelchCount = 0) (hN : 0 < s.m_running.m_audioSampleRate / 20)
    (hbuf : ∀ f ∈ s.m_audioBuffer, f = ⟨0, 0⟩)
    (h : ∀ d, some d ∈ xs → d.average < s.m_squelchLevel) :
    (feedLoop s xs).1.m_squelchCount = 0
      ∧ (∀ f ∈ (feedLoop s xs).1.m_audioBuffer, f = ⟨0, 0⟩)
      ∧ ∀ b ∈ (feedLoop s xs).2, ∀ f ∈ b, f = ⟨0, 0⟩ := by
  induction xs generalizing s with
  | nil => simp [feedLoop, hs]; exact hbuf
  | cons x xs ih =>
    obtain ⟨h1, h2, h3⟩ := processSample_fields s x
    have hx : ∀ d, some d ∈ xs → d.average < (processSample s x).1.m_squelchLevel := by
      intro d hd
      rw [h2]
      exact h d (List.mem_cons_of_mem _ hd)
    have hstep : (processSample s x).1.m_squelchCount = 0
        ∧ (∀ f ∈ (processSample s x).1.m_audioBuffer, f = ⟨0, 0⟩)
        ∧ ∀ b ∈ (processSample s x).2, ∀ f ∈ b, f = ⟨0, 0⟩ := by
      cases x with
      | none => simp [processSample, hs]; exact hbuf
      | some d =>
        have hd : ¬ s.m_squelchLevel ≤ d.average := not_le.mpr (h d (List.mem_cons_self _ _))
        have hc : squelchCount s d.average = 0 := by
          simp [squelchCount, hd, hs]
        have hg : gateOpen s 0 = false := by
          simp [gateOpen]
          intro h0
          omega
        have hf : frame s d = ⟨0, 0⟩ := by
          simp [frame, audioSample, hc, hg]
        have hall : ∀ f ∈ s.m_audioBuffer ++ [frame s d], f = ⟨0, 0⟩ := by
          intro f hf'
          rcases List.mem_append.mp hf' with h' | h'
          · exact hbuf f h'
          · rw [List.mem_singleton.mp h', hf]
        simp only [processSample]
        split_ifs
        · refine ⟨hc, by simp, ?_⟩
          intro b hb f hfb
          rw [List.mem_singleton.mp hb] at hfb
          exact hall f hfb
        · exact ⟨hc, hall, by simp⟩
    have hN' : 0 < (processSample s x).1.m_running.m_audioSampleRate / 20 := by rw [h1]; exact hN
    obtain ⟨i1, i2, i3⟩ := ih _ hstep.1 hN' hstep.2.1 hx
    simp only [feedLoop]
    refine ⟨i1, i2, ?_⟩
    intro b hb
    rcases List.mem_append.mp hb with h' | h'
    · exact hstep.2.2 b h'
    · exact i3 b h'

end AMDemod

/-- C1 (fails on the code): after the constructor, the message `tone440` is handled, which
ends in `apply()`. The pending tone frequency is 440 but the running one still is the
1000 of `Config()`: `apply` copies eleven fields and leaves out `m_toneFrequency` (and
`m_basebandSampleRate`). -/
theorem c1_apply_leaves_running_tone_frequency_stale :
    ((NFMMod.handleConfigure (NFMMod.new 48000) NFMMod.tone440).1.m_config.m_toneFrequency = 440
      ∧ (NFMMod.handleConfigure (NFMMod.new 48000) NFMMod.tone440).1.m_running.m_toneFrequency
          = 1000)
    ∧ (NFMMod.handleConfigure (NFMMod.new 48000) NFMMod.tone440).1.m_running
        ≠ (NFMMod.handleConfigure (NFMMod.new 48000) NFMMod.tone440).1.m_config := by
  have h1 : (NFMMod.handleConfigure (NFMMod.new 48000) NFMMod.tone440).1.m_config.m_toneFrequency
      = 440 := rfl
  have h2 : (NFMMod.handleConfigure (NFMMod.new 48000) NFMMod.tone440).1.m_running.m_toneFrequency
      = 1000 := by
    simp [NFMMod.handleConfigure, NFMMod.apply, NFMMod.copyRunning, NFMMod.applyInterpolator,
      NFMMod.new, NFMMod.Config.init]
    split <;> rfl
  refine ⟨⟨h1, h2⟩, ?_⟩
  intro h
  have h3 := congrArg NFMMod.Config.m_toneFrequency h
  rw [h1, h2] at h3
  norm_num at h3

/-- C2 (fails on the code): with the state reached in `c1`, a second `apply()` with the
Config unchanged calls `m_toneNco.setFreq(440, 48000)` again, because the running tone
frequency was never updated; the members of the modulator stay as they were. -/
theorem c2_second_apply_retunes_tone_nco :
    (NFMMod.apply (NFMMod.handleConfigure (NFMMod.new 48000) NFMMod.tone440).1).2
        = [NFMMod.PrimitiveCall.toneNcoSetFreq 440 48000]
    ∧ (NFMMod.apply (NFMMod.handleConfigure (NFMMod.new 48000) NFMMod.tone440).1).1
        = (NFMMod.handleConfigure (NFMMod.new 48000) NFMMod.tone440).1 := by
  constructor <;>
    norm_num [NFMMod.handleConfigure, NFMMod.apply, NFMMod.copyRunning,
      NFMMod.applyInterpolator, NFMMod.applyCarrierNco, NFMMod.applyFilters,
      NFMMod.applyToneNco, NFMMod.applyCW, NFMMod.applyCtcssNco,
      NFMMod.new, NFMMod.Config.init, NFMMod.tone440]

/-- C3 (fails as stated): with a pending sample rate of zero `applySettings` returns at
its guard; the demodulator `stalled` keeps running 405 lines while 625 are pending. -/
theorem c3_zero_sample_rate_leaves_running_stale :
    ATVDemod.applySettings ATVDemod.stalled = some (ATVDemod.stalled, [])
    ∧ ATVDemod.stalled.m_objRunning ≠ ATVDemod.stalled.m_objConfig := by
  decide!

/-- C3 (amended): with a pending sample rate of zero `applySettings` returns without
changing anything; with a non-zero pending sample rate it returns exactly when it meets
neither a zero `linesPerSecond` in the rate block nor a null screen in the framing block,
and whenever it returns, the three running sets equal the three pending sets. -/
theorem c3_applySettings_running_eq_config (s : ATVDemod.State) :
    (s.m_objConfig.m_intSampleRate = 0 → ATVDemod.applySettings s = some (s, []))
    ∧ (s.m_objConfig.m_intSampleRate ≠ 0 →
        ((ATVDemod.applySettings s).isSome ↔ ¬ ATVDemod.applySettingsUndefined s)
        ∧ ∀ r, ATVDemod.applySettings s = some r →
            r.1.m_objRunning = r.1.m_objConfig
            ∧ r.1.m_objRFRunning = r.1.m_objRFConfig
            ∧ r.1.m_objRunningPrivate = r.1.m_objConfigPrivate) := by
  refine ⟨fun h => by simp [ATVDemod.applySettings, h], fun h => ⟨?_, ?_⟩⟩
  · exact ATVDemod.applySettings_isSome s h
  · intro r hr
    obtain ⟨t, ht⟩ := ATVDemod.applySettings_eq_some h hr
    rw [ht]
    exact ⟨rfl, rfl, rfl⟩

/-- C3 (witness): a 2 MS/s PAL configuration applied over a running set with sample rate 0
and a registered screen; `applySettings` returns and the sets agree. The stalled
demodulator instantiates the zero-rate half. -/
theorem c3_applySettings_running_eq_config_witness :
    (ATVDemod.stalled.m_objConfig.m_intSampleRate = 0
      ∧ ATVDemod.applySettings ATVDemod.stalled = some (ATVDemod.stalled, []))
    ∧ ((ATVDemod.stateWith (ATVDemod.pal625 2000000) (ATVDemod.pal625 0)).m_objConfig.m_intSampleRate
          ≠ 0
      ∧ (ATVDemod.applySettings
          (ATVDemod.stateWith (ATVDemod.pal625 2000000) (ATVDemod.pal625 0))).isSome
      ∧ ∀ r, ATVDemod.applySettings
            (ATVDemod.stateWith (ATVDemod.pal625 2000000) (ATVDemod.pal625 0)) = some r →
          r.1.m_objRunning = r.1.m_objConfig
          ∧ r.1.m_objRFRunning = r.1.m_objRFConfig
          ∧ r.1.m_objRunningPrivate = r.1.m_objConfigPrivate) :=
  ⟨⟨by decide!, (c3_applySettings_running_eq_config ATVDemod.stalled).1 (by decide!)⟩,
   ⟨by decide!, by decide!,
    ((c3_applySettings_running_eq_config
      (ATVDemod.stateWith (ATVDemod.pal625 2000000) (ATVDemod.pal625 0))).2 (by decide!)).2⟩⟩

/-- C4 (fails on the code): whatever the state, the helpers and the message, the running
AM modulation factor after `handleMessage` is the pending factor from before the message,
not the one the message carries; the fourteen parameters `handleMessage` does copy reach
the running set. At `settled`, `configure(..., amModFactor = 0.5, ...)` leaves the running
factor at 0.95. -/
theorem c4_configure_drops_am_mod_factor :
    (∀ (hp : UDPSink.Helpers) (s : UDPSink.State) (cfg : UDPSink.MsgUDPSinkConfigure),
        (UDPSink.handleConfigure hp s cfg).1.m_running.m_amModFactor = s.m_config.m_amModFactor
        ∧ (UDPSink.handleConfigure hp s cfg).1.m_running.m_sampleFormat = cfg.m_sampleFormat
        ∧ (UDPSink.handleConfigure hp s cfg).1.m_running.m_inputSampleRate
            = cfg.m_inputSampleRate
        ∧ (UDPSink.handleConfigure hp s cfg).1.m_running.m_rfBandwidth = cfg.m_rfBandwidth
        ∧ (UDPSink.handleConfigure hp s cfg).1.m_running.m_fmDeviation = cfg.m_fmDeviation
        ∧ (UDPSink.handleConfigure hp s cfg).1.m_running.m_udpAddressStr = cfg.m_udpAddress
        ∧ (UDPSink.handleConfigure hp s cfg).1.m_running.m_udpPort = cfg.m_udpPort
        ∧ (UDPSink.handleConfigure hp s cfg).1.m_running.m_channelMute = cfg.m_channelMute
        ∧ (UDPSink.handleConfigure hp s cfg).1.m_running.m_gainIn = cfg.m_gainIn
        ∧ (UDPSink.handleConfigure hp s cfg).1.m_running.m_gainOut = cfg.m_gainOut
        ∧ (UDPSink.handleConfigure hp s cfg).1.m_running.m_squelch
            = hp.powerFromdB cfg.m_squelchDB
        ∧ (UDPSink.handleConfigure hp s cfg).1.m_running.m_squelchGate = cfg.m_squelchGate
        ∧ (UDPSink.handleConfigure hp s cfg).1.m_running.m_squelchEnabled
            = cfg.m_squelchEnabled
        ∧ (UDPSink.handleConfigure hp s cfg).1.m_running.m_autoRWBalance = cfg.m_autoRWBalance
        ∧ (UDPSink.handleConfigure hp s cfg).1.m_running.m_stereoInput = cfg.m_stereoInput)
    ∧ UDPSink.amFactorHalf.m_amModFactor = 1 / 2
    ∧ (UDPSink.handleConfigure UDPSink.sampleHelpers UDPSink.settled
          UDPSink.amFactorHalf).1.m_running.m_amModFactor = 19 / 20 := by
  have key : ∀ (hp : UDPSink.Helpers) (s : UDPSink.State) (force : Bool),
      (UDPSink.apply hp s force).1.m_running = s.m_config := by
    intro hp s force
    simp only [UDPSink.apply, UDPSink.applyAutoRWBalance, UDPSink.applySquelchGate,
      UDPSink.applyRates]
    split_ifs <;> rfl
  refine ⟨fun hp s cfg => ?_, rfl, ?_⟩
  · simp only [UDPSink.handleConfigure, key]
    simp
  · simp only [UDPSink.handleConfigure, key]
    rfl

/-- C9: from a squelch count of 0, when every decimated sample has averaged power at or
above the squelch level, then after any prefix of the input holding at least
`audio_rate/20` decimated samples the count is at least `audio_rate/20` (it is the number
of decimated samples so far, capped at `audio_rate/10 + 1`), so the gate of `feed` is open
unless audio is muted, at the sample that reaches `audio_rate/20` and at every later one. -/
theorem c9_squelch_opens_and_stays_open (s : AMDemod.State)
    (xs : List (Option AMDemod.Decimated)) (k : Nat)
    (h0 : s.m_squelchCount = 0)
    (habove : ∀ d, some d ∈ xs → s.m_squelchLevel ≤ d.average)
    (hk : s.m_running.m_audioSampleRate / 20 ≤ AMDemod.decimatedCount (xs.take k)) :
    s.m_running.m_audioSampleRate / 20 ≤ (AMDemod.feed s (xs.take k)).1.m_squelchCount
    ∧ (AMDemod.feed s (xs.take k)).1.m_squelchCount
        = min (AMDemod.decimatedCount (xs.take k)) (s.m_running.m_audioSampleRate / 10 + 1)
    ∧ AMDemod.gateOpen s (AMDemod.feed s (xs.take k)).1.m_squelchCount
        = !s.m_running.m_audioMute := by
  have hcount : (AMDemod.feed s (xs.take k)).1.m_squelchCount
      = min (AMDemod.decimatedCount (xs.take k)) (s.m_running.m_audioSampleRate / 10 + 1) := by
    rw [AMDemod.feed_squelchCount, AMDemod.feedLoop_squelchCount_above s (xs.take k)
      (by omega) (fun d hd => habove d (List.mem_of_mem_take hd)), h0, Nat.zero_add]
  have hle : s.m_running.m_audioSampleRate / 20
      ≤ (AMDemod.feed s (xs.take k)).1.m_squelchCount := by
    rw [hcount]
    omega
  refine ⟨hle, hcount, ?_⟩
  simp [AMDemod.gateOpen, hle]

/-- C9 (witness): audio rate 100 (threshold 5), seven samples at the squelch level, prefix
of six. -/
theorem c9_squelch_opens_and_stays_open_witness :
    (5 : Nat) ≤ (AMDemod.feed (AMDemod.started 100 false)
        ((List.replicate 7 (some ⟨1 / 10000, 1 / 2, 1⟩)).take 6)).1.m_squelchCount :=
  (c9_squelch_opens_and_stays_open (AMDemod.started 100 false)
    (List.replicate 7 (some ⟨1 / 10000, 1 / 2, 1⟩)) 6 rfl
    (fun d hd => by
      have hd' := List.eq_of_mem_replicate hd
      injection hd' with hd'
      subst hd'
      decide!)
    (by decide!)).1

/-- C10: a decimated sample at which the squelch is closed (count after the update below
`audio_rate/20`) or audio is muted gets the frame (0, 0); and from a count of 0 with the
squelch closed there (`audio_rate/20 > 0`) and no frame pending, input whose averaged
power is below the squelch level at every decimated sample keeps the count at 0 and makes
`feed` write only (0, 0) frames. -/
theorem c10_closed_or_muted_emits_zero :
    (∀ (s : AMDemod.State) (d : AMDemod.Decimated),
        (AMDemod.squelchCount s d.average < s.m_running.m_audioSampleRate / 20
          ∨ s.m_running.m_audioMute = true) →
        AMDemod.frame s d = ⟨0, 0⟩)
    ∧ (∀ (s : AMDemod.State) (xs : List (Option AMDemod.Decimated)),
        s.m_squelchCount = 0 → 0 < s.m_running.m_audioSampleRate / 20 →
        s.m_audioBuffer = [] →
        (∀ d, some d ∈ xs → d.average < s.m_squelchLevel) →
        (AMDemod.feed s xs).1.m_squelchCount = 0
        ∧ ∀ b ∈ (AMDemod.feed s xs).2, ∀ f ∈ b, f = ⟨0, 0⟩) := by
  constructor
  · intro s d h
    have hg : AMDemod.gateOpen s (AMDemod.squelchCount s d.average) = false := by
      rcases h with h | h
      · simp only [AMDemod.gateOpen, Bool.and_eq_false_imp, decide_eq_true_eq]
        intro h'
        omega
      · simp [AMDemod.gateOpen, h]
    simp [AMDemod.frame, AMDemod.audioSample, hg]
  · intro s xs h0 hN hbuf hbelow
    obtain ⟨i1, i2, i3⟩ := AMDemod.feedLoop_below s xs h0 hN (by simp [hbuf]) hbelow
    refine ⟨by rw [AMDemod.feed_squelchCount]; exact i1, ?_⟩
    intro b hb f hf
    unfold AMDemod.feed at hb
    simp only at hb
    split_ifs at hb
    · rcases List.mem_append.mp hb with h' | h'
      · exact i3 b h' f hf
      · rw [List.mem_singleton.mp h'] at hf
        exact i2 f hf
    · exact i3 b hb f hf

/-- C10 (witness): a muted sample above the level, and three samples below the level from
the started state at 48 kHz. -/
theorem c10_closed_or_muted_emits_zero_witness :
    AMDemod.frame (AMDemod.started 48000 true) ⟨1, 1 / 2, 1⟩ = ⟨0, 0⟩
    ∧ (AMDemod.feed (AMDemod.started 48000 false)
          (List.replicate 3 (some ⟨1 / 100000, 1 / 2, 1⟩))).1.m_squelchCount = 0
    ∧ ∀ b ∈ (AMDemod.feed (AMDemod.started 48000 false)
          (List.replicate 3 (some ⟨1 / 100000, 1 / 2, 1⟩))).2, ∀ f ∈ b, f = ⟨0, 0⟩ :=
  ⟨c10_closed_or_muted_emits_zero.1 (AMDemod.started 48000 true) ⟨1, 1 / 2, 1⟩ (Or.inr rfl),
   c10_closed_or_muted_emits_zero.2 (AMDemod.started 48000 false)
    (List.replicate 3 (some ⟨1 / 100000, 1 / 2, 1⟩)) rfl (by decide) rfl
    (fun d hd => by
      have hd' := List.eq_of_mem_replicate hd
      injection hd' with hd'
      subst hd'
      decide!)⟩

namespace ChannelAnalyzerGUI

theorem Keeps.keepsRefl (g : State) : Keeps g g := by simp [Keeps]

theorem Keeps.keepsTrans {a b c : State} (h1 : Keeps a b) (h2 : Keeps b c) : Keeps a c := by
  unfold Keeps at *
  obtain ⟨a1, a2, a3, a4, a5, a6, a7, a8, a9⟩ := h1
  obtain ⟨b1, b2, b3, b4, b5, b6, b7, b8, b9⟩ := h2
  exact ⟨b1.trans a1, b2.trans a2, b3.trans a3, b4.trans a4, b5.trans a5, b6.trans a6,
    b7.trans a7, b8.trans a8, b9.trans a9⟩

theorem Calm.calmRefl (g : State) : Calm g g := by simp [Calm, Keeps.keepsRefl]

theorem Calm.calmTrans {a b c : State} (h1 : Calm a b) (h2 : Calm b c) : Calm a c := by
  obtain ⟨a0, a1, a2, a3, a4, a5, a6, a7⟩ := h1
  obtain ⟨b0, b1, b2, b3, b4, b5, b6, b7⟩ := h2
  exact ⟨a0.keepsTrans b0, b1.trans a1, b2.trans a2, b3.trans a3, b4.trans a4, b5.trans a5,
    b6.trans a6, b7.trans a7⟩

theorem SameButLowCut.sameRefl (g : State) : SameButLowCut g g := ⟨Calm.calmRefl g, rfl⟩

theorem SameButLowCut.sameTrans {a b c : State} (h1 : SameButLowCut a b)
    (h2 : SameButLowCut b c) : SameButLowCut a c :=
  ⟨h1.1.calmTrans h2.1, h2.2.trans h1.2⟩

/-- `applySettings` changes the title colour, the dial, the minus box and the message
log, nothing else. -/
theorem applySettings_same (g : State) :
    SameButLowCut g (applySettings g) ∧ (applySettings g).lowCut = g.lowCut
      ∧ (applySettings g).m_channelMarker = g.m_channelMarker
      ∧ (applySettings g).glSpectrum = g.glSpectrum := by
  unfold applySettings SameButLowCut Calm Keeps
  split_ifs <;> simp

theorem markerChanged_same (g : State) :
    SameButLowCut g (markerChanged g) ∧ (markerChanged g).lowCut = g.lowCut
      ∧ (markerChanged g).m_channelMarker = g.m_channelMarker
      ∧ (markerChanged g).glSpectrum = g.glSpectrum := by
  unfold markerChanged
  split_ifs
  · exact ⟨SameButLowCut.sameRefl g, rfl, rfl, rfl⟩
  · exact applySettings_same g

theorem setLowCutoff_spec (g : State) (x : Int) :
    SameButLowCut g (setLowCutoff g x) ∧ (setLowCutoff g x).lowCut = g.lowCut
      ∧ (setLowCutoff g x).m_channelMarker.m_lowCutoff = x := by
  unfold setLowCutoff
  obtain ⟨h1, h2, h3, -⟩ := markerChanged_same
    { g with m_channelMarker := { g.m_channelMarker with m_lowCutoff := x } }
  refine ⟨SameButLowCut.sameTrans ?_ h1, by rw [h2], by rw [h3]⟩
  simp [SameButLowCut, Calm, Keeps]

theorem setBandwidth_spec (g : State) (x : Int) :
    Calm g (setBandwidth g x) ∧ (setBandwidth g x).lowCut = g.lowCut
      ∧ (setBandwidth g x).m_channelMarker.m_bandwidth = x
      ∧ (setBandwidth g x).m_channelMarker.m_lowCutoff = g.m_channelMarker.m_lowCutoff := by
  unfold setBandwidth
  obtain ⟨h1, h2, h3, -⟩ := markerChanged_same
    { g with m_channelMarker := { g.m_channelMarker with m_bandwidth := x } }
  refine ⟨Calm.calmTrans ?_ h1.1, by rw [h2], by rw [h3], by rw [h3]⟩
  simp [Calm, Keeps]

theorem setSidebands_spec (g : State) (x : sidebands_t) :
    SameButLowCut g (setSidebands g x) ∧ (setSidebands g x).lowCut = g.lowCut
      ∧ (setSidebands g x).m_channelMarker.m_lowCutoff = g.m_channelMarker.m_lowCutoff := by
  unfold setSidebands
  obtain ⟨h1, h2, h3, -⟩ := markerChanged_same
    { g with m_channelMarker := { g.m_channelMarker with m_sidebands := x } }
  refine ⟨SameButLowCut.sameTrans ?_ h1, by rw [h2], by rw [h3]⟩
  simp [SameButLowCut, Calm, Keeps]

theorem storeLowCut_same (g : State) (v : Int) : SameButLowCut g (storeLowCut g v) := by
  simp [SameButLowCut, Calm, Keeps, storeLowCut]

theorem on_lowCut_valueChanged_depth_same (n : Nat) (g : State) (value : Int) :
    SameButLowCut g (on_lowCut_valueChanged_depth n g value) := by
  induction n generalizing g value with
  | zero => exact SameButLowCut.sameRefl g
  | succ n ih =>
    simp only [on_lowCut_valueChanged_depth]
    refine SameButLowCut.sameTrans ?_ (applySettings_same _).1
    have h1 := (setLowCutoff_spec g (getEffectiveLowCutoff g (value * 100))).1
    split_ifs
    · exact h1
    · exact SameButLowCut.sameTrans h1 (SameButLowCut.sameTrans (storeLowCut_same _ _) (ih _ _))

theorem on_lowCut_valueChanged_same (g : State) (value : Int) :
    SameButLowCut g (on_lowCut_valueChanged g value) :=
  on_lowCut_valueChanged_depth_same 2 g value

theorem lowCut_setValue_same (g : State) (value : Int) :
    SameButLowCut g (lowCut_setValue g value) := by
  unfold lowCut_setValue
  simp only
  split_ifs
  · exact SameButLowCut.sameRefl g
  · exact SameButLowCut.sameTrans (storeLowCut_same _ _) (on_lowCut_valueChanged_same _ _)

theorem tdiv_pos_cases (a k : Int) (hk : 0 < k) :
    (0 ≤ a ∧ a.tdiv k = a / k) ∨ (a < 0 ∧ a.tdiv k = -((-a) / k)) := by
  rcases le_or_lt 0 a with h | h
  · exact Or.inl ⟨h, Int.tdiv_eq_ediv h hk.le⟩
  · refine Or.inr ⟨h, ?_⟩
    have h1 : (-a).tdiv k = (-a) / k := Int.tdiv_eq_ediv (by omega) hk.le
    have h2 : (-a).tdiv k = -(a.tdiv k) := Int.neg_tdiv a k
    omega

/-- The effective low cut-off written with the half bandwidth `ssbBW`. -/
theorem effectiveLowCutoff_eq (b x : Int) :
    effectiveLowCutoff b x
      = if b.tdiv 2 < 0 then min 0 (max x (b.tdiv 2 + 100))
        else max 0 (min x (b.tdiv 2 - 100)) := by
  unfold effectiveLowCutoff
  simp only
  split_ifs <;> omega

/-- Bounding, taking the effective cut-off and bounding again gives nothing new: the
slider value the low-cut slot sets is a fixed point of the slot. -/
theorem lowCut_fixed_point (b v mn mx : Int) :
    max mn (min mx ((effectiveLowCutoff b
        (max mn (min mx ((effectiveLowCutoff b (v * 100)).tdiv 100)) * 100)).tdiv 100))
      = max mn (min mx ((effectiveLowCutoff b (v * 100)).tdiv 100)) := by
  simp only [effectiveLowCutoff_eq]
  generalize b.tdiv 2 = s
  split_ifs with hs
  · rcases tdiv_pos_cases (min 0 (max (v * 100) (s + 100))) 100 (by norm_num) with ⟨h1, h2⟩ | ⟨h1, h2⟩
    · rw [h2]
      generalize hu : min 0 (max (v * 100) (s + 100)) / 100 = u
      have hu0 : u = 0 := by omega
      subst hu0
      rcases tdiv_pos_cases (min 0 (max (max mn (min mx 0) * 100) (s + 100))) 100 (by norm_num)
        with ⟨h3, h4⟩ | ⟨h3, h4⟩
      · rw [h4]; omega
      · rw [h4]; omega
    · rw [h2]
      generalize hu : -(-min 0 (max (v * 100) (s + 100)) / 100) = u
      rcases tdiv_pos_cases (min 0 (max (max mn (min mx u) * 100) (s + 100))) 100 (by norm_num)
        with ⟨h3, h4⟩ | ⟨h3, h4⟩
      · rw [h4]; omega
      · rw [h4]; omega
  · rcases tdiv_pos_cases (max 0 (min (v * 100) (s - 100))) 100 (by norm_num) with ⟨h1, h2⟩ | ⟨h1, h2⟩
    · rw [h2]
      generalize hu : max 0 (min (v * 100) (s - 100)) / 100 = u
      rcases tdiv_pos_cases (max 0 (min (max mn (min mx u) * 100) (s - 100))) 100 (by norm_num)
        with ⟨h3, h4⟩ | ⟨h3, h4⟩
      · rw [h4]; omega
      · rw [h4]; omega
    · omega

/-- The slider value the low-cut slot asks for when run for `v` in state `g`. -/
theorem lowCut_target_congr {g g' : State} (v : Int)
    (hb : g'.m_channelMarker.m_bandwidth = g.m_channelMarker.m_bandwidth)
    (hmin : g'.lowCut.minimum = g.lowCut.minimum) (hmax : g'.lowCut.maximum = g.lowCut.maximum) :
    g'.lowCut.bound ((getEffectiveLowCutoff g' (v * 100)).tdiv 100)
      = g.lowCut.bound ((getEffectiveLowCutoff g (v * 100)).tdiv 100) := by
  simp only [Slider.bound, getEffectiveLowCutoff, hb, hmin, hmax]

/-- When the slider already holds the value the slot is about to set, the slot does not
re-enter itself. -/
theorem on_lowCut_valueChanged_depth_of_fixed (m : Nat) (g : State) (v : Int)
    (h : g.lowCut.bound ((getEffectiveLowCutoff g (v * 100)).tdiv 100) = g.lowCut.value) :
    on_lowCut_valueChanged_depth (m + 1) g v
      = applySettings (setLowCutoff g (getEffectiveLowCutoff g (v * 100))) := by
  simp only [on_lowCut_valueChanged_depth]
  obtain ⟨-, h3, -⟩ := setLowCutoff_spec g (getEffectiveLowCutoff g (v * 100))
  rw [h3, if_pos h]

/-- The state in which the low-cut slot re-enters itself satisfies the fixed-point
condition. -/
theorem reentry_fixed (g : State) (v : Int) :
    (storeLowCut (setLowCutoff g (getEffectiveLowCutoff g (v * 100)))
        (g.lowCut.bound ((getEffectiveLowCutoff g (v * 100)).tdiv 100))).lowCut.bound
      ((getEffectiveLowCutoff
          (storeLowCut (setLowCutoff g (getEffectiveLowCutoff g (v * 100)))
            (g.lowCut.bound ((getEffectiveLowCutoff g (v * 100)).tdiv 100)))
          (g.lowCut.bound ((getEffectiveLowCutoff g (v * 100)).tdiv 100) * 100)).tdiv 100)
      = g.lowCut.bound ((getEffectiveLowCutoff g (v * 100)).tdiv 100) := by
  obtain ⟨⟨-, h6⟩, h3, -⟩ := setLowCutoff_spec g (getEffectiveLowCutoff g (v * 100))
  rw [lowCut_target_congr (g := g) _ (by simpa [storeLowCut] using h6)
    (by simp [storeLowCut, h3]) (by simp [storeLowCut, h3])]
  simp only [Slider.bound, getEffectiveLowCutoff]
  exact lowCut_fixed_point _ _ _ _

/-- One run of the low-cut slot, with its single possible re-entry spelled out. -/
theorem on_lowCut_valueChanged_depth_eq (n : Nat) (g : State) (v : Int) :
    on_lowCut_valueChanged_depth (n + 2) g v
      = applySettings
          (if g.lowCut.bound ((getEffectiveLowCutoff g (v * 100)).tdiv 100) = g.lowCut.value then
            setLowCutoff g (getEffectiveLowCutoff g (v * 100))
          else
            applySettings (setLowCutoff
              (storeLowCut (setLowCutoff g (getEffectiveLowCutoff g (v * 100)))
                (g.lowCut.bound ((getEffectiveLowCutoff g (v * 100)).tdiv 100)))
              (getEffectiveLowCutoff
                (storeLowCut (setLowCutoff g (getEffectiveLowCutoff g (v * 100)))
                  (g.lowCut.bound ((getEffectiveLowCutoff g (v * 100)).tdiv 100)))
                (g.lowCut.bound ((getEffectiveLowCutoff g (v * 100)).tdiv 100) * 100)))) := by
  obtain ⟨-, h3, -⟩ := setLowCutoff_spec g (getEffectiveLowCutoff g (v * 100))
  rw [on_lowCut_valueChanged_depth]
  simp only [h3]
  congr 1
  split_ifs with h
  · rfl
  · apply on_lowCut_valueChanged_depth_of_fixed
    rw [reentry_fixed]
    simp [storeLowCut]

/-- The low-cut slot re-enters itself at most once: any depth of at least 2 gives the
result of depth 2. -/
theorem on_lowCut_valueChanged_depth_enough (n : Nat) (g : State) (v : Int) :
    on_lowCut_valueChanged_depth (n + 2) g v = on_lowCut_valueChanged g v := by
  unfold on_lowCut_valueChanged
  rw [on_lowCut_valueChanged_depth_eq n, on_lowCut_valueChanged_depth_eq 0]

/-- The value the low-cut slider holds after its slot ran for `v`. -/
theorem on_lowCut_valueChanged_value (g : State) (v : Int) :
    (on_lowCut_valueChanged g v).lowCut.value
      = if g.lowCut.bound ((getEffectiveLowCutoff g (v * 100)).tdiv 100) = g.lowCut.value then
          g.lowCut.value
        else g.lowCut.bound ((getEffectiveLowCutoff g (v * 100)).tdiv 100) := by
  unfold on_lowCut_valueChanged
  rw [on_lowCut_valueChanged_depth_eq 0]
  have ha := fun x => (applySettings_same x).2.1
  have hs := fun x y => (setLowCutoff_spec x y).2.1
  rw [ha]
  split_ifs with h
  · rw [hs]
  · rw [ha, hs]
    simp [storeLowCut]

theorem Quiet.quietRefl (g : State) : Quiet g g := by simp [Quiet, Keeps.keepsRefl]

theorem Quiet.quietTrans {a b c : State} (h1 : Quiet a b) (h2 : Quiet b c) : Quiet a c := by
  obtain ⟨a0, a1, a2, a3, a4, a5, a6⟩ := h1
  obtain ⟨b0, b1, b2, b3, b4, b5, b6⟩ := h2
  exact ⟨a0.keepsTrans b0, b1.trans a1, b2.trans a2, b3.trans a3, b4.trans a4, b5.trans a5,
    b6.trans a6⟩

theorem Calm.quiet {g g' : State} (h : Calm g g') : Quiet g g' := by
  obtain ⟨a0, -, a2, a3, a4, a5, a6, a7⟩ := h
  exact ⟨a0, a2, a3, a4, a5, a6, a7⟩

theorem Steady.steadyRefl (g : State) : Steady g g := by simp [Steady, Keeps.keepsRefl]

theorem Steady.steadyTrans {a b c : State} (h1 : Steady a b) (h2 : Steady b c) : Steady a c := by
  obtain ⟨a0, a1, a2, a3, a4, a5, a6⟩ := h1
  obtain ⟨b0, b1, b2, b3, b4, b5, b6⟩ := h2
  exact ⟨a0.keepsTrans b0, b1.trans a1, b2.trans a2, b3.trans a3, b4.trans a4, b5.trans a5,
    b6.trans a6⟩

theorem SameButLowCut.steady {g g' : State} (h : SameButLowCut g g') : Steady g g' := by
  obtain ⟨⟨a0, a1, a2, a3, a4, a5, -, -⟩, b⟩ := h
  exact ⟨a0, a1, a2, a3, a4, a5, b⟩

theorem Steady.covers {g g' : State} (h : Steady g g') (hc : markerCovers g) :
    markerCovers g' := by
  obtain ⟨-, a1, -, -, -, -, a6⟩ := h
  unfold markerCovers at *
  rw [a1, a6]
  exact hc

theorem on_BW_valueChanged_spec (g : State) (value : Int) :
    Calm g (on_BW_valueChanged g value)
      ∧ (on_BW_valueChanged g value).m_channelMarker.m_bandwidth = value * 100 * 2 := by
  unfold on_BW_valueChanged
  simp only
  obtain ⟨h1, -, h3, -⟩ := setBandwidth_spec g (value * 100 * 2)
  have key : ∀ g2 : State, SameButLowCut (setBandwidth g (value * 100 * 2)) g2 →
      Calm g (on_lowCut_valueChanged g2 (g2.m_channelMarker.m_lowCutoff.tdiv 100))
      ∧ (on_lowCut_valueChanged g2 (g2.m_channelMarker.m_lowCutoff.tdiv 100)
          ).m_channelMarker.m_bandwidth = value * 100 * 2 := by
    intro g2 h2
    have h4 := on_lowCut_valueChanged_same g2 (g2.m_channelMarker.m_lowCutoff.tdiv 100)
    exact ⟨h1.calmTrans (h2.sameTrans h4).1, by rw [(h2.sameTrans h4).2, h3]⟩
  split_ifs
  · exact key _ (setSidebands_spec _ _).1
  · exact key _ (setSidebands_spec _ _).1
  · exact key _ (setSidebands_spec _ _).1

theorem storeBW_quiet (g : State) (v : Int) : Quiet g (storeBW g v) := by
  simp [Quiet, Keeps, storeBW]

/-- `ui->BW->setValue`: the slider holds the bounded value; when it changed, the marker
bandwidth is 200 times it. -/
theorem BW_setValue_spec (g : State) (value : Int) :
    Quiet g (BW_setValue g value)
      ∧ (BW_setValue g value).BW
          = { minimum := g.BW.minimum, maximum := g.BW.maximum, value := g.BW.bound value }
      ∧ (BW_setValue g value).m_channelMarker.m_bandwidth
          = if g.BW.bound value = g.BW.value then g.m_channelMarker.m_bandwidth
            else g.BW.bound value * 100 * 2 := by
  unfold BW_setValue
  simp only
  split_ifs with h
  · refine ⟨Quiet.quietRefl g, ?_, rfl⟩
    rw [h]
  · obtain ⟨h1, h2⟩ := on_BW_valueChanged_spec (storeBW g (g.BW.bound value)) (g.BW.bound value)
    refine ⟨(storeBW_quiet _ _).quietTrans h1.quiet, ?_, h2⟩
    rw [h1.2.1]
    rfl

theorem BW_setValue_covers (g : State) (value : Int)
    (hc : markerCovers g ∨ g.BW.bound value ≠ g.BW.value) :
    markerCovers (BW_setValue g value) := by
  obtain ⟨-, h2, h3⟩ := BW_setValue_spec g value
  unfold markerCovers at *
  rw [h2, h3]
  simp only
  split_ifs with h
  · rcases hc with hc | hc
    · rw [h]; exact hc
    · exact absurd h hc
  · have : (g.BW.bound value * 100 * 2).tdiv 2 = g.BW.bound value * 100 := by
      rw [Int.mul_tdiv_cancel _ (by norm_num)]
    rw [this]
    constructor <;> intro <;> omega

theorem rangeBW_quiet (g : State) (min max : Int) : Quiet g (rangeBW g min max) := by
  simp [Quiet, Keeps, rangeBW]

theorem rangeLowCut_steady (g : State) (min max : Int) : Steady g (rangeLowCut g min max) := by
  simp [Steady, Keeps, rangeLowCut]

/-- `QAbstractSlider::setRange` on `ui->BW`, for a slider that satisfies its invariant. -/
theorem BW_setRange_spec (g : State) (min max : Int) (hwf : g.BW.wf) :
    Quiet g (BW_setRange g min max)
      ∧ (BW_setRange g min max).BW
          = { minimum := min, maximum := (if max < min then min else max),
              value := Max.max min (Min.min (if max < min then min else max) g.BW.value) }
      ∧ ((markerCovers g
            ∨ Max.max min (Min.min (if max < min then min else max) g.BW.value) ≠ g.BW.value) →
          markerCovers (BW_setRange g min max)) := by
  unfold BW_setRange
  simp only
  generalize (if max < min then min else max) = max'
  split_ifs with h2
  · obtain ⟨hmin, hmax⟩ := h2
    unfold Slider.wf at hwf
    have hv : Max.max min (Min.min max' g.BW.value) = g.BW.value := by omega
    refine ⟨Quiet.quietRefl g, ?_, ?_⟩
    · rw [hv, ← hmin, ← hmax]
    · rw [hv]; intro hc; rcases hc with hc | hc
      · exact hc
      · exact absurd rfl hc
  · obtain ⟨q, b, -⟩ := BW_setValue_spec (rangeBW g min max') g.BW.value
    refine ⟨Quiet.quietTrans (rangeBW_quiet _ _ _) q, by rw [b]; rfl, ?_⟩
    intro hc
    apply BW_setValue_covers
    rcases hc with hc | hc
    · exact Or.inl hc
    · exact Or.inr hc

theorem lowCut_setRange_spec (g : State) (min max : Int) :
    Steady g (lowCut_setRange g min max)
      ∧ (lowCut_setRange g min max).lowCut.minimum = min
      ∧ (lowCut_setRange g min max).lowCut.maximum = (if max < min then min else max) := by
  unfold lowCut_setRange
  simp only
  generalize (if max < min then min else max) = max'
  split_ifs with h2
  · exact ⟨Steady.steadyRefl g, h2.1, h2.2⟩
  · have hs := lowCut_setValue_same (rangeLowCut g min max') g.lowCut.value
    refine ⟨Steady.steadyTrans (rangeLowCut_steady _ _ _) hs.steady, ?_, ?_⟩
    · rw [hs.1.2.2.2.2.2.2.1]; rfl
    · rw [hs.1.2.2.2.2.2.2.2]; rfl

theorem applySsbDisplay_same (g : State) (checked : Bool) :
    SameButLowCut g (applySsbDisplay g checked)
      ∧ (applySsbDisplay g checked).lowCut = g.lowCut
      ∧ (applySsbDisplay g checked).m_channelMarker.m_lowCutoff
          = g.m_channelMarker.m_lowCutoff := by
  unfold applySsbDisplay
  have key : ∀ (g1 : State) (gl : GLSpectrum),
      SameButLowCut g g1 ∧ g1.lowCut = g.lowCut
        ∧ g1.m_channelMarker.m_lowCutoff = g.m_channelMarker.m_lowCutoff →
      SameButLowCut g { g1 with glSpectrum := gl } ∧ ({ g1 with glSpectrum := gl } : State).lowCut
          = g.lowCut
        ∧ ({ g1 with glSpectrum := gl } : State).m_channelMarker.m_lowCutoff
          = g.m_channelMarker.m_lowCutoff := by
    intro g1 gl h
    exact ⟨h.1.sameTrans (by simp [SameButLowCut, Calm, Keeps]), h.2.1, h.2.2⟩
  split_ifs
  · exact key _ _ (setSidebands_spec _ _)
  · exact key _ _ (setSidebands_spec _ _)
  · exact key _ _ (setSidebands_spec _ _)

theorem Base.baseRefl (g : State) : Base g g := by simp [Base, Keeps.keepsRefl]

theorem Base.baseTrans {a b c : State} (h1 : Base a b) (h2 : Base b c) : Base a c := by
  obtain ⟨a0, a1, a2, a3, a4⟩ := h1
  obtain ⟨b0, b1, b2, b3, b4⟩ := h2
  exact ⟨a0.keepsTrans b0, b1.trans a1, b2.trans a2, b3.trans a3, b4.trans a4⟩

theorem Quiet.quietBase {g g' : State} (h : Quiet g g') : Base g g' := by
  obtain ⟨a0, a1, a2, a3, a4, -, -⟩ := h
  exact ⟨a0, a1, a2, a3, a4⟩

theorem Steady.steadyBase {g g' : State} (h : Steady g g') : Base g g' := by
  obtain ⟨a0, -, a1, a2, a3, a4, -⟩ := h
  exact ⟨a0, a1, a2, a3, a4⟩

theorem tdiv_200_of_nonneg {rate : Int} (hrate : 0 ≤ rate) :
    (-rate).tdiv 200 = -(rate / 200) ∧ rate.tdiv 200 = rate / 200 := by
  constructor
  · rw [Int.neg_tdiv, Int.tdiv_eq_ediv hrate (by norm_num)]
  · rw [Int.tdiv_eq_ediv hrate (by norm_num)]

/-- The first clamp of `setNewRate`, on the bandwidth control. -/
theorem clampBW_spec (g : State) (hrate : 0 ≤ g.m_rate) (hwf : g.BW.wf) :
    Quiet g (clampBW g) ∧ (clampBW g).BW.minimum = g.BW.minimum
      ∧ (clampBW g).BW.maximum = g.BW.maximum ∧ (clampBW g).BW.wf
      ∧ (g.BW.value < -(g.m_rate / 200) → (clampBW g).BW.value ≤ -(g.m_rate / 200))
      ∧ (g.m_rate / 200 < g.BW.value → g.m_rate / 200 ≤ (clampBW g).BW.value)
      ∧ (-(g.m_rate / 200) ≤ g.BW.value → g.BW.value ≤ g.m_rate / 200 →
          (clampBW g).BW.value = g.BW.value)
      ∧ (markerCovers g → markerCovers (clampBW g)
          ∨ (clampBW g).BW.value < -(g.m_rate / 200)
          ∨ g.m_rate / 200 < (clampBW g).BW.value) := by
  obtain ⟨hlo, hhi⟩ := tdiv_200_of_nonneg hrate
  by_cases h1 : g.BW.value < -(g.m_rate / 200)
  · obtain ⟨q, b, -⟩ := BW_setValue_spec g (-(g.m_rate / 200))
    have hg : clampBW g = setBandwidth (BW_setValue g (-(g.m_rate / 200))) (-g.m_rate * 2) := by
      unfold clampBW
      rw [hlo, hhi, if_pos h1]
      simp only
      rw [q.2.2.2.1]
    rw [hg]
    obtain ⟨c, -, cb, -⟩ := setBandwidth_spec (BW_setValue g (-(g.m_rate / 200))) (-g.m_rate * 2)
    generalize setBandwidth (BW_setValue g (-(g.m_rate / 200))) (-g.m_rate * 2) = g1 at c cb ⊢
    have hBW : g1.BW = ⟨g.BW.minimum, g.BW.maximum, g.BW.bound (-(g.m_rate / 200))⟩ := by
      rw [c.2.1, b]
    have hv : g1.BW.value
        = Max.max g.BW.minimum (Min.min g.BW.maximum (-(g.m_rate / 200))) := by
      rw [hBW]; rfl
    unfold Slider.wf at hwf
    refine ⟨q.quietTrans c.quiet, by rw [hBW], by rw [hBW], ?_, ?_, ?_, ?_, ?_⟩
    · unfold Slider.wf; rw [hBW]; simp only [Slider.bound]; omega
    · intro _; rw [hv]; omega
    · intro h; omega
    · intro h; omega
    · intro _
      by_cases hlt : g1.BW.value < -(g.m_rate / 200)
      · exact Or.inr (Or.inl hlt)
      · left
        unfold markerCovers
        have e : (-g.m_rate * 2).tdiv 2 = -g.m_rate := Int.mul_tdiv_cancel _ (by norm_num)
        rw [cb, e]
        constructor <;> intro <;> omega
  · by_cases h2 : g.m_rate / 200 < g.BW.value
    · obtain ⟨q, b, -⟩ := BW_setValue_spec g (g.m_rate / 200)
      have hg : clampBW g = setBandwidth (BW_setValue g (g.m_rate / 200)) (g.m_rate * 2) := by
        unfold clampBW
        rw [hlo, hhi, if_neg h1, if_pos h2]
        simp only
        rw [q.2.2.2.1]
      rw [hg]
      obtain ⟨c, -, cb, -⟩ := setBandwidth_spec (BW_setValue g (g.m_rate / 200)) (g.m_rate * 2)
      generalize setBandwidth (BW_setValue g (g.m_rate / 200)) (g.m_rate * 2) = g1 at c cb ⊢
      have hBW : g1.BW = ⟨g.BW.minimum, g.BW.maximum, g.BW.bound (g.m_rate / 200)⟩ := by
        rw [c.2.1, b]
      have hv : g1.BW.value = Max.max g.BW.minimum (Min.min g.BW.maximum (g.m_rate / 200)) := by
        rw [hBW]; rfl
      unfold Slider.wf at hwf
      refine ⟨q.quietTrans c.quiet, by rw [hBW], by rw [hBW], ?_, ?_, ?_, ?_, ?_⟩
      · unfold Slider.wf; rw [hBW]; simp only [Slider.bound]; omega
      · intro h; omega
      · intro _; rw [hv]; omega
      · intro h; omega
      · intro _
        by_cases hlt : g.m_rate / 200 < g1.BW.value
        · exact Or.inr (Or.inr hlt)
        · left
          unfold markerCovers
          have e : (g.m_rate * 2).tdiv 2 = g.m_rate := Int.mul_tdiv_cancel _ (by norm_num)
          rw [cb, e]
          constructor <;> intro <;> omega
    · have hg : clampBW g = g := by
        unfold clampBW
        rw [hlo, hhi, if_neg h1, if_neg h2]
      rw [hg]
      refine ⟨Quiet.quietRefl g, rfl, rfl, hwf, ?_, ?_, ?_, ?_⟩
      · intro h; omega
      · intro h; omega
      · intro _ _; rfl
      · intro h; exact Or.inl h

/-- The second clamp of `setNewRate`, on the low-cut control. -/
theorem clampLowCut_steady (g : State) : Steady g (clampLowCut g) := by
  unfold clampLowCut
  split_ifs
  · exact ((lowCut_setValue_same g _).sameTrans (setLowCutoff_spec _ _).1).steady
  · exact ((lowCut_setValue_same g _).sameTrans (setLowCutoff_spec _ _).1).steady
  · exact Steady.steadyRefl g

/-- Lines 410-413 of `setNewRate`: both ranges become `[-(m_rate/200), m_rate/200]` and the
bandwidth value is bounded to it. -/
theorem setRanges_spec (g : State) (hrate : 0 ≤ g.m_rate) (hwf : g.BW.wf) :
    Base g (setRanges g)
      ∧ (setRanges g).BW
          = ⟨-(g.m_rate / 200), g.m_rate / 200,
              Max.max (-(g.m_rate / 200)) (Min.min (g.m_rate / 200) g.BW.value)⟩
      ∧ (setRanges g).lowCut.minimum = -(g.m_rate / 200)
      ∧ (setRanges g).lowCut.maximum = g.m_rate / 200
      ∧ ((markerCovers g ∨ g.BW.value < -(g.m_rate / 200) ∨ g.m_rate / 200 < g.BW.value) →
          markerCovers (setRanges g)) := by
  obtain ⟨hlo, hhi⟩ := tdiv_200_of_nonneg hrate
  unfold setRanges
  simp only
  -- step 1: BW->setMinimum
  obtain ⟨q1, b1, c1⟩ := BW_setRange_spec g (-(g.m_rate / 200))
    (if g.BW.maximum < -(g.m_rate / 200) then -(g.m_rate / 200) else g.BW.maximum) hwf
  have e1 : BW_setMinimum g ((-g.m_rate).tdiv 200)
      = BW_setRange g (-(g.m_rate / 200))
          (if g.BW.maximum < -(g.m_rate / 200) then -(g.m_rate / 200) else g.BW.maximum) := by
    unfold BW_setMinimum; rw [hlo]
  rw [e1]
  generalize BW_setRange g (-(g.m_rate / 200))
    (if g.BW.maximum < -(g.m_rate / 200) then -(g.m_rate / 200) else g.BW.maximum) = g1
    at q1 b1 c1 ⊢
  have hr1 : g1.m_rate = g.m_rate := q1.2.2.2.1
  -- step 2: lowCut->setMinimum
  rw [hr1, hlo]
  obtain ⟨s2, m2, -⟩ := lowCut_setRange_spec g1 (-(g.m_rate / 200))
    (if g1.lowCut.maximum < -(g.m_rate / 200) then -(g.m_rate / 200) else g1.lowCut.maximum)
  have e2 : lowCut_setMinimum g1 (-(g.m_rate / 200))
      = lowCut_setRange g1 (-(g.m_rate / 200))
          (if g1.lowCut.maximum < -(g.m_rate / 200) then -(g.m_rate / 200)
           else g1.lowCut.maximum) := rfl
  rw [e2]
  generalize lowCut_setRange g1 (-(g.m_rate / 200))
    (if g1.lowCut.maximum < -(g.m_rate / 200) then -(g.m_rate / 200)
     else g1.lowCut.maximum) = g2 at s2 m2 ⊢
  have hr2 : g2.m_rate = g.m_rate := by rw [s2.2.2.2.2.1, hr1]
  have hB2 : g2.BW = g1.BW := s2.2.1
  -- step 3: BW->setMaximum
  rw [hr2, hhi]
  have hwf2 : g2.BW.wf := by
    unfold Slider.wf; rw [hB2, b1]; simp only; split_ifs <;> omega
  obtain ⟨q3, b3, c3⟩ := BW_setRange_spec g2
    (if g.m_rate / 200 < g2.BW.minimum then g.m_rate / 200 else g2.BW.minimum)
    (g.m_rate / 200) hwf2
  have e3 : BW_setMaximum g2 (g.m_rate / 200)
      = BW_setRange g2 (if g.m_rate / 200 < g2.BW.minimum then g.m_rate / 200
          else g2.BW.minimum) (g.m_rate / 200) := rfl
  rw [e3]
  generalize BW_setRange g2 (if g.m_rate / 200 < g2.BW.minimum then g.m_rate / 200
    else g2.BW.minimum) (g.m_rate / 200) = g3 at q3 b3 c3 ⊢
  have hr3 : g3.m_rate = g.m_rate := by rw [q3.2.2.2.1, hr2]
  -- step 4: lowCut->setMaximum
  rw [hr3, hhi]
  obtain ⟨s4, m4, x4⟩ := lowCut_setRange_spec g3
    (if g.m_rate / 200 < g3.lowCut.minimum then g.m_rate / 200 else g3.lowCut.minimum)
    (g.m_rate / 200)
  have e4 : lowCut_setMaximum g3 (g.m_rate / 200)
      = lowCut_setRange g3 (if g.m_rate / 200 < g3.lowCut.minimum then g.m_rate / 200
          else g3.lowCut.minimum) (g.m_rate / 200) := rfl
  rw [e4]
  generalize lowCut_setRange g3 (if g.m_rate / 200 < g3.lowCut.minimum then g.m_rate / 200
    else g3.lowCut.minimum) (g.m_rate / 200) = g4 at s4 m4 x4 ⊢
  have hmin3 : g3.lowCut.minimum = -(g.m_rate / 200) := by rw [q3.2.2.2.2.2.1, m2]
  have hB4 : g4.BW = g3.BW := s4.2.1
  have hmin2 : g2.BW.minimum = -(g.m_rate / 200) := by rw [hB2, b1]
  have hval2 : g2.BW.value = Max.max (-(g.m_rate / 200))
      (Min.min (if (if g.BW.maximum < -(g.m_rate / 200) then -(g.m_rate / 200)
          else g.BW.maximum) < -(g.m_rate / 200) then -(g.m_rate / 200)
        else (if g.BW.maximum < -(g.m_rate / 200) then -(g.m_rate / 200) else g.BW.maximum))
        g.BW.value) := by rw [hB2, b1]
  unfold Slider.wf at hwf
  refine ⟨((q1.quietBase.baseTrans s2.steadyBase).baseTrans q3.quietBase).baseTrans s4.steadyBase, ?_, ?_, ?_, ?_⟩
  · rw [hB4, b3, hmin2, hval2]
    congr 1
    · split_ifs <;> omega
    · split_ifs <;> omega
    · split_ifs <;> omega
  · rw [m4, hmin3]; split_ifs <;> omega
  · rw [x4, hmin3]; split_ifs <;> omega
  · intro hc
    refine s4.covers (c3 ?_)
    by_cases hch : Max.max (if g.m_rate / 200 < g2.BW.minimum then g.m_rate / 200
          else g2.BW.minimum)
        (Min.min (if g.m_rate / 200 < (if g.m_rate / 200 < g2.BW.minimum then g.m_rate / 200
            else g2.BW.minimum) then (if g.m_rate / 200 < g2.BW.minimum then g.m_rate / 200
            else g2.BW.minimum) else g.m_rate / 200) g2.BW.value) = g2.BW.value
    · left
      refine s2.covers (c1 ?_)
      rcases hc with hc | hc | hc
      · exact Or.inl hc
      · right
        split_ifs <;> omega
      · by_cases hch1 : Max.max (-(g.m_rate / 200))
            (Min.min (if (if g.BW.maximum < -(g.m_rate / 200) then -(g.m_rate / 200)
                else g.BW.maximum) < -(g.m_rate / 200) then -(g.m_rate / 200)
              else (if g.BW.maximum < -(g.m_rate / 200) then -(g.m_rate / 200)
                else g.BW.maximum)) g.BW.value) = g.BW.value
        · exfalso
          rw [hmin2, hval2, hch1] at hch
          revert hch
          split_ifs <;> omega
        · exact Or.inr hch1
    · exact Or.inr hch

/-- `setNewRate` for a span within 0..6, a non-negative analyzer sample rate and a
bandwidth slider that satisfies its invariant. -/
theorem setNewRate_spec (g : State) (k : Int) (hk0 : 0 ≤ k) (hk6 : k ≤ 6)
    (hsr : 0 ≤ g.analyzerSampleRate) (hwf : g.BW.wf) :
    (setNewRate g k).1 = true
      ∧ Keeps g (setNewRate g k).2
      ∧ (setNewRate g k).2.spanLog2 = g.spanLog2
      ∧ (setNewRate g k).2.ssb = g.ssb
      ∧ (setNewRate g k).2.m_rate = g.analyzerSampleRate / 2 ^ k.toNat
      ∧ (setNewRate g k).2.m_spanLog2 = k
      ∧ (setNewRate g k).2.BW
          = ⟨-(g.analyzerSampleRate / 2 ^ k.toNat / 200),
              g.analyzerSampleRate / 2 ^ k.toNat / 200,
              if g.BW.value < -(g.analyzerSampleRate / 2 ^ k.toNat / 200) then
                -(g.analyzerSampleRate / 2 ^ k.toNat / 200)
              else if g.analyzerSampleRate / 2 ^ k.toNat / 200 < g.BW.value then
                g.analyzerSampleRate / 2 ^ k.toNat / 200
              else g.BW.value⟩
      ∧ (setNewRate g k).2.lowCut.minimum = -(g.analyzerSampleRate / 2 ^ k.toNat / 200)
      ∧ (setNewRate g k).2.lowCut.maximum = g.analyzerSampleRate / 2 ^ k.toNat / 200
      ∧ (markerCovers g → markerCovers (setNewRate g k).2) := by
  have hcond : ¬ (k < 0 ∨ 6 < k) := by omega
  have hpow : (0 : Int) ≤ 2 ^ k.toNat := by positivity
  have hrate : g.analyzerSampleRate.tdiv (2 ^ k.toNat) = g.analyzerSampleRate / 2 ^ k.toNat :=
    Int.tdiv_eq_ediv hsr hpow
  have hr0 : 0 ≤ g.analyzerSampleRate / 2 ^ k.toNat := Int.ediv_nonneg hsr hpow
  unfold setNewRate
  rw [if_neg hcond, hrate]
  simp only
  generalize hg0 : ({ g with m_spanLog2 := k
                             m_rate := g.analyzerSampleRate / 2 ^ k.toNat } : State) = g0
  have f0 : Base g { g0 with m_rate := g.m_rate, m_spanLog2 := g.m_spanLog2 } := by
    subst hg0; simp [Base, Keeps]
  have r0 : g0.m_rate = g.analyzerSampleRate / 2 ^ k.toNat := by subst hg0; rfl
  have k0 : g0.m_spanLog2 = k := by subst hg0; rfl
  have b0 : g0.BW = g.BW := by subst hg0; rfl
  have m0 : g0.m_channelMarker = g.m_channelMarker := by subst hg0; rfl
  have hwf0 : g0.BW.wf := by rw [b0]; exact hwf
  obtain ⟨q1, -, -, w1, x1, y1, z1, c1⟩ := clampBW_spec g0 (by rw [r0]; exact hr0) hwf0
  generalize clampBW g0 = g1 at q1 w1 x1 y1 z1 c1 ⊢
  have s2 := clampLowCut_steady g1
  generalize clampLowCut g1 = g2 at s2 ⊢
  have r2 : g2.m_rate = g.analyzerSampleRate / 2 ^ k.toNat := by
    rw [s2.2.2.2.2.1, q1.2.2.2.1, r0]
  obtain ⟨f3, b3, mn3, mx3, c3⟩ := setRanges_spec g2 (by rw [r2]; exact hr0)
    (by rw [s2.2.1]; exact w1)
  generalize setRanges g2 = g3 at f3 b3 mn3 mx3 c3 ⊢
  obtain ⟨s4, l4, -⟩ := applySsbDisplay_same g3 g3.ssb
  generalize applySsbDisplay g3 g3.ssb = g4 at s4 l4 ⊢
  have fall : Base g0 g4 := ((q1.quietBase.baseTrans s2.steadyBase).baseTrans f3).baseTrans s4.steady.steadyBase
  obtain ⟨fk, fs, fb, fr, fm⟩ := fall
  obtain ⟨gk, gs, gb, -, -⟩ := f0
  rw [r0] at x1 y1 z1 c1
  rw [r2] at b3 mn3 mx3 c3
  refine ⟨trivial, ?_, ?_, ?_, ?_, ?_, ?_, ?_, ?_, ?_⟩
  · exact Keeps.keepsTrans gk (Keeps.keepsTrans fk (by simp [Keeps]))
  · show g4.spanLog2 = g.spanLog2
    rw [fs]; exact gs
  · show g4.ssb = g.ssb
    rw [fb]; exact gb
  · show g4.m_rate = _
    rw [fr, r0]
  · show g4.m_spanLog2 = k
    rw [fm, k0]
  · show g4.BW = _
    rw [s4.1.2.1, b3, s2.2.1]
    rw [b0] at x1 y1 z1
    congr 1
    split_ifs with h1 h2
    · have := x1 h1; omega
    · have := y1 h2; omega
    · have := z1 (by omega) (by omega); omega
  · show g4.lowCut.minimum = _
    rw [l4, mn3]
  · show g4.lowCut.maximum = _
    rw [l4, mx3]
  · intro hc
    show markerCovers { g4 with glScopeSampleRate := g4.m_rate, scopeVisSampleRate := g4.m_rate }
    have hc0 : markerCovers g0 := by
      unfold markerCovers at *; rw [b0, m0]; exact hc
    have hc3 : markerCovers g3 := by
      apply c3
      rw [s2.2.1]
      rcases c1 hc0 with h | h | h
      · exact Or.inl (s2.covers h)
      · exact Or.inr (Or.inl h)
      · exact Or.inr (Or.inr h)
    exact s4.steady.covers hc3

theorem BW_setRange_quiet (g : State) (min max : Int) : Quiet g (BW_setRange g min max) := by
  unfold BW_setRange
  simp only
  generalize (if max < min then min else max) = max'
  split_ifs
  · exact Quiet.quietRefl g
  · exact (rangeBW_quiet _ _ _).quietTrans (BW_setValue_spec _ _).1

theorem clampBW_quiet (g : State) : Quiet g (clampBW g) := by
  unfold clampBW
  split_ifs
  · exact (BW_setValue_spec _ _).1.quietTrans (setBandwidth_spec _ _).1.quiet
  · exact (BW_setValue_spec _ _).1.quietTrans (setBandwidth_spec _ _).1.quiet
  · exact Quiet.quietRefl g

theorem setRanges_base (g : State) : Base g (setRanges g) := by
  unfold setRanges
  simp only
  exact (((BW_setRange_quiet _ _ _).quietBase.baseTrans (lowCut_setRange_spec _ _ _).1.steadyBase).baseTrans
    (BW_setRange_quiet _ _ _).quietBase).baseTrans (lowCut_setRange_spec _ _ _).1.steadyBase

/-- `setNewRate` never touches the span control or the SSB flag, whatever its argument. -/
theorem setNewRate_keeps (g : State) (k : Int) :
    Keeps g (setNewRate g k).2 ∧ (setNewRate g k).2.spanLog2 = g.spanLog2
      ∧ (setNewRate g k).2.ssb = g.ssb := by
  unfold setNewRate
  split_ifs
  · exact ⟨Keeps.keepsRefl g, rfl, rfl⟩
  · simp only
    generalize hg0 : ({ g with m_spanLog2 := k
                               m_rate := g.analyzerSampleRate.tdiv (2 ^ k.toNat) } : State) = g0
    have f0 : Keeps g g0 ∧ g0.spanLog2 = g.spanLog2 ∧ g0.ssb = g.ssb := by
      subst hg0; simp [Keeps]
    have f1 : Base g0 (applySsbDisplay (setRanges (clampLowCut (clampBW g0)))
        (setRanges (clampLowCut (clampBW g0))).ssb) :=
      (((clampBW_quiet g0).quietBase.baseTrans (clampLowCut_steady _).steadyBase).baseTrans
        (setRanges_base _)).baseTrans (applySsbDisplay_same _ _).1.steady.steadyBase
    generalize applySsbDisplay (setRanges (clampLowCut (clampBW g0)))
        (setRanges (clampLowCut (clampBW g0))).ssb = g4 at f1 ⊢
    obtain ⟨a, b, c, -, -⟩ := f1
    exact ⟨f0.1.keepsTrans (a.keepsTrans (by simp [Keeps])), b.trans f0.2.1, c.trans f0.2.2⟩

theorem on_spanLog2_valueChanged_keeps (g : State) (v : Int) :
    Keeps g (on_spanLog2_valueChanged g v)
      ∧ (on_spanLog2_valueChanged g v).spanLog2 = g.spanLog2
      ∧ (on_spanLog2_valueChanged g v).ssb = g.ssb := by
  unfold on_spanLog2_valueChanged
  simp only
  obtain ⟨a, b, c⟩ := setNewRate_keeps g v
  split_ifs
  · obtain ⟨⟨⟨k, -, s, x, -⟩, -⟩, -⟩ := applySettings_same (setNewRate g v).2
    exact ⟨a.keepsTrans k, s.trans b, x.trans c⟩
  · exact ⟨a, b, c⟩

/-- `ui->spanLog2->setValue`: the span control holds the bounded value, and the SSB flag is
as before. -/
theorem spanLog2_setValue_spec (g : State) (v : Int) :
    Keeps g (spanLog2_setValue g v)
      ∧ (spanLog2_setValue g v).spanLog2
          = ⟨g.spanLog2.minimum, g.spanLog2.maximum, g.spanLog2.bound v⟩
      ∧ (spanLog2_setValue g v).ssb = g.ssb := by
  unfold spanLog2_setValue
  simp only
  split_ifs with h
  · refine ⟨Keeps.keepsRefl g, ?_, rfl⟩
    rw [h]
  · obtain ⟨a, b, c⟩ := on_spanLog2_valueChanged_keeps (storeSpanLog2 g (g.spanLog2.bound v))
      (g.spanLog2.bound v)
    exact ⟨Keeps.keepsTrans (by simp [Keeps, storeSpanLog2]) a, by rw [b]; rfl, by rw [c]; rfl⟩

end ChannelAnalyzerGUI

/-- C7 (fails as stated): with a marker bandwidth of 2000 Hz and a requested low cut-off of
5000 Hz the result is 900, which equals `|bw/2| - 100` and is not below it; with a marker
bandwidth of 0 the result is 0 while `|bw/2| - 100` is -100. -/
theorem c7_effective_low_cutoff_reaches_bound :
    ChannelAnalyzerGUI.getEffectiveLowCutoff (ChannelAnalyzerGUI.withBandwidth 2000) 5000 = 900
    ∧ ¬ (|ChannelAnalyzerGUI.getEffectiveLowCutoff (ChannelAnalyzerGUI.withBandwidth 2000) 5000|
          < |(ChannelAnalyzerGUI.withBandwidth 2000).m_channelMarker.m_bandwidth.tdiv 2| - 100)
    ∧ ChannelAnalyzerGUI.getEffectiveLowCutoff (ChannelAnalyzerGUI.withBandwidth 0) 5000 = 0
    ∧ ¬ (|ChannelAnalyzerGUI.getEffectiveLowCutoff (ChannelAnalyzerGUI.withBandwidth 0) 5000|
          < |(ChannelAnalyzerGUI.withBandwidth 0).m_channelMarker.m_bandwidth.tdiv 2| - 100) := by
  decide!

/-- C7 (amended): for every requested low cut-off and every marker bandwidth, the value `r`
returned by `getEffectiveLowCutoff` satisfies `|r| ≤ max(|bw/2| - 100, 0)`, with `bw/2` the
truncating division of the code. -/
theorem c7_effective_low_cutoff_bound (g : ChannelAnalyzerGUI.State) (lowCutoff : Int) :
    |ChannelAnalyzerGUI.getEffectiveLowCutoff g lowCutoff|
      ≤ max (|g.m_channelMarker.m_bandwidth.tdiv 2| - 100) 0 := by
  unfold ChannelAnalyzerGUI.getEffectiveLowCutoff
  rw [ChannelAnalyzerGUI.effectiveLowCutoff_eq]
  generalize g.m_channelMarker.m_bandwidth.tdiv 2 = s
  split_ifs with h
  · rw [abs_le, abs_of_neg h]
    constructor <;> omega
  · rw [abs_le, abs_of_nonneg (by omega : 0 ≤ s)]
    constructor <;> omega

/-- C8: for a span within 0..6, a non-negative channel sample rate and a bandwidth slider
whose value lies within its range, `setNewRate` returns true, sets `m_rate` to the sample
rate divided by `2^spanLog2`, and leaves the bandwidth control at `-m_rate/200` when it was
below that, at `m_rate/200` when it was above that, and unchanged otherwise; so the control
lies within `[-m_rate/200, m_rate/200]`, which also is its new range. -/
theorem c8_setNewRate_clamps_bandwidth (g : ChannelAnalyzerGUI.State) (spanLog2 : Int)
    (h0 : 0 ≤ spanLog2) (h6 : spanLog2 ≤ 6) (hsr : 0 ≤ g.analyzerSampleRate)
    (hwf : g.BW.minimum ≤ g.BW.value ∧ g.BW.value ≤ g.BW.maximum) :
    (ChannelAnalyzerGUI.setNewRate g spanLog2).1 = true
    ∧ (ChannelAnalyzerGUI.setNewRate g spanLog2).2.m_rate
        = g.analyzerSampleRate.tdiv (2 ^ spanLog2.toNat)
    ∧ (ChannelAnalyzerGUI.setNewRate g spanLog2).2.BW.value
        = (if g.BW.value < (-(g.analyzerSampleRate.tdiv (2 ^ spanLog2.toNat))).tdiv 200 then
            (-(g.analyzerSampleRate.tdiv (2 ^ spanLog2.toNat))).tdiv 200
          else if (g.analyzerSampleRate.tdiv (2 ^ spanLog2.toNat)).tdiv 200 < g.BW.value then
            (g.analyzerSampleRate.tdiv (2 ^ spanLog2.toNat)).tdiv 200
          else g.BW.value)
    ∧ (-(g.analyzerSampleRate.tdiv (2 ^ spanLog2.toNat))).tdiv 200
        ≤ (ChannelAnalyzerGUI.setNewRate g spanLog2).2.BW.value
    ∧ (ChannelAnalyzerGUI.setNewRate g spanLog2).2.BW.value
        ≤ (g.analyzerSampleRate.tdiv (2 ^ spanLog2.toNat)).tdiv 200
    ∧ (ChannelAnalyzerGUI.setNewRate g spanLog2).2.BW.minimum
        = (-(g.analyzerSampleRate.tdiv (2 ^ spanLog2.toNat))).tdiv 200
    ∧ (ChannelAnalyzerGUI.setNewRate g spanLog2).2.BW.maximum
        = (g.analyzerSampleRate.tdiv (2 ^ spanLog2.toNat)).tdiv 200 := by
  obtain ⟨a, -, -, -, r, -, b, -⟩ := ChannelAnalyzerGUI.setNewRate_spec g spanLog2 h0 h6 hsr hwf
  have hpow : (0 : Int) ≤ 2 ^ spanLog2.toNat := by positivity
  have hrate : g.analyzerSampleRate.tdiv (2 ^ spanLog2.toNat)
      = g.analyzerSampleRate / 2 ^ spanLog2.toNat := Int.tdiv_eq_ediv hsr hpow
  have hr0 : 0 ≤ g.analyzerSampleRate / 2 ^ spanLog2.toNat := Int.ediv_nonneg hsr hpow
  obtain ⟨hlo, hhi⟩ := ChannelAnalyzerGUI.tdiv_200_of_nonneg hr0
  rw [hrate, hlo, hhi, b, r]
  refine ⟨a, rfl, rfl, ?_, ?_, rfl, rfl⟩
  · simp only; split_ifs <;> omega
  · simp only; split_ifs <;> omega

/-- C8 (witness): the analyzer at span 2 with the bandwidth control at 60, taken to span 3
(rate 6000): the control holds 30. -/
theorem c8_setNewRate_clamps_bandwidth_witness :
    (ChannelAnalyzerGUI.setNewRate ChannelAnalyzerGUI.wide48k 3).2.BW.value = 30
    ∧ (ChannelAnalyzerGUI.setNewRate ChannelAnalyzerGUI.wide48k 3).2.m_rate = 6000 := by
  have h := c8_setNewRate_clamps_bandwidth ChannelAnalyzerGUI.wide48k 3 (by decide) (by decide)
    (by decide) (by decide)
  refine ⟨?_, ?_⟩
  · rw [h.2.2.1]; decide
  · rw [h.2.1]; decide

namespace ChannelAnalyzerGUI

theorem setCenterFrequency_spec (g : State) (x : Int) :
    SameButLowCut { g with m_channelMarker := { g.m_channelMarker with m_centerFrequency := x } }
        (setCenterFrequency g x)
      ∧ (setCenterFrequency g x).lowCut = g.lowCut := by
  unfold setCenterFrequency
  obtain ⟨h1, h2, -⟩ := markerChanged_same
    { g with m_channelMarker := { g.m_channelMarker with m_centerFrequency := x } }
  exact ⟨h1, h2⟩

theorem setColor_spec (g : State) (x : Nat) :
    SameButLowCut { g with m_channelMarker := { g.m_channelMarker with m_color := x } }
        (setColor g x)
      ∧ (setColor g x).lowCut = g.lowCut := by
  unfold setColor
  obtain ⟨h1, h2, -⟩ := markerChanged_same
    { g with m_channelMarker := { g.m_channelMarker with m_color := x } }
  exact ⟨h1, h2⟩

theorem on_ssb_toggled_same (g : State) (checked : Bool) :
    SameButLowCut g (on_ssb_toggled g checked) := by
  unfold on_ssb_toggled
  split_ifs
  · exact (applySsbDisplay_same g true).1.sameTrans (on_lowCut_valueChanged_same _ _)
  · exact (applySsbDisplay_same g false).1.sameTrans (applySettings_same _).1

/-- `ui->ssb->setChecked`: the flag holds the value given; the controls, their ranges and
the marker bandwidth are as before. -/
theorem ssb_setChecked_spec (g : State) (checked : Bool) :
    Keeps g (ssb_setChecked g checked) ∧ (ssb_setChecked g checked).BW = g.BW
      ∧ (ssb_setChecked g checked).spanLog2 = g.spanLog2
      ∧ (ssb_setChecked g checked).ssb = checked
      ∧ (ssb_setChecked g checked).lowCut.minimum = g.lowCut.minimum
      ∧ (ssb_setChecked g checked).lowCut.maximum = g.lowCut.maximum
      ∧ (ssb_setChecked g checked).m_channelMarker.m_bandwidth
          = g.m_channelMarker.m_bandwidth := by
  unfold ssb_setChecked
  split_ifs with h
  · exact ⟨Keeps.keepsRefl g, rfl, rfl, h, rfl, rfl, rfl⟩
  · obtain ⟨⟨k, b, s, x, -, -, mn, mx⟩, m⟩ := on_ssb_toggled_same { g with ssb := checked } checked
    exact ⟨Keeps.keepsTrans (by simp [Keeps]) k, b, s, x, mn, mx, m⟩

/-- A low cut-off that is effective for the bandwidth control is effective for a marker
bandwidth that covers the control. -/
theorem effective_of_covers (bw mbw x : Int)
    (hc : (0 < bw → 100 * bw ≤ mbw.tdiv 2) ∧ (bw < 0 → mbw.tdiv 2 ≤ 100 * bw))
    (hx : effectiveLowCutoff (bw * 100 * 2) x = x) : effectiveLowCutoff mbw x = x := by
  rw [effectiveLowCutoff_eq] at hx ⊢
  have e : (bw * 100 * 2).tdiv 2 = bw * 100 := Int.mul_tdiv_cancel _ (by norm_num)
  rw [e] at hx
  generalize mbw.tdiv 2 = s at hc ⊢
  obtain ⟨h1, h2⟩ := hc
  split_ifs at hx ⊢ <;> omega

/-- An effective low cut is no larger in magnitude than the bandwidth control. -/
theorem lowCut_le_of_effective (bw lc : Int)
    (hx : effectiveLowCutoff (bw * 100 * 2) (lc * 100) = lc * 100) :
    (0 ≤ bw → 0 ≤ lc ∧ lc ≤ bw) ∧ (bw ≤ 0 → bw ≤ lc ∧ lc ≤ 0) := by
  rw [effectiveLowCutoff_eq] at hx
  have e : (bw * 100 * 2).tdiv 2 = bw * 100 := Int.mul_tdiv_cancel _ (by norm_num)
  rw [e] at hx
  split_ifs at hx <;> constructor <;> intro <;> omega

/-- The last two statements of `deserialize`: with both ranges at `[-h, h]`, a bandwidth
within the range, a low cut effective for it and a marker that covers the bandwidth
control, the two controls end at the values asked for. -/
theorem restore_controls (t : State) (h bw lc : Int)
    (hBmin : t.BW.minimum = -h) (hBmax : t.BW.maximum = h)
    (hLmin : t.lowCut.minimum = -h) (hLmax : t.lowCut.maximum = h)
    (hbw1 : -h ≤ bw) (hbw2 : bw ≤ h)
    (hx : effectiveLowCutoff (bw * 100 * 2) (lc * 100) = lc * 100)
    (hcov : markerCovers t) :
    Base t (lowCut_setValue (BW_setValue t bw) lc)
      ∧ (lowCut_setValue (BW_setValue t bw) lc).BW.value = bw
      ∧ (lowCut_setValue (BW_setValue t bw) lc).lowCut.value = lc := by
  obtain ⟨q, b, -⟩ := BW_setValue_spec t bw
  have hcov1 := BW_setValue_covers t bw (Or.inl hcov)
  generalize BW_setValue t bw = t1 at q b hcov1 ⊢
  have hb1 : t1.BW.value = bw := by
    rw [b]
    show Max.max t.BW.minimum (Min.min t.BW.maximum bw) = bw
    rw [hBmin, hBmax]; omega
  have hmin1 : t1.lowCut.minimum = -h := by rw [q.2.2.2.2.2.1, hLmin]
  have hmax1 : t1.lowCut.maximum = h := by rw [q.2.2.2.2.2.2, hLmax]
  obtain ⟨l1, l2⟩ := lowCut_le_of_effective bw lc hx
  have hbound : t1.lowCut.bound lc = lc := by
    simp only [Slider.bound, hmin1, hmax1]; omega
  have hs := lowCut_setValue_same t1 lc
  refine ⟨q.quietBase.baseTrans hs.steady.steadyBase, by rw [hs.1.2.1, hb1], ?_⟩
  unfold lowCut_setValue
  simp only [hbound]
  split_ifs with hv
  · exact hv.symm
  · rw [on_lowCut_valueChanged_value]
    have heff : getEffectiveLowCutoff (storeLowCut t1 lc) (lc * 100) = lc * 100 := by
      unfold getEffectiveLowCutoff
      apply effective_of_covers bw
      · unfold markerCovers at hcov1
        rw [hb1] at hcov1
        exact hcov1
      · exact hx
    have hb2 : (storeLowCut t1 lc).lowCut.bound ((lc * 100).tdiv 100) = lc := by
      rw [Int.mul_tdiv_cancel _ (by norm_num)]
      exact hbound
    rw [heff, hb2]
    simp [storeLowCut]

theorem Steady.good {g g' : State} (h : Steady g g') (hg : Good g) : Good g' := by
  refine ⟨?_, h.covers hg.2⟩
  rw [h.2.1]
  exact hg.1

theorem BW_setValue_good (g : State) (v : Int) (hg : Good g) : Good (BW_setValue g v) := by
  refine ⟨?_, BW_setValue_covers g v (Or.inl hg.2)⟩
  obtain ⟨-, b, -⟩ := BW_setValue_spec g v
  have hwf := hg.1
  unfold Slider.wf at *
  rw [b]
  simp only [Slider.bound]
  omega

theorem setNewRate_good (g : State) (k : Int) (hk0 : 0 ≤ k) (hk6 : k ≤ 6)
    (hsr : 0 ≤ g.analyzerSampleRate) (hg : Good g) : Good (setNewRate g k).2 := by
  obtain ⟨-, -, -, -, -, -, b, -, -, c⟩ := setNewRate_spec g k hk0 hk6 hsr hg.1
  refine ⟨?_, c hg.2⟩
  have hpow : (0 : Int) ≤ 2 ^ k.toNat := by positivity
  have hr0 : 0 ≤ g.analyzerSampleRate / 2 ^ k.toNat := Int.ediv_nonneg hsr hpow
  unfold Slider.wf
  rw [b]
  simp only
  split_ifs <;> omega

/-- `ui->spanLog2->setValue(k)` for a span `k` within 0..6 that the control admits. -/
theorem spanLog2_setValue_good (g : State) (k : Int) (hk0 : 0 ≤ k) (hk6 : k ≤ 6)
    (hmin : g.spanLog2.minimum ≤ k) (hmax : k ≤ g.spanLog2.maximum)
    (hsr : 0 ≤ g.analyzerSampleRate) (hg : Good g) :
    Keeps g (spanLog2_setValue g k) ∧ (spanLog2_setValue g k).spanLog2.value = k
      ∧ Good (spanLog2_setValue g k) := by
  obtain ⟨a, b, -⟩ := spanLog2_setValue_spec g k
  have hbound : g.spanLog2.bound k = k := by simp only [Slider.bound]; omega
  refine ⟨a, by rw [b, hbound], ?_⟩
  unfold spanLog2_setValue
  simp only [hbound]
  split_ifs with hv
  · exact hg
  · unfold on_spanLog2_valueChanged
    simp only
    have hg' : Good (storeSpanLog2 g k) := hg
    have hgood := setNewRate_good (storeSpanLog2 g k) k hk0 hk6 hsr hg'
    split_ifs
    · exact (applySettings_same _).1.steady.good hgood
    · exact hgood

theorem serialize_reads (s : State) :
    (serialize s).valid = true ∧ (serialize s).version = 1
      ∧ (serialize s).readS32 1 0 = s.m_channelMarker.m_centerFrequency
      ∧ (serialize s).readS32 2 30 = s.BW.value
      ∧ (serialize s).readBlob 3 = s.spectrumGUI
      ∧ (serialize s).readU32 4 = some s.m_channelMarker.m_color
      ∧ (serialize s).readS32 5 3 = s.lowCut.value
      ∧ (serialize s).readS32 6 20 = s.spanLog2.value
      ∧ (serialize s).readBool 7 false = s.ssb
      ∧ (serialize s).readBlob 8 = s.scopeGUI :=
  ⟨rfl, rfl, rfl, rfl, rfl, rfl, rfl, rfl, rfl, rfl⟩

theorem Tracked.step {p s g g' : State} (ht : Tracked p s g) (hk : Keeps g g')
    (hg : Good g') : Tracked p s g' := by
  obtain ⟨t1, t2, t3, -⟩ := ht
  obtain ⟨k1, k2, k3, -⟩ := hk
  exact ⟨k3.trans t1, k1.trans t2, k2.trans t3, hg⟩

/-- `deserialize` on a blob that `serialize` wrote, statement by statement. -/
theorem deserialize_serialize_eq (s p : State) :
    deserialize p (serialize s)
      = (true,
          lowCut_setValue
            (BW_setValue
              (markerBlockSignals
                (blockApplySettings
                  (scopeGUI_deserialize
                    (ssb_setChecked
                      (setNewRate
                        (spanLog2_setValue
                          (lowCut_setValue
                            (setColor
                              (spectrumGUI_deserialize
                                (BW_setValue
                                  (setCenterFrequency
                                    (markerBlockSignals (blockApplySettings p true) true)
                                    s.m_channelMarker.m_centerFrequency)
                                  s.BW.value)
                                s.spectrumGUI)
                              s.m_channelMarker.m_color)
                            s.lowCut.value)
                          s.spanLog2.value)
                        s.spanLog2.value).2
                      s.ssb)
                    s.scopeGUI)
                  false)
                false)
              s.BW.value)
            s.lowCut.value) := by
  obtain ⟨r1, r2, r3, r4, r5, r6, r7, r8, r9, r10⟩ := serialize_reads s
  unfold deserialize
  rw [r1, r2, r3, r4, r5, r6, r7, r8, r9, r10]
  rfl

/-- The state `deserialize` has reached before its last two statements, when it restores a
consistent `s` into `p`. -/
theorem restore_head (s p : State) (hs : Consistent s) (hp : Restorable p s) :
    let t := markerBlockSignals
      (blockApplySettings
        (scopeGUI_deserialize
          (ssb_setChecked
            (setNewRate
              (spanLog2_setValue
                (lowCut_setValue
                  (setColor
                    (spectrumGUI_deserialize
                      (BW_setValue
                        (setCenterFrequency
                          (markerBlockSignals (blockApplySettings p true) true)
                          s.m_channelMarker.m_centerFrequency)
                        s.BW.value)
                      s.spectrumGUI)
                    s.m_channelMarker.m_color)
                  s.lowCut.value)
                s.spanLog2.value)
              s.spanLog2.value).2
            s.ssb)
          s.scopeGUI)
        false)
      false
    t.m_channelMarker.m_centerFrequency = s.m_channelMarker.m_centerFrequency
      ∧ t.m_channelMarker.m_color = s.m_channelMarker.m_color
      ∧ t.spectrumGUI = s.spectrumGUI ∧ t.scopeGUI = s.scopeGUI
      ∧ t.spanLog2.value = s.spanLog2.value ∧ t.ssb = s.ssb
      ∧ t.BW.minimum = -(s.analyzerSampleRate / 2 ^ s.spanLog2.value.toNat / 200)
      ∧ t.BW.maximum = s.analyzerSampleRate / 2 ^ s.spanLog2.value.toNat / 200
      ∧ t.lowCut.minimum = -(s.analyzerSampleRate / 2 ^ s.spanLog2.value.toNat / 200)
      ∧ t.lowCut.maximum = s.analyzerSampleRate / 2 ^ s.spanLog2.value.toNat / 200
      ∧ markerCovers t := by
  obtain ⟨hk0, hk6, hsr, -, -, -⟩ := hs
  obtain ⟨psr, pmin, pmax, pwf, pcov⟩ := hp
  -- blockApplySettings(true); m_channelMarker.blockSignals(true)
  have t2 : Tracked p s (markerBlockSignals (blockApplySettings p true) true) :=
    ⟨psr, rfl, rfl, pwf, pcov⟩
  generalize markerBlockSignals (blockApplySettings p true) true = g2 at t2 ⊢
  -- m_channelMarker.setCenterFrequency(tmp)
  obtain ⟨a3, -⟩ := setCenterFrequency_spec g2 s.m_channelMarker.m_centerFrequency
  have t3 : Tracked p s (setCenterFrequency g2 s.m_channelMarker.m_centerFrequency) :=
    Tracked.step (g := { g2 with m_channelMarker :=
        { g2.m_channelMarker with m_centerFrequency := s.m_channelMarker.m_centerFrequency } })
      ⟨t2.1, t2.2.1, t2.2.2.1, t2.2.2.2⟩ a3.1.1 (a3.steady.good t2.2.2.2)
  have c3 : (setCenterFrequency g2 s.m_channelMarker.m_centerFrequency
      ).m_channelMarker.m_centerFrequency = s.m_channelMarker.m_centerFrequency :=
    a3.1.1.2.2.2.2.2.1
  generalize setCenterFrequency g2 s.m_channelMarker.m_centerFrequency = g3 at t3 c3 ⊢
  -- ui->BW->setValue(bw)
  obtain ⟨q4, -, -⟩ := BW_setValue_spec g3 s.BW.value
  have t4 := t3.step q4.1 (BW_setValue_good g3 s.BW.value t3.2.2.2)
  have c4 : (BW_setValue g3 s.BW.value).m_channelMarker.m_centerFrequency
      = s.m_channelMarker.m_centerFrequency := q4.1.2.2.2.2.2.1.trans c3
  generalize BW_setValue g3 s.BW.value = g4 at t4 c4 ⊢
  -- ui->spectrumGUI->deserialize(bytetmp)
  have t5 : Tracked p s (spectrumGUI_deserialize g4 s.spectrumGUI) := t4
  have c5 : (spectrumGUI_deserialize g4 s.spectrumGUI).m_channelMarker.m_centerFrequency
      = s.m_channelMarker.m_centerFrequency := c4
  have s5 : (spectrumGUI_deserialize g4 s.spectrumGUI).spectrumGUI = s.spectrumGUI := rfl
  generalize spectrumGUI_deserialize g4 s.spectrumGUI = g5 at t5 c5 s5 ⊢
  -- m_channelMarker.setColor(u32tmp)
  obtain ⟨a6, -⟩ := setColor_spec g5 s.m_channelMarker.m_color
  have t6 : Tracked p s (setColor g5 s.m_channelMarker.m_color) :=
    Tracked.step (g := { g5 with m_channelMarker :=
        { g5.m_channelMarker with m_color := s.m_channelMarker.m_color } })
      ⟨t5.1, t5.2.1, t5.2.2.1, t5.2.2.2⟩ a6.1.1 (a6.steady.good t5.2.2.2)
  have c6 : (setColor g5 s.m_channelMarker.m_color).m_channelMarker.m_centerFrequency
      = s.m_channelMarker.m_centerFrequency := a6.1.1.2.2.2.2.2.1.trans c5
  have s6 : (setColor g5 s.m_channelMarker.m_color).spectrumGUI = s.spectrumGUI :=
    a6.1.1.2.2.2.1.trans s5
  have k6 : (setColor g5 s.m_channelMarker.m_color).m_channelMarker.m_color
      = s.m_channelMarker.m_color := a6.1.1.2.2.2.2.2.2.1
  generalize setColor g5 s.m_channelMarker.m_color = g6 at t6 c6 s6 k6 ⊢
  -- ui->lowCut->setValue(lowCut)
  have a7 := lowCut_setValue_same g6 s.lowCut.value
  have t7 := t6.step a7.1.1 (a7.steady.good t6.2.2.2)
  have c7 := a7.1.1.2.2.2.2.2.1.trans c6
  have s7 := a7.1.1.2.2.2.1.trans s6
  have k7 := a7.1.1.2.2.2.2.2.2.1.trans k6
  generalize lowCut_setValue g6 s.lowCut.value = g7 at t7 c7 s7 k7 ⊢
  -- ui->spanLog2->setValue(tmp)
  obtain ⟨a8, v8, g8good⟩ := spanLog2_setValue_good g7 s.spanLog2.value hk0 hk6
    (by rw [t7.2.1]; exact pmin) (by rw [t7.2.2.1]; exact pmax) (by rw [t7.1]; exact hsr)
    t7.2.2.2
  have t8 := t7.step a8 g8good
  have c8 := a8.2.2.2.2.2.1.trans c7
  have s8 := a8.2.2.2.1.trans s7
  have k8 := a8.2.2.2.2.2.2.1.trans k7
  generalize spanLog2_setValue g7 s.spanLog2.value = g8 at t8 c8 s8 k8 v8 ⊢
  -- setNewRate(tmp)
  obtain ⟨-, a9, sp9, -, -, -, b9, mn9, mx9, cov9⟩ := setNewRate_spec g8 s.spanLog2.value
    hk0 hk6 (by rw [t8.1]; exact hsr) t8.2.2.2.1
  rw [t8.1] at b9 mn9 mx9
  have c9 := a9.2.2.2.2.2.1.trans c8
  have s9 := a9.2.2.2.1.trans s8
  have k9 := a9.2.2.2.2.2.2.1.trans k8
  have v9 : (setNewRate g8 s.spanLog2.value).2.spanLog2.value = s.spanLog2.value := by
    rw [sp9, v8]
  have cv9 := cov9 t8.2.2.2.2
  generalize (setNewRate g8 s.spanLog2.value).2 = g9 at c9 s9 k9 v9 b9 mn9 mx9 cv9 ⊢
  -- ui->ssb->setChecked(tmpBool)
  obtain ⟨a10, b10, sp10, x10, mn10, mx10, m10⟩ := ssb_setChecked_spec g9 s.ssb
  have c10 := a10.2.2.2.2.2.1.trans c9
  have s10 := a10.2.2.2.1.trans s9
  have k10 := a10.2.2.2.2.2.2.1.trans k9
  have cv10 : markerCovers (ssb_setChecked g9 s.ssb) := by
    unfold markerCovers at *
    rw [b10, m10]
    exact cv9
  generalize ssb_setChecked g9 s.ssb = g10 at c10 s10 k10 b10 sp10 x10 mn10 mx10 cv10 ⊢
  -- ui->scopeGUI->deserialize(bytetmp); blockApplySettings(false); blockSignals(false)
  intro t
  refine ⟨c10, k10, s10, rfl, ?_, x10, ?_, ?_, ?_, ?_, cv10⟩
  · show g10.spanLog2.value = s.spanLog2.value
    rw [sp10, v9]
  · show g10.BW.minimum = _
    rw [b10, b9]
  · show g10.BW.maximum = _
    rw [b10, b9]
  · show g10.lowCut.minimum = _
    rw [mn10, mn9]
  · show g10.lowCut.maximum = _
    rw [mx10, mx9]

end ChannelAnalyzerGUI

namespace ChannelAnalyzerGUI

/-- For a consistent state `s` and an analyzer `p` on the same channel into which it is
restored, `deserialize(serialize(s))` returns true and leaves the analyzer with the eight
persisted values of `s`. -/
theorem deserialize_serialize_persisted (s p : State) (hs : Consistent s)
    (hp : Restorable p s) :
    (deserialize p (serialize s)).1 = true
      ∧ persisted (deserialize p (serialize s)).2 = persisted s := by
  have hhead := ChannelAnalyzerGUI.restore_head s p hs hp
  rw [ChannelAnalyzerGUI.deserialize_serialize_eq]
  simp only at hhead
  obtain ⟨c, k, sp, sc, v, x, bmn, bmx, lmn, lmx, cov⟩ := hhead
  obtain ⟨hk0, hk6, hsr, hb1, hb2, hx⟩ := hs
  have hpow : (0 : Int) ≤ 2 ^ s.spanLog2.value.toNat := by positivity
  have hrate : s.analyzerSampleRate.tdiv (2 ^ s.spanLog2.value.toNat)
      = s.analyzerSampleRate / 2 ^ s.spanLog2.value.toNat := Int.tdiv_eq_ediv hsr hpow
  have hr0 : 0 ≤ s.analyzerSampleRate / 2 ^ s.spanLog2.value.toNat :=
    Int.ediv_nonneg hsr hpow
  obtain ⟨hlo, hhi⟩ := ChannelAnalyzerGUI.tdiv_200_of_nonneg hr0
  rw [hrate, hlo] at hb1
  rw [hrate, hhi] at hb2
  obtain ⟨⟨kp, spn, ssb, -, -⟩, bw, lc⟩ := ChannelAnalyzerGUI.restore_controls _ _ s.BW.value
    s.lowCut.value bmn bmx lmn lmx hb1 hb2 hx cov
  refine ⟨rfl, ?_⟩
  unfold ChannelAnalyzerGUI.persisted
  rw [bw, lc, kp.2.2.2.2.2.1, kp.2.2.2.2.2.2.1, kp.2.2.2.1, kp.2.2.2.2.1, spn, ssb, c, k, sp, sc,
    v, x]

end ChannelAnalyzerGUI

/-- C5: the analyzer `clamped`, reached from `wide48k` by moving the span control to 3 and
the low-cut control to 30, holds bandwidth 30, low cut 30 and a marker bandwidth of 12000;
`deserialize(serialize(clamped))` into `example48k` or into `wide48k` returns true and
restores the bandwidth 30 but leaves the low cut at 29. For every consistent state restored
into an analyzer on the same channel the eight persisted values are restored. -/
theorem c5_reload_loses_low_cut_after_clamp :
    ChannelAnalyzerGUI.clamped.BW.value = 30 ∧ ChannelAnalyzerGUI.clamped.lowCut.value = 30
      ∧ ChannelAnalyzerGUI.clamped.spanLog2.value = 3
      ∧ ChannelAnalyzerGUI.clamped.m_channelMarker.m_bandwidth = 12000
      ∧ (ChannelAnalyzerGUI.deserialize ChannelAnalyzerGUI.example48k
          (ChannelAnalyzerGUI.serialize ChannelAnalyzerGUI.clamped)).1 = true
      ∧ (ChannelAnalyzerGUI.deserialize ChannelAnalyzerGUI.example48k
          (ChannelAnalyzerGUI.serialize ChannelAnalyzerGUI.clamped)).2.BW.value = 30
      ∧ (ChannelAnalyzerGUI.deserialize ChannelAnalyzerGUI.example48k
          (ChannelAnalyzerGUI.serialize ChannelAnalyzerGUI.clamped)).2.lowCut.value = 29
      ∧ (ChannelAnalyzerGUI.deserialize ChannelAnalyzerGUI.wide48k
          (ChannelAnalyzerGUI.serialize ChannelAnalyzerGUI.clamped)).2.lowCut.value = 29
      ∧ ∀ s p : ChannelAnalyzerGUI.State,
          ¬ ChannelAnalyzerGUI.Consistent s ∨ ¬ ChannelAnalyzerGUI.Restorable p s
            ∨ ((ChannelAnalyzerGUI.deserialize p (ChannelAnalyzerGUI.serialize s)).1 = true
                ∧ ChannelAnalyzerGUI.persisted
                    (ChannelAnalyzerGUI.deserialize p (ChannelAnalyzerGUI.serialize s)).2
                  = ChannelAnalyzerGUI.persisted s) := by
  refine ⟨by decide, by decide, by decide, by decide, by decide, by decide, by decide, by decide,
    ?_⟩
  intro s p
  by_cases hs : ChannelAnalyzerGUI.Consistent s
  swap
  · exact Or.inl hs
  by_cases hp : ChannelAnalyzerGUI.Restorable p s
  swap
  · exact Or.inr (Or.inl hp)
  exact Or.inr (Or.inr (ChannelAnalyzerGUI.deserialize_serialize_persisted s p hs hp))

namespace UDPSink

/-- The outlier test `(raw > -0.05) || (raw < 0.05)` holds for every `raw`. -/
theorem outlier_test_always (r : ℚ) : -(1 / 20) < r ∨ r < 1 / 20 := by
  rcases lt_or_le r (1 / 20) with h | h
  · exact Or.inr h
  · exact Or.inl (lt_of_lt_of_le (by norm_num) h)

/-- The fields of the state after a correction message that passes the 20 % window. -/
theorem handleSampleRateCorrection_accept (s : State) (cfg : MsgSampleRateCorrection)
    (h1 : s.m_actualInputSampleRate + cfg.m_correctionFactor * s.m_actualInputSampleRate
      < s.m_running.m_inputSampleRate * (6 / 5))
    (h2 : s.m_running.m_inputSampleRate * (4 / 5)
      < s.m_actualInputSampleRate + cfg.m_correctionFactor * s.m_actualInputSampleRate)
    (hc : s.m_sampleRateAvgCounter < s.m_sampleRateAverageItems) :
    (handleSampleRateCorrection s cfg).2.m_running = s.m_running
      ∧ (handleSampleRateCorrection s cfg).2.m_sampleRateAverageItems = s.m_sampleRateAverageItems
      ∧ (s.m_sampleRateAvgCounter + 1 ≠ s.m_sampleRateAverageItems →
          (handleSampleRateCorrection s cfg).2.m_actualInputSampleRate
              = s.m_actualInputSampleRate + cfg.m_correctionFactor * s.m_actualInputSampleRate
            ∧ (handleSampleRateCorrection s cfg).2.m_sampleRateSum
              = s.m_sampleRateSum + (s.m_actualInputSampleRate
                  + cfg.m_correctionFactor * s.m_actualInputSampleRate)
            ∧ (handleSampleRateCorrection s cfg).2.m_sampleRateAvgCounter
              = s.m_sampleRateAvgCounter + 1)
      ∧ (s.m_sampleRateAvgCounter + 1 = s.m_sampleRateAverageItems →
          (handleSampleRateCorrection s cfg).2.m_actualInputSampleRate
              = (s.m_sampleRateSum + (s.m_actualInputSampleRate
                  + cfg.m_correctionFactor * s.m_actualInputSampleRate))
                / (s.m_sampleRateAverageItems : ℚ)
            ∧ (handleSampleRateCorrection s cfg).2.m_sampleRateSum = 0
            ∧ (handleSampleRateCorrection s cfg).2.m_sampleRateAvgCounter = 0) := by
  unfold handleSampleRateCorrection
  simp only [h1, h2, and_self, if_true, outlier_test_always, hc]
  refine ⟨?_, ?_, ?_, ?_⟩
  · split_ifs <;> rfl
  · split_ifs <;> rfl
  · intro hne
    simp [hne]
  · intro he
    simp [he]

theorem handleSampleRateCorrections_cons (s : State) (cfg : MsgSampleRateCorrection)
    (msgs : List MsgSampleRateCorrection) :
    handleSampleRateCorrections s (cfg :: msgs)
      = handleSampleRateCorrections (handleSampleRateCorrection s cfg).2 msgs := rfl

theorem handleSampleRateCorrections_concat (s : State) (cfg : MsgSampleRateCorrection)
    (msgs : List MsgSampleRateCorrection) :
    handleSampleRateCorrections s (msgs ++ [cfg])
      = (handleSampleRateCorrection (handleSampleRateCorrections s msgs) cfg).2 := by
  unfold handleSampleRateCorrections
  rw [List.foldl_append]
  rfl

/-- Corrections of +0.001 that neither leave the window nor fill the averager: the rate
is multiplied by 1.001 each time and the sum collects the rates. -/
theorem corrections_partial (msgs : List MsgSampleRateCorrection) :
    ∀ s : State, (∀ m ∈ msgs, m.m_correctionFactor = 1 / 1000) →
      0 < s.m_running.m_inputSampleRate →
      s.m_running.m_inputSampleRate ≤ s.m_actualInputSampleRate →
      s.m_actualInputSampleRate * (1001 / 1000) ^ msgs.length
        < s.m_running.m_inputSampleRate * (6 / 5) →
      s.m_sampleRateAvgCounter + msgs.length < s.m_sampleRateAverageItems →
      (handleSampleRateCorrections s msgs).m_actualInputSampleRate
          = s.m_actualInputSampleRate * (1001 / 1000) ^ msgs.length
        ∧ (handleSampleRateCorrections s msgs).m_sampleRateSum
          = s.m_sampleRateSum
            + 1001 * s.m_actualInputSampleRate * ((1001 / 1000) ^ msgs.length - 1)
        ∧ (handleSampleRateCorrections s msgs).m_sampleRateAvgCounter
          = s.m_sampleRateAvgCounter + msgs.length
        ∧ (handleSampleRateCorrections s msgs).m_sampleRateAverageItems
          = s.m_sampleRateAverageItems
        ∧ (handleSampleRateCorrections s msgs).m_running = s.m_running := by
  induction msgs with
  | nil =>
    intro s _ _ _ _ _
    simp [handleSampleRateCorrections]
  | cons cfg msgs ih =>
    intro s hf hn ha hw hc
    have hcf : cfg.m_correctionFactor = 1 / 1000 := hf cfg (List.mem_cons_self _ _)
    have hlen : (cfg :: msgs).length = msgs.length + 1 := rfl
    rw [hlen] at hw hc ⊢
    push_cast at hc
    have hapos : 0 < s.m_actualInputSampleRate := lt_of_lt_of_le hn ha
    have hpow : (1 : ℚ) ≤ (1001 / 1000) ^ msgs.length := one_le_pow₀ (by norm_num)
    have hnew : s.m_actualInputSampleRate + cfg.m_correctionFactor * s.m_actualInputSampleRate
        = s.m_actualInputSampleRate * (1001 / 1000) := by rw [hcf]; ring
    have hw1 : s.m_actualInputSampleRate * (1001 / 1000)
        < s.m_running.m_inputSampleRate * (6 / 5) := by
      refine lt_of_le_of_lt ?_ hw
      rw [pow_succ]
      nlinarith
    have hw2 : s.m_running.m_inputSampleRate * (4 / 5)
        < s.m_actualInputSampleRate * (1001 / 1000) := by nlinarith
    obtain ⟨e1, e2, e3, -⟩ := handleSampleRateCorrection_accept s cfg (by rw [hnew]; exact hw1)
      (by rw [hnew]; exact hw2) (by omega)
    obtain ⟨e4, e5, e6⟩ := e3 (by omega)
    rw [hnew] at e4 e5
    rw [handleSampleRateCorrections_cons]
    obtain ⟨i1, i2, i3, i4, i5⟩ := ih (handleSampleRateCorrection s cfg).2
      (fun m hm => hf m (List.mem_cons_of_mem _ hm))
      (by rw [e1]; exact hn) (by rw [e1, e4]; nlinarith)
      (by rw [e1, e4]; rw [pow_succ] at hw; linarith [hw, mul_comm ((1001 / 1000 : ℚ) ^ msgs.length) (1001 / 1000)])
      (by rw [e2, e6]; omega)
    refine ⟨?_, ?_, ?_, ?_, ?_⟩
    · rw [i1, e4]; ring
    · rw [i2, e4, e5]; ring
    · rw [i3, e6]; push_cast; ring
    · rw [i4, e2]
    · rw [i5, e1]

end UDPSink

/-- C11: a `MsgSampleRateCorrection` whose candidate rate `actual + factor * actual` is not
strictly between 0.8 and 1.2 times the running nominal input sample rate makes
`UDPSink::handleMessage` return true and leaves every member unchanged, among them the
actual input sample rate, the averaging sum, the averaging counter and the interpolator
distance. -/
theorem c11_out_of_window_correction_ignored (s : UDPSink.State)
    (cfg : UDPSink.MsgSampleRateCorrection)
    (h : ¬ (s.m_running.m_inputSampleRate * (4 / 5)
          < s.m_actualInputSampleRate + cfg.m_correctionFactor * s.m_actualInputSampleRate
        ∧ s.m_actualInputSampleRate + cfg.m_correctionFactor * s.m_actualInputSampleRate
          < s.m_running.m_inputSampleRate * (6 / 5))) :
    (UDPSink.handleSampleRateCorrection s cfg).1 = true
      ∧ (UDPSink.handleSampleRateCorrection s cfg).2.m_actualInputSampleRate
          = s.m_actualInputSampleRate
      ∧ (UDPSink.handleSampleRateCorrection s cfg).2.m_sampleRateSum = s.m_sampleRateSum
      ∧ (UDPSink.handleSampleRateCorrection s cfg).2.m_sampleRateAvgCounter
          = s.m_sampleRateAvgCounter
      ∧ (UDPSink.handleSampleRateCorrection s cfg).2.m_interpolatorDistance
          = s.m_interpolatorDistance
      ∧ (UDPSink.handleSampleRateCorrection s cfg).2 = s := by
  have h2 : ¬ (s.m_actualInputSampleRate + cfg.m_correctionFactor * s.m_actualInputSampleRate
          < s.m_running.m_inputSampleRate * (6 / 5)
        ∧ s.m_running.m_inputSampleRate * (4 / 5)
          < s.m_actualInputSampleRate + cfg.m_correctionFactor * s.m_actualInputSampleRate) :=
    fun hh => h ⟨hh.2, hh.1⟩
  unfold UDPSink.handleSampleRateCorrection
  simp [h2]

/-- C11 (witness): a correction factor of +0.5 met by `settled` (nominal and actual rate
48000) gives the candidate 72000, above 57600; the message changes nothing. -/
theorem c11_out_of_window_correction_ignored_witness :
    ¬ (UDPSink.settled.m_running.m_inputSampleRate * (4 / 5)
          < UDPSink.settled.m_actualInputSampleRate
              + (⟨1 / 2, 0⟩ : UDPSink.MsgSampleRateCorrection).m_correctionFactor
                * UDPSink.settled.m_actualInputSampleRate
        ∧ UDPSink.settled.m_actualInputSampleRate
              + (⟨1 / 2, 0⟩ : UDPSink.MsgSampleRateCorrection).m_correctionFactor
                * UDPSink.settled.m_actualInputSampleRate
          < UDPSink.settled.m_running.m_inputSampleRate * (6 / 5))
      ∧ (UDPSink.handleSampleRateCorrection UDPSink.settled ⟨1 / 2, 0⟩).1 = true
      ∧ (UDPSink.handleSampleRateCorrection UDPSink.settled ⟨1 / 2, 0⟩).2 = UDPSink.settled :=
  have h := c11_out_of_window_correction_ignored UDPSink.settled ⟨1 / 2, 0⟩ (by decide!)
  ⟨by decide!, h.1, h.2.2.2.2.2⟩

/-- C12: at the outlier message (correction factor and raw delta ratio +0.1) met by the
modulator `settled` (actual rate 48000, empty averager), `UDPSink::handleMessage` does not
reset the averager and does shift the rate: the actual rate becomes 52800, the sum 52800
and the counter 1. For every state and message the result is the one for a raw delta ratio
of 0: the branch that resets the averager is never taken. -/
theorem c12_outlier_is_averaged_and_shifts_rate :
    (UDPSink.handleSampleRateCorrection UDPSink.settled UDPSink.outlier).2.m_actualInputSampleRate
        = 52800
      ∧ (UDPSink.handleSampleRateCorrection UDPSink.settled UDPSink.outlier).2.m_sampleRateSum
        = 52800
      ∧ (UDPSink.handleSampleRateCorrection UDPSink.settled UDPSink.outlier).2.m_sampleRateAvgCounter
        = 1
      ∧ ∀ (s : UDPSink.State) (factor raw : ℚ),
          UDPSink.handleSampleRateCorrection s ⟨factor, raw⟩
            = UDPSink.handleSampleRateCorrection s ⟨factor, 0⟩ := by
  refine ⟨by decide!, by decide!, by decide!, ?_⟩
  intro s factor raw
  unfold UDPSink.handleSampleRateCorrection
  simp only [UDPSink.outlier_test_always, if_true]

/-- C13, a counterexample: with an averaging length of 3 and nominal rate 48000, three
corrections of +0.001 leave the actual rate at 48096.064016, above
`48000 * 1.001 * 1.001 = 48096.048`; with an averaging length of 17 the rate after 17
corrections exceeds `48000 * 1.009`. -/
theorem c13_average_of_compounded_rates_exceeds_bound :
    (UDPSink.handleSampleRateCorrections (UDPSink.averaging 3)
        (List.replicate 3 UDPSink.sustained)).m_actualInputSampleRate = 48096064016 / 1000000
      ∧ ¬ ((UDPSink.handleSampleRateCorrections (UDPSink.averaging 3)
            (List.replicate 3 UDPSink.sustained)).m_actualInputSampleRate
          ≤ 48000 * (1001 / 1000) * (1001 / 1000))
      ∧ 48000 * (1009 / 1000)
          < (UDPSink.handleSampleRateCorrections (UDPSink.averaging 17)
              (List.replicate 17 UDPSink.sustained)).m_actualInputSampleRate := by
  refine ⟨by decide!, by decide!, by decide!⟩

/-- C13, amended: for every nominal input rate > 0 and every averaging length `N >= 1`
with `1.001 ^ N < 1.2`, starting from an actual rate equal to the nominal one and an empty
averager, after `N` consecutive corrections of +0.001 the actual rate is the mean of
`nominal * 1.001 ^ j` for `j = 1 .. N`, that is `nominal * 1001 * (1.001 ^ N - 1) / N`, and
the averager is empty again. -/
theorem c13_sustained_correction_average (s : UDPSink.State)
    (msgs : List UDPSink.MsgSampleRateCorrection)
    (hn : 0 < s.m_running.m_inputSampleRate) (h1 : 1 ≤ msgs.length)
    (hitems : s.m_sampleRateAverageItems = msgs.length)
    (hstart : s.m_actualInputSampleRate = s.m_running.m_inputSampleRate)
    (hsum : s.m_sampleRateSum = 0) (hc : s.m_sampleRateAvgCounter = 0)
    (hf : ∀ m ∈ msgs, m.m_correctionFactor = 1 / 1000)
    (hwin : (1001 / 1000 : ℚ) ^ msgs.length < 6 / 5) :
    (UDPSink.handleSampleRateCorrections s msgs).m_actualInputSampleRate
        = s.m_running.m_inputSampleRate * 1001 * ((1001 / 1000) ^ msgs.length - 1)
          / (msgs.length : ℚ)
      ∧ (UDPSink.handleSampleRateCorrections s msgs).m_sampleRateSum = 0
      ∧ (UDPSink.handleSampleRateCorrections s msgs).m_sampleRateAvgCounter = 0 := by
  rcases List.eq_nil_or_concat msgs with h | ⟨init, cfg, h⟩
  · subst h
    simp at h1
  · subst h
    simp only [List.concat_eq_append] at *
    have hlen : (init ++ [cfg]).length = init.length + 1 := by simp
    rw [hlen] at hwin hitems h1 ⊢
    push_cast at hitems
    have hpow : (1 : ℚ) ≤ (1001 / 1000) ^ init.length := one_le_pow₀ (by norm_num)
    have hsucc : (1001 / 1000 : ℚ) ^ (init.length + 1)
        = (1001 / 1000) ^ init.length * (1001 / 1000) := pow_succ _ _
    obtain ⟨p1, p2, p3, p4, p5⟩ := UDPSink.corrections_partial init s
      (fun m hm => hf m (List.mem_append_left _ hm)) hn (le_of_eq hstart.symm)
      (by rw [hstart]; nlinarith) (by rw [hc, hitems]; omega)
    have hcf : cfg.m_correctionFactor = 1 / 1000 := hf cfg (by simp)
    rw [UDPSink.handleSampleRateCorrections_concat]
    generalize UDPSink.handleSampleRateCorrections s init = t at p1 p2 p3 p4 p5
    have hnew : t.m_actualInputSampleRate + cfg.m_correctionFactor * t.m_actualInputSampleRate
        = s.m_running.m_inputSampleRate * (1001 / 1000) ^ (init.length + 1) := by
      rw [hcf, p1, hstart, hsucc]; ring
    obtain ⟨-, -, -, e⟩ := UDPSink.handleSampleRateCorrection_accept t cfg
      (by rw [hnew, p5]; nlinarith) (by rw [hnew, p5, hsucc]; nlinarith)
      (by rw [p3, p4, hc, hitems]; omega)
    obtain ⟨e1, e2, e3⟩ := e (by rw [p3, p4, hc, hitems]; omega)
    refine ⟨?_, e2, e3⟩
    rw [e1, hnew, p2, p4, hsum, hstart, hitems, hsucc]
    push_cast
    congr 1
    ring

/-- C13 (witness): averaging length 2 at nominal rate 48000; two corrections of +0.001
leave the mean of 48048 and 48096.048. -/
theorem c13_sustained_correction_average_witness :
    (UDPSink.handleSampleRateCorrections (UDPSink.averaging 2)
        [UDPSink.sustained, UDPSink.sustained]).m_actualInputSampleRate
        = 48000 * 1001 * ((1001 / 1000) ^ 2 - 1) / 2
      ∧ (UDPSink.handleSampleRateCorrections (UDPSink.averaging 2)
          [UDPSink.sustained, UDPSink.sustained]).m_sampleRateSum = 0
      ∧ (UDPSink.handleSampleRateCorrections (UDPSink.averaging 2)
          [UDPSink.sustained, UDPSink.sustained]).m_sampleRateAvgCounter = 0 :=
  c13_sustained_correction_average (UDPSink.averaging 2) [UDPSink.sustained, UDPSink.sustained]
    (by decide!) (by decide) (by decide) (by decide!) (by decide!) (by decide)
    (by intro m hm; simp at hm; subst hm; rfl) (by norm_num)

/-- C14: with a null spectrum sink pointer `UDPSink::modulateSample` reaches
`m_spectrum->feed(...)` whatever the sample format, the spectrum-enabled flag, the chunk
counter, the chunk size and the buffer are. With a sink installed, every call of `feed`
leaves the sample buffer empty and the chunk counter at 0. -/
theorem c14_null_spectrum_sink_is_fed :
    (∀ (running : UDPSink.Config) (enabled : Bool) (size counter : Int)
        (buffer : List (Int × Int)) (i : UDPSink.ModInputs),
        UDPSink.modulateSample running ⟨false, enabled, size, counter, buffer⟩ i = none)
      ∧ ∀ (running : UDPSink.Config) (m : UDPSink.SpectrumFeed) (i : UDPSink.ModInputs),
          match UDPSink.modulateSample running m i with
          | some (m', calls) =>
            calls = [] ∨ (m'.m_sampleBuffer = [] ∧ m'.m_spectrumChunkCounter = 0)
          | none => True := by
  constructor
  · intro running enabled size counter buffer i
    simp [UDPSink.modulateSample]
  · intro running m i
    unfold UDPSink.modulateSample
    simp only
    split_ifs <;> simp

/-- C15: a forced `UDPSink::apply` leaves the squelch threshold at
`squelch_gate * output_sample_rate` of the applied configuration, for every state; for the
modulator `resampled` (input 48000, output 64000, gate 0.05) that is 3200, not
`0.05 * 48000 = 2400`. -/
theorem c15_forced_apply_uses_output_rate :
    (∀ (hp : UDPSink.Helpers) (s : UDPSink.State),
        (UDPSink.apply hp s true).1.m_squelchThreshold
          = s.m_config.m_outputSampleRate * s.m_config.m_squelchGate)
      ∧ (UDPSink.apply UDPSink.sampleHelpers UDPSink.resampled true).1.m_squelchThreshold = 3200
      ∧ UDPSink.resampled.m_config.m_squelchGate * UDPSink.resampled.m_config.m_inputSampleRate
          = 2400 := by
  refine ⟨?_, by decide!, by decide!⟩
  intro hp s
  simp [UDPSink.apply, UDPSink.applyRates, UDPSink.applySquelchGate, UDPSink.applyAutoRWBalance]
  split_ifs <;> rfl

namespace ATVDemod

/-- The loop of `applySettings` leaves `i` at 0 when no `i` in `1..maxPoints` meets the
test. -/
theorem searchPoints_eq_zero (linesPerSecond : Int) (n : Nat)
    (h : ∀ i : Int, 1 ≤ i → i ≤ n → (i * linesPerSecond).tmod 10 ≠ 0) :
    searchPoints linesPerSecond n = 0 := by
  induction n with
  | zero => rfl
  | succ k ih =>
    unfold searchPoints
    have hk := h ((k + 1 : Nat) : Int) (by push_cast; omega) (le_refl _)
    rw [if_neg hk]
    exact ih fun i h1 h2 => h i h1 (by push_cast; omega)

/-- The value `nbPointsPerRateUnit` takes in `applySettings` when no `i` in
`1..maxPoints` meets the test: `maxPoints`. -/
theorem loopExit_no_hit (linesPerSecond maxPoints : Int)
    (h : ∀ i : Int, 1 ≤ i → i ≤ maxPoints → (i * linesPerSecond).tmod 10 ≠ 0) :
    (if loopExit linesPerSecond maxPoints = 0 then maxPoints
      else loopExit linesPerSecond maxPoints) = maxPoints := by
  unfold loopExit
  by_cases hm : 0 < maxPoints
  · rw [if_pos hm]
    have hz : searchPoints linesPerSecond maxPoints.toNat = 0 :=
      searchPoints_eq_zero linesPerSecond maxPoints.toNat fun i h1 h2 =>
        h i h1 (by rw [Int.toNat_of_nonneg (le_of_lt hm)] at h2; exact h2)
    rw [hz]
    simp
  · rw [if_neg hm]
    split_ifs <;> rfl

/-- The rate block of `applySettings` when no `i` in `1..maxPoints` meets the test. -/
theorem applyRate_no_hit (s : State) (hl : 0 < linesPerSecond s.m_objConfig)
    (h : ∀ i : Int, 1 ≤ i →
        i ≤ s.m_objConfig.m_intSampleRate.tdiv (linesPerSecond s.m_objConfig) →
        (i * linesPerSecond s.m_objConfig).tmod 10 ≠ 0) :
    ∃ r, applyRate s = some r
      ∧ r.1.m_objConfigPrivate.m_intTVSampleRate
          = (if 0 < s.m_objConfig.m_intSampleRate.tdiv (linesPerSecond s.m_objConfig) then
              s.m_objConfig.m_intSampleRate.tdiv (linesPerSecond s.m_objConfig)
                * linesPerSecond s.m_objConfig
            else s.m_objConfig.m_intSampleRate)
      ∧ r.1.m_interpolatorDistance
          = (if 0 < s.m_objConfig.m_intSampleRate.tdiv (linesPerSecond s.m_objConfig) then
              ((s.m_objConfig.m_intSampleRate.tdiv (linesPerSecond s.m_objConfig)
                * linesPerSecond s.m_objConfig : Int) : ℚ)
                / (s.m_objConfig.m_intSampleRate : ℚ)
            else 1) := by
  unfold applyRate
  simp only [ne_of_gt hl, if_false]
  rw [loopExit_no_hit _ _ h]
  refine ⟨_, rfl, ?_⟩
  generalize s.m_objConfig.m_intSampleRate.tdiv (linesPerSecond s.m_objConfig) = maxPoints
  have hiff : 0 < maxPoints * linesPerSecond s.m_objConfig ↔ 0 < maxPoints := by
    constructor
    · intro hp
      by_contra hn
      have : maxPoints * linesPerSecond s.m_objConfig ≤ 0 :=
        mul_nonpos_of_nonpos_of_nonneg (not_lt.mp hn) (le_of_lt hl)
      omega
    · intro hp
      exact mul_pos hp hl
  by_cases hm : 0 < maxPoints
  · simp [hm, hiff.mpr hm]
  · have hn : ¬ 0 < maxPoints * linesPerSecond s.m_objConfig := fun hp => hm (hiff.mp hp)
    simp [hm, hn]

/-- The framing block of `applySettings` leaves the TV sample rate and the interpolator
distance alone. -/
theorem applyFrame_keeps_rate {s t : State} (h : applyFrame s = some t) :
    t.m_objConfigPrivate.m_intTVSampleRate = s.m_objConfigPrivate.m_intTVSampleRate
      ∧ t.m_interpolatorDistance = s.m_interpolatorDistance := by
  unfold applyFrame applyStandard at h
  cases hs : s.m_objRegisteredATVScreen <;> cases hst : s.m_objConfig.m_enmATVStandard <;>
    simp [hs, hst] at h <;> subst h <;> exact ⟨rfl, rfl⟩

/-- The blocks of `applySettings` after the rate block leave the TV sample rate and the
interpolator distance alone. -/
theorem applySettings_rate_of_applyRate {s : State} (h0 : s.m_objConfig.m_intSampleRate ≠ 0)
    (hr : rateChanged s) {r2 r : State × List Call} (h2 : applyRate s = some r2)
    (h : applySettings s = some r) :
    r.1.m_objConfigPrivate.m_intTVSampleRate = r2.1.m_objConfigPrivate.m_intTVSampleRate
      ∧ r.1.m_interpolatorDistance = r2.1.m_interpolatorDistance := by
  unfold applySettings at h
  simp only [h0, if_false, hr, if_true, h2, Option.some_bind] at h
  cases h3 : (if frameChanged r2.1 then applyFrame r2.1 else some r2.1) with
  | none => simp [h3] at h
  | some s3 =>
    simp only [h3, Option.some_bind] at h
    injection h with h
    have hs3 : s3.m_objConfigPrivate.m_intTVSampleRate
          = r2.1.m_objConfigPrivate.m_intTVSampleRate
        ∧ s3.m_interpolatorDistance = r2.1.m_interpolatorDistance := by
      by_cases hf : frameChanged r2.1
      · rw [if_pos hf] at h3
        exact applyFrame_keeps_rate h3
      · rw [if_neg hf] at h3
        injection h3 with h3
        subst h3
        exact ⟨rfl, rfl⟩
    rw [← h, ← hs3.1, ← hs3.2]
    unfold copyRunning applyDSBFilter
    split_ifs <;> exact ⟨rfl, rfl⟩

end ATVDemod

/-- C16: for each of the six TV standards `ATVDemod::applyStandard` sets (sync lines,
black lines, equalization lines, interleaved) to the row of the table: HSkip (0,0,0,no),
Short (4,4,0,no), ShortInterleaved (4,4,0,yes), 405 (24,28,3,yes), PAL525 (40,44,3,yes),
PAL625 (44,48,3,yes). -/
theorem c16_applyStandard_sets_table_row (s : ATVDemod.State) :
    ((ATVDemod.applyStandard s).m_intNumberOfSyncLines,
      (ATVDemod.applyStandard s).m_intNumberOfBlackLines,
      (ATVDemod.applyStandard s).m_intNumberOfEqLines,
      (ATVDemod.applyStandard s).m_interleaved)
      = ATVDemod.framerTable s.m_objConfig.m_enmATVStandard := by
  unfold ATVDemod.applyStandard ATVDemod.framerTable
  cases s.m_objConfig.m_enmATVStandard <;> rfl

/-- C17, a counterexample: for a PAL 625-line configuration at 20 kS/s, `linesPerSecond` is
15625, `maxPoints` is 1 and `(1 * 15625) % 10` is 5, so no `i` meets the test; yet
`applySettings` sets the TV sample rate to 15625, not to the input rate 20000, and the
interpolator distance to 15625/20000 = 25/32, not to 1. -/
theorem c17_no_divisor_keeps_multiple_of_line_rate :
    ATVDemod.linesPerSecond ATVDemod.slowPal.m_objConfig = 15625
      ∧ ATVDemod.slowPal.m_objConfig.m_intSampleRate.tdiv
          (ATVDemod.linesPerSecond ATVDemod.slowPal.m_objConfig) = 1
      ∧ ((1 : Int) * ATVDemod.linesPerSecond ATVDemod.slowPal.m_objConfig).tmod 10 = 5
      ∧ (ATVDemod.applySettings ATVDemod.slowPal).map
          (fun r => (r.1.m_objConfigPrivate.m_intTVSampleRate, r.1.m_interpolatorDistance))
          = some (15625, 25 / 32) := by
  decide!

/-- C17, amended: in `ATVDemod::applySettings`, with a non-zero pending sample rate, the
rate block entered, `linesPerSecond > 0`, `maxPoints = sampleRate / linesPerSecond` and a
screen registered if the framing block is entered: whenever no `i` in `1..maxPoints`
satisfies `(i * linesPerSecond) % 10 == 0`, `applySettings` returns, and the TV sample rate
is `maxPoints * linesPerSecond` with the interpolator distance that rate over the input
rate when `maxPoints > 0`, and the input sample rate with distance 1 otherwise. -/
theorem c17_no_divisor_rate (s : ATVDemod.State)
    (h0 : s.m_objConfig.m_intSampleRate ≠ 0) (hr : ATVDemod.rateChanged s)
    (hl : 0 < ATVDemod.linesPerSecond s.m_objConfig)
    (hscreen : ATVDemod.frameChanged s → s.m_objRegisteredATVScreen ≠ none)
    (hno : ∀ i : Int, 1 ≤ i →
        i ≤ s.m_objConfig.m_intSampleRate.tdiv (ATVDemod.linesPerSecond s.m_objConfig) →
        (i * ATVDemod.linesPerSecond s.m_objConfig).tmod 10 ≠ 0) :
    ∃ r, ATVDemod.applySettings s = some r
      ∧ r.1.m_objConfigPrivate.m_intTVSampleRate
          = (if 0 < s.m_objConfig.m_intSampleRate.tdiv
                (ATVDemod.linesPerSecond s.m_objConfig) then
              s.m_objConfig.m_intSampleRate.tdiv (ATVDemod.linesPerSecond s.m_objConfig)
                * ATVDemod.linesPerSecond s.m_objConfig
            else s.m_objConfig.m_intSampleRate)
      ∧ r.1.m_interpolatorDistance
          = (if 0 < s.m_objConfig.m_intSampleRate.tdiv
                (ATVDemod.linesPerSecond s.m_objConfig) then
              ((s.m_objConfig.m_intSampleRate.tdiv (ATVDemod.linesPerSecond s.m_objConfig)
                * ATVDemod.linesPerSecond s.m_objConfig : Int) : ℚ)
                / (s.m_objConfig.m_intSampleRate : ℚ)
            else 1) := by
  have hsome : (ATVDemod.applySettings s).isSome := by
    rw [ATVDemod.applySettings_isSome s h0]
    unfold ATVDemod.applySettingsUndefined
    rintro (⟨-, hz⟩ | ⟨hf, hn⟩)
    · omega
    · exact hscreen hf hn
  obtain ⟨r, hres⟩ := Option.isSome_iff_exists.mp hsome
  obtain ⟨r2, h2, htv, hdist⟩ := ATVDemod.applyRate_no_hit s hl hno
  obtain ⟨k1, k2⟩ := ATVDemod.applySettings_rate_of_applyRate h0 hr h2 hres
  exact ⟨r, hres, by rw [k1, htv], by rw [k2, hdist]⟩

/-- C17 (witness): the PAL 625-line configuration at 20 kS/s, where `maxPoints` is 1. -/
theorem c17_no_divisor_rate_witness :
    ∃ r, ATVDemod.applySettings ATVDemod.slowPal = some r
      ∧ r.1.m_objConfigPrivate.m_intTVSampleRate = 15625
      ∧ r.1.m_interpolatorDistance = 15625 / 20000 := by
  have hl : ATVDemod.linesPerSecond ATVDemod.slowPal.m_objConfig = 15625 := by decide!
  have hm : ATVDemod.slowPal.m_objConfig.m_intSampleRate.tdiv
      (ATVDemod.linesPerSecond ATVDemod.slowPal.m_objConfig) = 1 := by decide!
  obtain ⟨r, h1, h2, h3⟩ := c17_no_divisor_rate ATVDemod.slowPal (by decide!) (by decide!)
    (by decide!) (by intro _; decide!)
    (by
      intro i h1 h2
      rw [hm] at h2
      have hi : i = 1 := by omega
      subst hi
      decide!)
  rw [hm, hl] at h2 h3
  refine ⟨r, h1, by simpa using h2, ?_⟩
  rw [h3]
  have hsr : ATVDemod.slowPal.m_objConfig.m_intSampleRate = 20000 := rfl
  rw [hsr]
  norm_num

namespace ChannelAnalyzerGUI

/-- `applySettings` leaves the spectrum display, the marker sidebands and the rate alone. -/
theorem applySettings_display (g : State) :
    (applySettings g).glSpectrum = g.glSpectrum
      ∧ (applySettings g).m_channelMarker.m_sidebands = g.m_channelMarker.m_sidebands
      ∧ (applySettings g).m_rate = g.m_rate ∧ (applySettings g).BW = g.BW := by
  unfold applySettings
  split_ifs <;> exact ⟨rfl, rfl, rfl, rfl⟩

theorem markerChanged_display (g : State) :
    (markerChanged g).glSpectrum = g.glSpectrum
      ∧ (markerChanged g).m_channelMarker.m_sidebands = g.m_channelMarker.m_sidebands
      ∧ (markerChanged g).m_rate = g.m_rate ∧ (markerChanged g).BW = g.BW := by
  unfold markerChanged
  split_ifs
  · exact ⟨rfl, rfl, rfl, rfl⟩
  · exact applySettings_display g

/-- The slot of the low-cut control leaves the spectrum display, the marker sidebands and
the rate alone. -/
theorem on_lowCut_valueChanged_depth_display (n : Nat) (g : State) (value : Int) :
    (on_lowCut_valueChanged_depth n g value).glSpectrum = g.glSpectrum
      ∧ (on_lowCut_valueChanged_depth n g value).m_channelMarker.m_sidebands
          = g.m_channelMarker.m_sidebands
      ∧ (on_lowCut_valueChanged_depth n g value).m_rate = g.m_rate := by
  induction n generalizing g value with
  | zero => exact ⟨rfl, rfl, rfl⟩
  | succ k ih =>
    unfold on_lowCut_valueChanged_depth
    simp only
    obtain ⟨a1, a2, a3, -⟩ := applySettings_display
      (if (setLowCutoff g (getEffectiveLowCutoff g (value * 100))).lowCut.bound
            ((getEffectiveLowCutoff g (value * 100)).tdiv 100)
          = (setLowCutoff g (getEffectiveLowCutoff g (value * 100))).lowCut.value then
        setLowCutoff g (getEffectiveLowCutoff g (value * 100))
      else on_lowCut_valueChanged_depth k
        (storeLowCut (setLowCutoff g (getEffectiveLowCutoff g (value * 100)))
          ((setLowCutoff g (getEffectiveLowCutoff g (value * 100))).lowCut.bound
            ((getEffectiveLowCutoff g (value * 100)).tdiv 100)))
        ((setLowCutoff g (getEffectiveLowCutoff g (value * 100))).lowCut.bound
          ((getEffectiveLowCutoff g (value * 100)).tdiv 100)))
    rw [a1, a2, a3]
    have hset : (setLowCutoff g (getEffectiveLowCutoff g (value * 100))).glSpectrum = g.glSpectrum
        ∧ (setLowCutoff g (getEffectiveLowCutoff g (value * 100))).m_channelMarker.m_sidebands
            = g.m_channelMarker.m_sidebands
        ∧ (setLowCutoff g (getEffectiveLowCutoff g (value * 100))).m_rate = g.m_rate := by
      unfold setLowCutoff
      obtain ⟨b1, b2, b3, -⟩ := markerChanged_display
        { g with m_channelMarker :=
            { g.m_channelMarker with m_lowCutoff := getEffectiveLowCutoff g (value * 100) } }
      exact ⟨b1, b2, b3⟩
    split_ifs
    · exact hset
    · obtain ⟨c1, c2, c3⟩ := ih
        (storeLowCut (setLowCutoff g (getEffectiveLowCutoff g (value * 100)))
          ((setLowCutoff g (getEffectiveLowCutoff g (value * 100))).lowCut.bound
            ((getEffectiveLowCutoff g (value * 100)).tdiv 100)))
        ((setLowCutoff g (getEffectiveLowCutoff g (value * 100))).lowCut.bound
          ((getEffectiveLowCutoff g (value * 100)).tdiv 100))
      rw [c1, c2, c3]
      exact hset

/-- `m_channelMarker.setSidebands`: the sidebands are set; the rate and the bandwidth
control are as before. -/
theorem setSidebands_display (g : State) (x : sidebands_t) :
    (setSidebands g x).m_channelMarker.m_sidebands = x ∧ (setSidebands g x).m_rate = g.m_rate
      ∧ (setSidebands g x).BW = g.BW := by
  unfold setSidebands
  obtain ⟨-, b2, b3, b4⟩ := markerChanged_display
    { g with m_channelMarker := { g.m_channelMarker with m_sidebands := x } }
  exact ⟨b2, b3, b4⟩

end ChannelAnalyzerGUI

/-- C18: `ChannelAnalyzerGUI::on_ssb_toggled(true)` sets the spectrum display centre
frequency to `m_rate/4`, its sample rate to `m_rate/2` and its SSB flag, and sets the
channel-marker sidebands to LSB when the bandwidth control is negative and to USB
otherwise, hence to USB when it is positive. -/
theorem c18_on_ssb_toggled_true (g : ChannelAnalyzerGUI.State) :
    (ChannelAnalyzerGUI.on_ssb_toggled g true).glSpectrum
        = { centerFrequency := g.m_rate.tdiv 4, sampleRate := g.m_rate.tdiv 2,
            ssbSpectrum := true }
      ∧ (ChannelAnalyzerGUI.on_ssb_toggled g true).m_channelMarker.m_sidebands
        = (if g.BW.value < 0 then ChannelAnalyzerGUI.sidebands_t.lsb
            else ChannelAnalyzerGUI.sidebands_t.usb) := by
  unfold ChannelAnalyzerGUI.on_ssb_toggled
  simp only [if_true]
  unfold ChannelAnalyzerGUI.on_lowCut_valueChanged
  obtain ⟨a1, a2, -⟩ := ChannelAnalyzerGUI.on_lowCut_valueChanged_depth_display 2
    (ChannelAnalyzerGUI.applySsbDisplay g true)
    ((ChannelAnalyzerGUI.applySsbDisplay g true).m_channelMarker.m_lowCutoff.tdiv 100)
  rw [a1, a2]
  unfold ChannelAnalyzerGUI.applySsbDisplay
  simp only [if_true]
  by_cases hb : g.BW.value < 0
  · obtain ⟨b1, b2, -⟩ := ChannelAnalyzerGUI.setSidebands_display g .lsb
    simp only [hb, if_true]
    exact ⟨by rw [b2], b1⟩
  · obtain ⟨b1, b2, -⟩ := ChannelAnalyzerGUI.setSidebands_display g .usb
    simp only [hb, if_false]
    exact ⟨by rw [b2], b1⟩

namespace NFMMod

/-- The count and the emissions after a run of calls of `calculateLevel`, from a count of
at most 480: the meter emits on every 481st call. -/
theorem calculateLevels_count (samples : List ℚ) :
    ∀ m : LevelMeter, m.m_levelCalcCount ≤ 480 →
      (calculateLevels m samples).1.m_levelCalcCount
          = (m.m_levelCalcCount + samples.length) % 481
        ∧ (calculateLevels m samples).2.length = (m.m_levelCalcCount + samples.length) / 481
        ∧ ∀ e ∈ (calculateLevels m samples).2, e.numSamples = 480 := by
  induction samples with
  | nil =>
    intro m hm
    refine ⟨?_, ?_, ?_⟩
    · show m.m_levelCalcCount = (m.m_levelCalcCount + 0) % 481
      omega
    · show 0 = (m.m_levelCalcCount + 0) / 481
      omega
    · intro e he
      simp [calculateLevels] at he
  | cons x xs ih =>
    intro m hm
    have hlen : (x :: xs).length = xs.length + 1 := rfl
    rw [hlen]
    unfold calculateLevels
    simp only
    by_cases hc : m.m_levelCalcCount < 480
    · have h1 : calculateLevel m x
          = ({ m_peakLevel := max |m.m_peakLevel| x
               m_levelSum := m.m_levelSum + x * x
               m_levelCalcCount := m.m_levelCalcCount + 1 }, none) := by
        unfold calculateLevel m_levelNbSamples
        rw [if_pos hc]
      rw [h1]
      obtain ⟨i1, i2, i3⟩ := ih
        { m_peakLevel := max |m.m_peakLevel| x
          m_levelSum := m.m_levelSum + x * x
          m_levelCalcCount := m.m_levelCalcCount + 1 } (by show m.m_levelCalcCount + 1 ≤ 480; omega)
      simp only [Option.toList, List.nil_append]
      refine ⟨?_, ?_, i3⟩
      · rw [i1]
        show (m.m_levelCalcCount + 1 + xs.length) % 481 = _
        omega
      · rw [i2]
        show (m.m_levelCalcCount + 1 + xs.length) / 481 = _
        omega
    · have h480 : m.m_levelCalcCount = 480 := by omega
      have h1 : calculateLevel m x
          = ({ m_peakLevel := 0, m_levelSum := 0, m_levelCalcCount := 0 },
             some
              { rmsLevelSquared := m.m_levelSum / (m_levelNbSamples : ℚ)
                peakLevel := m.m_peakLevel
                numSamples := m_levelNbSamples }) := by
        unfold calculateLevel m_levelNbSamples
        rw [if_neg hc]
      rw [h1]
      obtain ⟨i1, i2, i3⟩ := ih { m_peakLevel := 0, m_levelSum := 0, m_levelCalcCount := 0 }
        (by show (0 : Nat) ≤ 480; omega)
      simp only [Option.toList, List.singleton_append, List.length_cons, List.mem_cons]
      refine ⟨?_, ?_, ?_⟩
      · rw [i1]
        show (0 + xs.length) % 481 = _
        omega
      · rw [i2]
        show (0 + xs.length) / 481 + 1 = _
        omega
      · rintro e (he | he)
        · rw [he]
          rfl
        · exact i3 e he

end NFMMod

/-- C19: over 480 consecutive calls of `NFMMod::calculateLevel` from a freshly reset meter
there is no emission, where `floor(480 / 480)` is 1; the first emission comes with the
481st call, whose sample is not accumulated. For every `N`, over `N` consecutive calls from
a freshly reset meter the number of emissions of `levelChanged` is `floor(N / 481)`, and
each emission carries 480 as its number of samples. -/
theorem c19_no_emission_in_480_calls :
    (NFMMod.calculateLevels NFMMod.LevelMeter.reset (List.replicate 480 0)).2.length = 0
      ∧ (NFMMod.calculateLevels NFMMod.LevelMeter.reset (List.replicate 481 0)).2.length = 1
      ∧ 480 / NFMMod.m_levelNbSamples = 1
      ∧ (∀ (peak sum sample : ℚ),
          NFMMod.calculateLevel
              { m_levelCalcCount := 480, m_peakLevel := peak, m_levelSum := sum } sample
            = (NFMMod.LevelMeter.reset,
                some { rmsLevelSquared := sum / 480, peakLevel := peak, numSamples := 480 }))
      ∧ ∀ samples : List ℚ,
          (NFMMod.calculateLevels NFMMod.LevelMeter.reset samples).2.length
              = samples.length / 481
            ∧ ∀ e ∈ (NFMMod.calculateLevels NFMMod.LevelMeter.reset samples).2,
                e.numSamples = 480 := by
  refine ⟨?_, ?_, by decide, ?_, ?_⟩
  · rw [(NFMMod.calculateLevels_count (List.replicate 480 0) NFMMod.LevelMeter.reset
      (by decide)).2.1, List.length_replicate]
    decide
  · rw [(NFMMod.calculateLevels_count (List.replicate 481 0) NFMMod.LevelMeter.reset
      (by decide)).2.1, List.length_replicate]
    decide
  · intro peak sum sample
    unfold NFMMod.calculateLevel NFMMod.m_levelNbSamples NFMMod.LevelMeter.reset
    simp
  · intro samples
    obtain ⟨-, h2, h3⟩ := NFMMod.calculateLevels_count samples NFMMod.LevelMeter.reset
      (by decide)
    refine ⟨?_, h3⟩
    rw [h2]
    show (0 + samples.length) / 481 = _
    rw [Nat.zero_add]

/-- C20: for the demodulator `opened` (audio rate 48000, volume 2, not muted, squelch
count 4799) and the full-scale decimated sample (low-pass output 1, AGC value 0.003) the
squelch is open, the attack factor is 1 and the value `demod * 32700 * 16` converted to
`qint16` is 1046400, outside the range -32768..32767: `feed` stores the converted value
without clipping it. -/
theorem c20_open_sample_exceeds_int16 :
    AMDemod.squelchCount AMDemod.opened AMDemod.fullScale.average = 4800
      ∧ AMDemod.gateOpen AMDemod.opened 4800 = true
      ∧ AMDemod.openSample AMDemod.opened 4800 AMDemod.fullScale = 1046400
      ∧ (AMDemod.frame AMDemod.opened AMDemod.fullScale).l = 1046400
      ∧ (AMDemod.frame AMDemod.opened AMDemod.fullScale).r = 1046400
      ∧ ¬ ((AMDemod.frame AMDemod.opened AMDemod.fullScale).l ≤ 32767) := by
  decide!

namespace AMDemod

/-- The squelch count after one sample never exceeds `rate/10 + 1` when it did not
before. -/
theorem squelchCount_le (s : State) (average : ℚ)
    (hs : s.m_squelchCount ≤ s.m_running.m_audioSampleRate / 10 + 1) :
    squelchCount s average ≤ s.m_running.m_audioSampleRate / 10 + 1 := by
  unfold squelchCount
  split_ifs <;> omega

theorem feedLoop_squelchCount_le (s : State) (xs : List (Option Decimated))
    (hs : s.m_squelchCount ≤ s.m_running.m_audioSampleRate / 10 + 1) :
    (feedLoop s xs).1.m_squelchCount ≤ s.m_running.m_audioSampleRate / 10 + 1 := by
  induction xs generalizing s with
  | nil => exact hs
  | cons x xs ih =>
    obtain ⟨h1, -, h3⟩ := processSample_fields s x
    simp only [feedLoop]
    have hstep : (processSample s x).1.m_squelchCount
        ≤ (processSample s x).1.m_running.m_audioSampleRate / 10 + 1 := by
      rw [h3, h1]
      cases x with
      | none => exact hs
      | some d => exact squelchCount_le s d.average hs
    have := ih (processSample s x).1 hstep
    rw [h1] at this
    exact this

theorem decimatedCount_replicate (n : Nat) (d : Decimated) :
    decimatedCount (List.replicate n (some d)) = n := by
  induction n with
  | zero => rfl
  | succ k ih =>
    unfold decimatedCount at *
    rw [List.replicate_succ, List.filter_cons_of_pos (by rfl), List.length_cons, ih]

/-- The squelch count update for a sample below the level. -/
theorem squelchCount_below (s : State) (average : ℚ) (h : average < s.m_squelchLevel) :
    squelchCount s average = if 1 < s.m_squelchCount then s.m_squelchCount - 2
      else s.m_squelchCount := by
  unfold squelchCount
  rw [if_neg (not_le.mpr h)]

/-- With every decimated sample below the squelch level the count goes down by 2 per
decimated sample while it is above 1. -/
theorem feedLoop_squelchCount_below (s : State) (xs : List (Option Decimated))
    (h : ∀ d, some d ∈ xs → d.average < s.m_squelchLevel) :
    (feedLoop s xs).1.m_squelchCount
      = s.m_squelchCount - 2 * min (decimatedCount xs) (s.m_squelchCount / 2) := by
  induction xs generalizing s with
  | nil => simp [feedLoop, decimatedCount]
  | cons x xs ih =>
    obtain ⟨-, h2, h3⟩ := processSample_fields s x
    simp only [feedLoop]
    have hx : ∀ d, some d ∈ xs → d.average < (processSample s x).1.m_squelchLevel := by
      intro d hd
      rw [h2]
      exact h d (List.mem_cons_of_mem _ hd)
    rw [ih _ hx, h3]
    cases x with
    | none =>
      have hc : decimatedCount (none :: xs) = decimatedCount xs := by
        simp [decimatedCount]
      rw [hc]
    | some d =>
      have hc : decimatedCount (some d :: xs) = decimatedCount xs + 1 := by
        simp [decimatedCount]
      rw [hc]
      simp only
      rw [squelchCount_below s d.average (h d (List.mem_cons_self _ _))]
      split_ifs <;> omega

end AMDemod

/-- C21 (fails as stated): from the started state at an audio rate of 48000, after 4801
decimated samples above the squelch level the squelch count is 4801, above
`audio_rate/10 = 4800`. -/
theorem c21_squelch_count_exceeds_tenth_of_rate :
    (AMDemod.feed (AMDemod.started 48000 false)
        (List.replicate 4801 (some AMDemod.fullScale))).1.m_squelchCount = 4801
      ∧ (AMDemod.started 48000 false).m_running.m_audioSampleRate / 10 = 4800 := by
  refine ⟨?_, by decide⟩
  rw [AMDemod.feed_squelchCount, AMDemod.feedLoop_squelchCount_above _ _ (by decide)
    (fun d hd => by
      have hd' := List.eq_of_mem_replicate hd
      injection hd' with hd'
      subst hd'
      decide!),
    AMDemod.decimatedCount_replicate]
  decide

/-- C21 (amended): starting from `squelch_count = 0` (`start()`), for every sequence of
input samples the squelch count after the loop of `AMDemod::feed`, hence after every
decimated sample, and after `feed` is at most `audio_rate/10 + 1` (integer division); it
is never negative. -/
theorem c21_squelch_count_bound (s : AMDemod.State) (xs : List (Option AMDemod.Decimated)) :
    (AMDemod.feedLoop (AMDemod.start s) xs).1.m_squelchCount
        ≤ s.m_running.m_audioSampleRate / 10 + 1
      ∧ (AMDemod.feed (AMDemod.start s) xs).1.m_squelchCount
        ≤ s.m_running.m_audioSampleRate / 10 + 1 := by
  have h := AMDemod.feedLoop_squelchCount_le (AMDemod.start s) xs
    (by show 0 ≤ _; omega)
  exact ⟨h, by rw [AMDemod.feed_squelchCount]; exact h⟩

/-- C22 (fails as stated): with a prior squelch count of 1 a sample below the squelch level
leaves the count at 1, where `max(1 - 2, 0)` is 0; five such samples in a row leave it at
1 too. -/
theorem c22_count_of_one_stays :
    AMDemod.squelchCount AMDemod.almostClosed AMDemod.belowLevel.average = 1
      ∧ max ((1 : Int) - 2) 0 = 0
      ∧ (AMDemod.feed AMDemod.almostClosed
          (List.replicate 5 (some AMDemod.belowLevel))).1.m_squelchCount = 1 := by
  decide!

/-- C22 (amended): in `AMDemod::feed`, for a decimated sample whose averaged power is below
the squelch level and a prior squelch count `c`, the new count is `c - 2` when `c > 1` and
`c` otherwise; hence input that stays below the level takes the count down by 2 per
decimated sample to 0 from an even count and to 1 from an odd count. -/
theorem c22_below_level_decrements_by_two (s : AMDemod.State) (d : AMDemod.Decimated)
    (xs : List (Option AMDemod.Decimated))
    (hd : d.average < s.m_squelchLevel)
    (hxs : ∀ e, some e ∈ xs → e.average < s.m_squelchLevel) :
    AMDemod.squelchCount s d.average
        = (if 1 < s.m_squelchCount then s.m_squelchCount - 2 else s.m_squelchCount)
      ∧ (AMDemod.feed s xs).1.m_squelchCount
        = s.m_squelchCount - 2 * min (AMDemod.decimatedCount xs) (s.m_squelchCount / 2)
      ∧ (s.m_squelchCount / 2 ≤ AMDemod.decimatedCount xs →
          (AMDemod.feed s xs).1.m_squelchCount = s.m_squelchCount % 2) := by
  have h2 := AMDemod.feedLoop_squelchCount_below s xs hxs
  refine ⟨AMDemod.squelchCount_below s d.average hd, ?_, ?_⟩
  · rw [AMDemod.feed_squelchCount]
    exact h2
  · intro hn
    rw [AMDemod.feed_squelchCount, h2]
    omega

/-- C22 (witness): the count 5 and four samples below the level: 3 after one sample, 1
after the four. -/
theorem c22_below_level_decrements_by_two_witness :
    AMDemod.squelchCount { AMDemod.almostClosed with m_squelchCount := 5 } AMDemod.belowLevel.average
        = 3
      ∧ (AMDemod.feed { AMDemod.almostClosed with m_squelchCount := 5 }
          (List.replicate 4 (some AMDemod.belowLevel))).1.m_squelchCount = 1 := by
  have h := c22_below_level_decrements_by_two
    { AMDemod.almostClosed with m_squelchCount := 5 } AMDemod.belowLevel
    (List.replicate 4 (some AMDemod.belowLevel)) (by decide!)
    (fun e he => by
      have he' := List.eq_of_mem_replicate he
      injection he' with he'
      subst he'
      decide!)
  refine ⟨h.1, ?_⟩
  rw [h.2.1, AMDemod.decimatedCount_replicate]
  decide

namespace ATVDemod

/-- The loop of `applySettings` started at `n`: it stops at the largest `i` in `1..n` that
meets the test, and at 0 when there is none. -/
theorem searchPoints_spec (linesPerSecond : Int) (n : Nat) :
    searchPoints linesPerSecond n ≤ n
      ∧ (searchPoints linesPerSecond n ≠ 0 →
          ((searchPoints linesPerSecond n : Int) * linesPerSecond).tmod 10 = 0)
      ∧ ∀ j : Int, (searchPoints linesPerSecond n : Int) < j → j ≤ n →
          (j * linesPerSecond).tmod 10 ≠ 0 := by
  induction n with
  | zero =>
    refine ⟨le_refl _, fun h => absurd rfl h, ?_⟩
    intro j h1 h2
    simp only [searchPoints] at h1
    push_cast at h1 h2
    omega
  | succ k ih =>
    unfold searchPoints
    by_cases hk : (((k + 1 : Nat) : Int) * linesPerSecond).tmod 10 = 0
    · rw [if_pos hk]
      refine ⟨le_refl _, fun _ => hk, ?_⟩
      intro j h1 h2
      omega
    · rw [if_neg hk]
      obtain ⟨i1, i2, i3⟩ := ih
      refine ⟨Nat.le_succ_of_le i1, i2, ?_⟩
      intro j h1 h2
      by_cases hj : j = ((k + 1 : Nat) : Int)
      · rw [hj]
        exact hk
      · exact i3 j h1 (by push_cast at h2 hj ⊢; omega)

/-- The rate block of `applySettings` when some `i` in `1..maxPoints` meets the test: the
TV sample rate is `i * linesPerSecond` for the largest such `i`. -/
theorem applyRate_hit (s : State) (hl : 0 < linesPerSecond s.m_objConfig)
    (h : ∃ i : Int, 1 ≤ i
        ∧ i ≤ s.m_objConfig.m_intSampleRate.tdiv (linesPerSecond s.m_objConfig)
        ∧ (i * linesPerSecond s.m_objConfig).tmod 10 = 0) :
    ∃ r, applyRate s = some r
      ∧ ∃ i : Int, 1 ≤ i
        ∧ i ≤ s.m_objConfig.m_intSampleRate.tdiv (linesPerSecond s.m_objConfig)
        ∧ (i * linesPerSecond s.m_objConfig).tmod 10 = 0
        ∧ (∀ j : Int, i < j →
            j ≤ s.m_objConfig.m_intSampleRate.tdiv (linesPerSecond s.m_objConfig) →
            (j * linesPerSecond s.m_objConfig).tmod 10 ≠ 0)
        ∧ r.1.m_objConfigPrivate.m_intTVSampleRate = i * linesPerSecond s.m_objConfig
        ∧ r.1.m_interpolatorDistance
            = ((i * linesPerSecond s.m_objConfig : Int) : ℚ)
              / (s.m_objConfig.m_intSampleRate : ℚ) := by
  obtain ⟨i0, h1, h2, h3⟩ := h
  unfold applyRate
  simp only [ne_of_gt hl, if_false]
  generalize hm : s.m_objConfig.m_intSampleRate.tdiv (linesPerSecond s.m_objConfig) = maxPoints
    at h2 ⊢
  have hpos : 0 < maxPoints := by omega
  obtain ⟨k1, k2, k3⟩ := searchPoints_spec (linesPerSecond s.m_objConfig) maxPoints.toNat
  have hcast : ((maxPoints.toNat : Nat) : Int) = maxPoints := Int.toNat_of_nonneg (le_of_lt hpos)
  have hne : searchPoints (linesPerSecond s.m_objConfig) maxPoints.toNat ≠ 0 := by
    intro hz
    rw [hz] at k3
    exact k3 i0 (by push_cast; omega) (by rw [hcast]; exact h2) h3
  have hexit : loopExit (linesPerSecond s.m_objConfig) maxPoints
      = (searchPoints (linesPerSecond s.m_objConfig) maxPoints.toNat : Int) := by
    unfold loopExit
    rw [if_pos hpos]
  rw [hexit]
  generalize searchPoints (linesPerSecond s.m_objConfig) maxPoints.toNat = k at k1 k2 k3 hne
  have hk1 : (1 : Int) ≤ k := by omega
  have hk2 : (k : Int) ≤ maxPoints := by omega
  have hkne : ¬ ((k : Int) = 0) := by omega
  have htv : 0 < (k : Int) * linesPerSecond s.m_objConfig := mul_pos (by omega) hl
  simp only [hkne, if_false, htv, if_true]
  exact ⟨_, rfl, k, hk1, hk2, k2 hne, fun j a b => k3 j a (by rw [hcast]; exact b), rfl, rfl⟩

/-- The rate block of `applySettings` for a positive sample rate and a positive line
rate: it has a result, the TV sample rate is positive and at most the sample rate, and the
interpolator distance is the TV sample rate over the sample rate. -/
theorem applyRate_bounds (s : State) (hsr : 0 < s.m_objConfig.m_intSampleRate)
    (hl : 0 < linesPerSecond s.m_objConfig) :
    ∃ r, applyRate s = some r
      ∧ 0 < r.1.m_objConfigPrivate.m_intTVSampleRate
      ∧ r.1.m_objConfigPrivate.m_intTVSampleRate ≤ s.m_objConfig.m_intSampleRate
      ∧ r.1.m_interpolatorDistance
          = (r.1.m_objConfigPrivate.m_intTVSampleRate : ℚ)
            / (s.m_objConfig.m_intSampleRate : ℚ) := by
  have hdiv : s.m_objConfig.m_intSampleRate.tdiv (linesPerSecond s.m_objConfig)
      = s.m_objConfig.m_intSampleRate / linesPerSecond s.m_objConfig :=
    Int.tdiv_eq_ediv (le_of_lt hsr) (le_of_lt hl)
  have hmul : s.m_objConfig.m_intSampleRate / linesPerSecond s.m_objConfig
      * linesPerSecond s.m_objConfig ≤ s.m_objConfig.m_intSampleRate :=
    Int.ediv_mul_le _ (ne_of_gt hl)
  have hsrq : (s.m_objConfig.m_intSampleRate : ℚ) ≠ 0 := by
    exact_mod_cast (ne_of_gt hsr)
  by_cases hhit : ∃ i : Int, 1 ≤ i
      ∧ i ≤ s.m_objConfig.m_intSampleRate.tdiv (linesPerSecond s.m_objConfig)
      ∧ (i * linesPerSecond s.m_objConfig).tmod 10 = 0
  · obtain ⟨r, hr, i, i1, i2, -, -, htv, hd⟩ := applyRate_hit s hl hhit
    refine ⟨r, hr, ?_, ?_, ?_⟩
    · rw [htv]
      exact mul_pos (by omega) hl
    · rw [htv]
      rw [hdiv] at i2
      calc i * linesPerSecond s.m_objConfig
          ≤ s.m_objConfig.m_intSampleRate / linesPerSecond s.m_objConfig
              * linesPerSecond s.m_objConfig :=
            mul_le_mul_of_nonneg_right i2 (le_of_lt hl)
        _ ≤ s.m_objConfig.m_intSampleRate := hmul
    · rw [hd, htv]
  · have hno : ∀ i : Int, 1 ≤ i →
        i ≤ s.m_objConfig.m_intSampleRate.tdiv (linesPerSecond s.m_objConfig) →
        (i * linesPerSecond s.m_objConfig).tmod 10 ≠ 0 :=
      fun i a b c => hhit ⟨i, a, b, c⟩
    obtain ⟨r, hr, htv, hd⟩ := applyRate_no_hit s hl hno
    refine ⟨r, hr, ?_, ?_, ?_⟩
    · rw [htv]
      split_ifs with hm
      · exact mul_pos hm hl
      · exact hsr
    · rw [htv]
      split_ifs with hm
      · rw [hdiv]
        exact hmul
      · exact le_refl _
    · rw [hd, htv]
      split_ifs with hm
      · rfl
      · rw [div_self hsrq]

/-- In both branches of the rate block the interpolator distance times the sample rate is
the TV sample rate. -/
theorem applyRate_distance {s : State} {r : State × List Call} (h : applyRate s = some r)
    (h0 : s.m_objConfig.m_intSampleRate ≠ 0) :
    r.1.m_interpolatorDistance * (s.m_objConfig.m_intSampleRate : ℚ)
      = (r.1.m_objConfigPrivate.m_intTVSampleRate : ℚ) := by
  have hsrq : (s.m_objConfig.m_intSampleRate : ℚ) ≠ 0 := by
    exact_mod_cast h0
  unfold applyRate at h
  by_cases hz : linesPerSecond s.m_objConfig = 0
  · simp [hz] at h
  · simp only [hz, if_false] at h
    injection h with h
    subst h
    simp only
    split_ifs <;> dsimp only <;> first | exact div_mul_cancel₀ _ hsrq | exact one_mul _

theorem applySettings_none_of_applyRate {s : State} (h0 : s.m_objConfig.m_intSampleRate ≠ 0)
    (hr : rateChanged s) (h2 : applyRate s = none) : applySettings s = none := by
  unfold applySettings
  simp [h0, hr, h2]

end ATVDemod

/-- C23: in `ATVDemod::applySettings`, with the rate block entered, `linesPerSecond > 0`,
`maxPoints = sampleRate / linesPerSecond` and a screen registered if the framing block is
entered: whenever some `i` in `1..maxPoints` satisfies `(i * linesPerSecond) % 10 == 0`,
`applySettings` returns and the TV sample rate is `i * linesPerSecond` for the largest such
`i`, so it is a multiple of 10 and of `linesPerSecond`. -/
theorem c23_tv_rate_is_largest_hit (s : ATVDemod.State) (hr : ATVDemod.rateChanged s)
    (hl : 0 < ATVDemod.linesPerSecond s.m_objConfig)
    (hscreen : ATVDemod.frameChanged s → s.m_objRegisteredATVScreen ≠ none)
    (hhit : ∃ i : Int, 1 ≤ i
        ∧ i ≤ s.m_objConfig.m_intSampleRate.tdiv (ATVDemod.linesPerSecond s.m_objConfig)
        ∧ (i * ATVDemod.linesPerSecond s.m_objConfig).tmod 10 = 0) :
    ∃ r, ATVDemod.applySettings s = some r
      ∧ (∃ i : Int, 1 ≤ i
          ∧ i ≤ s.m_objConfig.m_intSampleRate.tdiv (ATVDemod.linesPerSecond s.m_objConfig)
          ∧ (i * ATVDemod.linesPerSecond s.m_objConfig).tmod 10 = 0
          ∧ (∀ j : Int, i < j →
              j ≤ s.m_objConfig.m_intSampleRate.tdiv (ATVDemod.linesPerSecond s.m_objConfig) →
              (j * ATVDemod.linesPerSecond s.m_objConfig).tmod 10 ≠ 0)
          ∧ r.1.m_objConfigPrivate.m_intTVSampleRate
              = i * ATVDemod.linesPerSecond s.m_objConfig)
      ∧ (10 : Int) ∣ r.1.m_objConfigPrivate.m_intTVSampleRate
      ∧ ATVDemod.linesPerSecond s.m_objConfig ∣ r.1.m_objConfigPrivate.m_intTVSampleRate := by
  have h0 : s.m_objConfig.m_intSampleRate ≠ 0 := by
    obtain ⟨i, h1, h2, -⟩ := hhit
    intro hz
    rw [hz, Int.zero_tdiv] at h2
    omega
  have hsome : (ATVDemod.applySettings s).isSome := by
    rw [ATVDemod.applySettings_isSome s h0]
    unfold ATVDemod.applySettingsUndefined
    rintro (⟨-, hz⟩ | ⟨hf, hn⟩)
    · omega
    · exact hscreen hf hn
  obtain ⟨r, hres⟩ := Option.isSome_iff_exists.mp hsome
  obtain ⟨r2, h2, i, i1, i2, i3, i4, htv, -⟩ := ATVDemod.applyRate_hit s hl hhit
  obtain ⟨k1, -⟩ := ATVDemod.applySettings_rate_of_applyRate h0 hr h2 hres
  refine ⟨r, hres, ⟨i, i1, i2, i3, i4, by rw [k1, htv]⟩, ?_, ?_⟩
  · rw [k1, htv]
    exact Int.dvd_of_tmod_eq_zero i3
  · rw [k1, htv]
    exact Dvd.intro_left i rfl

/-- C23 (witness): the PAL 625-line configuration at 2.01 MS/s: `maxPoints` is 128,
`128 * 15625 = 2000000` meets the test, and the TV sample rate is 2000000. -/
theorem c23_tv_rate_is_largest_hit_witness :
    ∃ r, ATVDemod.applySettings ATVDemod.offGrid = some r
      ∧ (10 : Int) ∣ r.1.m_objConfigPrivate.m_intTVSampleRate
      ∧ ATVDemod.linesPerSecond ATVDemod.offGrid.m_objConfig
          ∣ r.1.m_objConfigPrivate.m_intTVSampleRate := by
  obtain ⟨r, h1, -, h3, h4⟩ := c23_tv_rate_is_largest_hit ATVDemod.offGrid (by decide!)
    (by decide!) (by intro _; decide!) ⟨128, by decide, by decide!, by decide!⟩
  exact ⟨r, h1, h3, h4⟩

/-- C24: for the PAL 625-line configuration at 2.01 MS/s `applySettings` sets the TV sample
rate to 2000000 and the interpolator distance to 2000000/2010000 = 200/201, the TV rate
over the input rate, where the input rate over the TV rate is 201/200. For every state
with a non-zero pending sample rate in which the rate block is entered and `applySettings`
returns, the interpolator distance times the input sample rate is the TV sample rate. -/
theorem c24_distance_is_tv_rate_over_input_rate :
    (ATVDemod.applySettings ATVDemod.offGrid).map
        (fun r => (r.1.m_objConfigPrivate.m_intTVSampleRate, r.1.m_interpolatorDistance))
        = some (2000000, 200 / 201)
      ∧ (ATVDemod.offGrid.m_objConfig.m_intSampleRate : ℚ) / 2000000 = 201 / 200
      ∧ ∀ s : ATVDemod.State, s.m_objConfig.m_intSampleRate = 0 ∨ ¬ ATVDemod.rateChanged s
          ∨ ATVDemod.applySettings s = none
          ∨ ∃ r, ATVDemod.applySettings s = some r
              ∧ r.1.m_interpolatorDistance * (s.m_objConfig.m_intSampleRate : ℚ)
                = (r.1.m_objConfigPrivate.m_intTVSampleRate : ℚ) := by
  refine ⟨by decide!, by decide!, ?_⟩
  intro s
  by_cases h0 : s.m_objConfig.m_intSampleRate = 0
  · exact Or.inl h0
  by_cases hr : ATVDemod.rateChanged s
  swap
  · exact Or.inr (Or.inl hr)
  refine Or.inr (Or.inr ?_)
  cases h2 : ATVDemod.applyRate s with
  | none => exact Or.inl (ATVDemod.applySettings_none_of_applyRate h0 hr h2)
  | some r2 =>
    cases hres : ATVDemod.applySettings s with
    | none => exact Or.inl rfl
    | some r =>
      obtain ⟨k1, k2⟩ := ATVDemod.applySettings_rate_of_applyRate h0 hr h2 hres
      exact Or.inr ⟨r, rfl, by rw [k1, k2]; exact ATVDemod.applyRate_distance h2 h0⟩

/-- C26: for a pending sample rate > 0 and `linesPerSecond > 0`, with the rate block entered
and a screen registered if the framing block is entered, `ATVDemod::applySettings` returns
(the division by `linesPerSecond` is defined) and the TV sample rate `tv` it computes
satisfies `0 < tv <= sampleRate`; the interpolator distance is `tv / sampleRate` and lies
in `(0, 1]`. -/
theorem c26_tv_rate_within_input_rate (s : ATVDemod.State)
    (hsr : 0 < s.m_objConfig.m_intSampleRate) (hr : ATVDemod.rateChanged s)
    (hl : 0 < ATVDemod.linesPerSecond s.m_objConfig)
    (hscreen : ATVDemod.frameChanged s → s.m_objRegisteredATVScreen ≠ none) :
    ∃ r, ATVDemod.applySettings s = some r
      ∧ 0 < r.1.m_objConfigPrivate.m_intTVSampleRate
      ∧ r.1.m_objConfigPrivate.m_intTVSampleRate ≤ s.m_objConfig.m_intSampleRate
      ∧ r.1.m_interpolatorDistance
          = (r.1.m_objConfigPrivate.m_intTVSampleRate : ℚ)
            / (s.m_objConfig.m_intSampleRate : ℚ)
      ∧ 0 < r.1.m_interpolatorDistance ∧ r.1.m_interpolatorDistance ≤ 1 := by
  have h0 : s.m_objConfig.m_intSampleRate ≠ 0 := ne_of_gt hsr
  have hsome : (ATVDemod.applySettings s).isSome := by
    rw [ATVDemod.applySettings_isSome s h0]
    unfold ATVDemod.applySettingsUndefined
    rintro (⟨-, hz⟩ | ⟨hf, hn⟩)
    · omega
    · exact hscreen hf hn
  obtain ⟨r, hres⟩ := Option.isSome_iff_exists.mp hsome
  obtain ⟨r2, h2, b1, b2, b3⟩ := ATVDemod.applyRate_bounds s hsr hl
  obtain ⟨k1, k2⟩ := ATVDemod.applySettings_rate_of_applyRate h0 hr h2 hres
  have hsrq : (0 : ℚ) < (s.m_objConfig.m_intSampleRate : ℚ) := by exact_mod_cast hsr
  have htvq : (0 : ℚ) < (r2.1.m_objConfigPrivate.m_intTVSampleRate : ℚ) := by exact_mod_cast b1
  have hleq : (r2.1.m_objConfigPrivate.m_intTVSampleRate : ℚ)
      ≤ (s.m_objConfig.m_intSampleRate : ℚ) := by exact_mod_cast b2
  refine ⟨r, hres, by rw [k1]; exact b1, by rw [k1]; exact b2, by rw [k1, k2]; exact b3, ?_, ?_⟩
  · rw [k2, b3]
    exact div_pos htvq hsrq
  · rw [k2, b3]
    exact (div_le_one hsrq).mpr hleq

/-- C26 (witness): the PAL 625-line configuration at 20 kS/s, where the TV sample rate is
15625. -/
theorem c26_tv_rate_within_input_rate_witness :
    ∃ r, ATVDemod.applySettings ATVDemod.slowPal = some r
      ∧ 0 < r.1.m_objConfigPrivate.m_intTVSampleRate
      ∧ r.1.m_objConfigPrivate.m_intTVSampleRate ≤ 20000
      ∧ 0 < r.1.m_interpolatorDistance ∧ r.1.m_interpolatorDistance ≤ 1 := by
  obtain ⟨r, h1, h2, h3, -, h5, h6⟩ := c26_tv_rate_within_input_rate ATVDemod.slowPal
    (by decide!) (by decide!) (by decide!) (by intro _; decide!)
  exact ⟨r, h1, h2, h3, h5, h6⟩

namespace UDPSink

theorem handleSampleRateCorrection_reject (s : State) (cfg : MsgSampleRateCorrection)
    (h : ¬ (s.m_actualInputSampleRate + cfg.m_correctionFactor * s.m_actualInputSampleRate
          < s.m_running.m_inputSampleRate * (6 / 5)
        ∧ s.m_running.m_inputSampleRate * (4 / 5)
          < s.m_actualInputSampleRate + cfg.m_correctionFactor * s.m_actualInputSampleRate)) :
    (handleSampleRateCorrection s cfg).2 = s := by
  unfold handleSampleRateCorrection
  simp [h]

/-- One correction message keeps the rate within the window and the averager sound. -/
theorem handleSampleRateCorrection_window (s : State) (cfg : MsgSampleRateCorrection)
    (hw : WithinWindow s) (ha : AveragerSound s) :
    WithinWindow (handleSampleRateCorrection s cfg).2
      ∧ AveragerSound (handleSampleRateCorrection s cfg).2
      ∧ (handleSampleRateCorrection s cfg).2.m_running = s.m_running := by
  by_cases h : s.m_actualInputSampleRate + cfg.m_correctionFactor * s.m_actualInputSampleRate
          < s.m_running.m_inputSampleRate * (6 / 5)
        ∧ s.m_running.m_inputSampleRate * (4 / 5)
          < s.m_actualInputSampleRate + cfg.m_correctionFactor * s.m_actualInputSampleRate
  swap
  · rw [handleSampleRateCorrection_reject s cfg h]
    exact ⟨hw, ha, rfl⟩
  obtain ⟨h1, h2⟩ := h
  obtain ⟨a0, a1, a2, a3⟩ := ha
  obtain ⟨e1, e2, e3, e4⟩ := handleSampleRateCorrection_accept s cfg h1 h2 a1
  generalize s.m_actualInputSampleRate + cfg.m_correctionFactor * s.m_actualInputSampleRate
    = new at h1 h2 e3 e4
  unfold WithinWindow AveragerSound
  rw [e1, e2]
  refine ⟨?_, ?_, rfl⟩
  · by_cases hc : s.m_sampleRateAvgCounter + 1 = s.m_sampleRateAverageItems
    · obtain ⟨f1, -, -⟩ := e4 hc
      rw [f1]
      have hitems : (0 : ℚ) < (s.m_sampleRateAverageItems : ℚ) := by
        have : (0 : Int) < s.m_sampleRateAverageItems := by omega
        exact_mod_cast this
      have hcq : (s.m_sampleRateAverageItems : ℚ) = (s.m_sampleRateAvgCounter : ℚ) + 1 := by
        rw [← hc]
        push_cast
        rfl
      constructor
      · rw [lt_div_iff₀ hitems, hcq]
        nlinarith
      · rw [div_lt_iff₀ hitems, hcq]
        nlinarith
    · obtain ⟨f1, -, -⟩ := e3 hc
      rw [f1]
      exact ⟨h2, h1⟩
  · by_cases hc : s.m_sampleRateAvgCounter + 1 = s.m_sampleRateAverageItems
    · obtain ⟨-, f2, f3⟩ := e4 hc
      rw [f2, f3]
      refine ⟨le_refl _, by omega, ?_, ?_⟩ <;> simp
    · obtain ⟨-, f2, f3⟩ := e3 hc
      rw [f2, f3]
      refine ⟨by omega, by omega, ?_, ?_⟩
      · push_cast
        nlinarith
      · push_cast
        nlinarith

/-- Any sequence of correction messages keeps the rate within the window. -/
theorem handleSampleRateCorrections_window (msgs : List MsgSampleRateCorrection) :
    ∀ s : State, WithinWindow s → AveragerSound s →
      WithinWindow (handleSampleRateCorrections s msgs)
        ∧ (handleSampleRateCorrections s msgs).m_running = s.m_running := by
  induction msgs with
  | nil =>
    intro s hw _
    exact ⟨hw, rfl⟩
  | cons cfg msgs ih =>
    intro s hw ha
    obtain ⟨w1, w2, w3⟩ := handleSampleRateCorrection_window s cfg hw ha
    rw [handleSampleRateCorrections_cons]
    obtain ⟨i1, i2⟩ := ih _ w1 w2
    exact ⟨i1, by rw [i2, w3]⟩

end UDPSink

/-- C29: for a running nominal input rate > 0 and an averaging length >= 1, starting from
the state in which `UDPSink::apply` has set the actual input sample rate to the nominal
rate (sum and counter 0), after every sequence of `MsgSampleRateCorrection` messages the
actual input sample rate lies strictly between 0.8 and 1.2 times the running nominal
rate, which the messages leave unchanged; this includes the rate that replaces it when an
averaging window completes. -/
theorem c29_rate_stays_within_window (s : UDPSink.State)
    (msgs : List UDPSink.MsgSampleRateCorrection)
    (hn : 0 < s.m_running.m_inputSampleRate) (hitems : 1 ≤ s.m_sampleRateAverageItems)
    (hstart : s.m_actualInputSampleRate = s.m_running.m_inputSampleRate)
    (hsum : s.m_sampleRateSum = 0) (hc : s.m_sampleRateAvgCounter = 0) :
    s.m_running.m_inputSampleRate * (4 / 5)
        < (UDPSink.handleSampleRateCorrections s msgs).m_actualInputSampleRate
      ∧ (UDPSink.handleSampleRateCorrections s msgs).m_actualInputSampleRate
        < s.m_running.m_inputSampleRate * (6 / 5)
      ∧ (UDPSink.handleSampleRateCorrections s msgs).m_running = s.m_running := by
  have hw : UDPSink.WithinWindow s := by
    unfold UDPSink.WithinWindow
    rw [hstart]
    constructor <;> linarith
  have ha : UDPSink.AveragerSound s := by
    unfold UDPSink.AveragerSound
    rw [hsum, hc]
    refine ⟨le_refl _, by omega, ?_, ?_⟩ <;> simp
  obtain ⟨⟨w1, w2⟩, w3⟩ := UDPSink.handleSampleRateCorrections_window msgs s hw ha
  rw [w3] at w1 w2
  exact ⟨w1, w2, w3⟩

/-- C29 (witness): the modulator `settled` with an averaging length of 2 and three
messages, the second of which completes an averaging window. -/
theorem c29_rate_stays_within_window_witness :
    (48000 : ℚ) * (4 / 5)
        < (UDPSink.handleSampleRateCorrections (UDPSink.averaging 2)
            [UDPSink.outlier, UDPSink.sustained, UDPSink.outlier]).m_actualInputSampleRate
      ∧ (UDPSink.handleSampleRateCorrections (UDPSink.averaging 2)
            [UDPSink.outlier, UDPSink.sustained, UDPSink.outlier]).m_actualInputSampleRate
        < 48000 * (6 / 5) :=
  have h := c29_rate_stays_within_window (UDPSink.averaging 2)
    [UDPSink.outlier, UDPSink.sustained, UDPSink.outlier]
    (by decide!) (by decide) (by decide!) (by decide!) (by decide)
  ⟨h.1, h.2.1⟩

/-- C27: for every slider value `v` and every marker bandwidth, with
`v1 = getEffectiveLowCutoff(100 * v) / 100` (truncating division),
`getEffectiveLowCutoff(100 * v1) / 100 = v1`; `getEffectiveLowCutoff` is idempotent, its
result is 0 or has the sign of the bandwidth, and the slot `on_lowCut_valueChanged`
re-enters itself at most once (any depth of re-entry of at least 2 gives the same
state). -/
theorem c27_low_cut_feedback_fixed_point (g : ChannelAnalyzerGUI.State) (v lowCutoff : Int)
    (n : Nat) :
    (ChannelAnalyzerGUI.getEffectiveLowCutoff g
        ((ChannelAnalyzerGUI.getEffectiveLowCutoff g (v * 100)).tdiv 100 * 100)).tdiv 100
        = (ChannelAnalyzerGUI.getEffectiveLowCutoff g (v * 100)).tdiv 100
      ∧ ChannelAnalyzerGUI.getEffectiveLowCutoff g
          (ChannelAnalyzerGUI.getEffectiveLowCutoff g lowCutoff)
        = ChannelAnalyzerGUI.getEffectiveLowCutoff g lowCutoff
      ∧ (ChannelAnalyzerGUI.getEffectiveLowCutoff g lowCutoff = 0
          ∨ (0 < ChannelAnalyzerGUI.getEffectiveLowCutoff g lowCutoff
              ∧ 0 < g.m_channelMarker.m_bandwidth)
          ∨ (ChannelAnalyzerGUI.getEffectiveLowCutoff g lowCutoff < 0
              ∧ g.m_channelMarker.m_bandwidth < 0))
      ∧ ChannelAnalyzerGUI.on_lowCut_valueChanged_depth (n + 2) g v
        = ChannelAnalyzerGUI.on_lowCut_valueChanged g v := by
  refine ⟨?_, ?_, ?_, ChannelAnalyzerGUI.on_lowCut_valueChanged_depth_enough n g v⟩
  · unfold ChannelAnalyzerGUI.getEffectiveLowCutoff
    simp only [ChannelAnalyzerGUI.effectiveLowCutoff_eq]
    generalize g.m_channelMarker.m_bandwidth.tdiv 2 = s
    split_ifs with hs
    · rcases ChannelAnalyzerGUI.tdiv_pos_cases (min 0 (max (v * 100) (s + 100))) 100
        (by norm_num) with ⟨h1, h2⟩ | ⟨h1, h2⟩
      · rw [h2]
        generalize hu : min 0 (max (v * 100) (s + 100)) / 100 = u
        have hu0 : u = 0 := by omega
        subst hu0
        rcases ChannelAnalyzerGUI.tdiv_pos_cases (min 0 (max (0 * 100) (s + 100))) 100
          (by norm_num) with ⟨h3, h4⟩ | ⟨h3, h4⟩
        · rw [h4]; omega
        · rw [h4]; omega
      · rw [h2]
        generalize hu : -(-min 0 (max (v * 100) (s + 100)) / 100) = u
        rcases ChannelAnalyzerGUI.tdiv_pos_cases (min 0 (max (u * 100) (s + 100))) 100
          (by norm_num) with ⟨h3, h4⟩ | ⟨h3, h4⟩
        · rw [h4]; omega
        · rw [h4]; omega
    · rcases ChannelAnalyzerGUI.tdiv_pos_cases (max 0 (min (v * 100) (s - 100))) 100
        (by norm_num) with ⟨h1, h2⟩ | ⟨h1, h2⟩
      · rw [h2]
        generalize hu : max 0 (min (v * 100) (s - 100)) / 100 = u
        rcases ChannelAnalyzerGUI.tdiv_pos_cases (max 0 (min (u * 100) (s - 100))) 100
          (by norm_num) with ⟨h3, h4⟩ | ⟨h3, h4⟩
        · rw [h4]; omega
        · rw [h4]; omega
      · omega
  · unfold ChannelAnalyzerGUI.getEffectiveLowCutoff
    simp only [ChannelAnalyzerGUI.effectiveLowCutoff_eq]
    generalize g.m_channelMarker.m_bandwidth.tdiv 2 = s
    split_ifs <;> omega
  · unfold ChannelAnalyzerGUI.getEffectiveLowCutoff
    rw [ChannelAnalyzerGUI.effectiveLowCutoff_eq]
    rcases ChannelAnalyzerGUI.tdiv_pos_cases g.m_channelMarker.m_bandwidth 2 (by norm_num)
      with ⟨h1, h2⟩ | ⟨h1, h2⟩
    · rw [h2]
      split_ifs <;> omega
    · rw [h2]
      split_ifs <;> omega

namespace NFMMod

theorem openFileStream_isOpen (size : Nat) : (openFileStream size).isOpen = true := rfl

theorem openFileStream_sampleRate (size : Nat) : (openFileStream size).m_sampleRate = 48000 :=
  rfl

/-- The record length `openFileStream` computes for a file whose length in seconds fits
`quint32`. -/
theorem openFileStream_recordLength (size : Nat) (hs : size < 824633720832000) :
    (openFileStream size).m_recordLength = size / 192000 := by
  unfold openFileStream
  simp only
  have e0 : toUInt64 (48000 : Int) = 48000 := by
    unfold toUInt64
    omega
  rw [e0]
  have e1 : toUInt64 (size : Int) = size := by
    unfold toUInt64
    omega
  have e2 : toUInt64 (4 * ((48000 : Nat) : Int)) = 192000 := by
    unfold toUInt64
    omega
  rw [e1, e2]
  unfold toUInt32
  omega

/-- The offset `seekFileStream` computes for an open stream is a multiple of 4. -/
theorem seekFileStream_dvd (f : FileSource) (seekPercentage : Int) (hf : f.isOpen = true) :
    ∃ o, seekFileStream f seekPercentage = some o ∧ (4 : Int) ∣ o := by
  unfold seekFileStream
  rw [if_pos hf]
  dsimp only
  refine ⟨_, rfl, ?_⟩
  generalize toInt32 ((toUInt32 ((toUInt32 ((f.m_recordLength * toUInt32 seekPercentage : Nat) : Int)
    / 100 * toUInt32 f.m_sampleRate : Nat) : Int) : Nat) : Int) = x
  unfold toInt32 toUInt64
  omega

/-- For a record length of at most 11184 s at 48 kS/s and a percentage in 0..100 no
operation of `seekFileStream` overflows: the offset is
`((recordLength * p) / 100) * 48000 * 4`. -/
theorem seekFileStream_small (f : FileSource) (p : Nat) (hf : f.isOpen = true)
    (hr : f.m_sampleRate = 48000) (hL : f.m_recordLength ≤ 11184) (hp : p ≤ 100) :
    seekFileStream f (p : Int) = some ((f.m_recordLength * p / 100 * 48000 * 4 : Nat) : Int)
      ∧ f.m_recordLength * p / 100 * 48000 * 4 ≤ f.m_recordLength * 192000 := by
  unfold seekFileStream
  rw [if_pos hf, hr]
  dsimp only
  have e4 : toUInt32 (p : Int) = p := by
    unfold toUInt32
    omega
  have e5 : toUInt32 (48000 : Int) = 48000 := by
    unfold toUInt32
    omega
  rw [e4, e5]
  have hq : f.m_recordLength * p ≤ f.m_recordLength * 100 := Nat.mul_le_mul_left _ hp
  generalize f.m_recordLength * p = q at hq
  have e6 : toUInt32 ((q : Nat) : Int) = q := by
    unfold toUInt32
    omega
  rw [e6]
  have hq2 : q / 100 * 48000 ≤ 536832000 := by omega
  have hq3 : q / 100 * 48000 * 4 ≤ f.m_recordLength * 192000 := by omega
  generalize q / 100 * 48000 = t at hq2 hq3
  have e7 : toUInt32 ((t : Nat) : Int) = t := by
    unfold toUInt32
    omega
  rw [e7]
  have e8 : toInt32 ((t : Nat) : Int) = (t : Int) := by
    unfold toInt32
    omega
  rw [e8]
  have e9 : toUInt64 ((t : Nat) : Int) = t := by
    unfold toUInt64
    omega
  rw [e9]
  have e10 : toUInt64 ((t * 4 : Nat) : Int) = t * 4 := by
    unfold toUInt64
    omega
  rw [e10]
  have e11 : toInt32 ((t * 4 : Nat) : Int) = ((t * 4 : Nat) : Int) := by
    unfold toInt32
    omega
  rw [e11]
  exact ⟨rfl, hq3⟩

end NFMMod

/-- C28: for a file of 2764800000 bytes (14400 s of samples) and a seek percentage of 100,
`NFMMod::seekFileStream` computes `seekPoint = 14400 * 48000 = 691200000` and then
`seekPoint *= 4`, which does not fit an `int`: the offset handed to `seekg` is
-1530167296. The offset is a multiple of 4 for every file and percentage, and for every
file of less than 2^31 bytes and every percentage in 0..100 it is not negative and at most
the file size. -/
theorem c28_seek_offset_overflows_for_large_file :
    (NFMMod.openFileStream 2764800000).m_recordLength = 14400
      ∧ NFMMod.seekFileStream (NFMMod.openFileStream 2764800000) 100 = some (-1530167296)
      ∧ (∀ (size : Nat) (seekPercentage : Int),
          ∃ o, NFMMod.seekFileStream (NFMMod.openFileStream size) seekPercentage = some o
            ∧ (4 : Int) ∣ o)
      ∧ ∀ (size : Nat) (seekPercentage : Int),
          2147483648 ≤ size ∨ seekPercentage < 0 ∨ 100 < seekPercentage
            ∨ ∃ o, NFMMod.seekFileStream (NFMMod.openFileStream size) seekPercentage = some o
                ∧ 0 ≤ o ∧ o ≤ size ∧ (4 : Int) ∣ o := by
  refine ⟨by decide!, by decide!,
    fun size p => NFMMod.seekFileStream_dvd _ p (NFMMod.openFileStream_isOpen size), ?_⟩
  intro size seekPercentage
  by_cases h1 : 2147483648 ≤ size
  · exact Or.inl h1
  by_cases h2 : seekPercentage < 0
  · exact Or.inr (Or.inl h2)
  by_cases h3 : 100 < seekPercentage
  · exact Or.inr (Or.inr (Or.inl h3))
  refine Or.inr (Or.inr (Or.inr ?_))
  obtain ⟨p, rfl⟩ := Int.eq_ofNat_of_zero_le (not_lt.mp h2)
  have hL := NFMMod.openFileStream_recordLength size (by omega)
  obtain ⟨e, hle⟩ := NFMMod.seekFileStream_small (NFMMod.openFileStream size) p
    (NFMMod.openFileStream_isOpen size) (NFMMod.openFileStream_sampleRate size)
    (by rw [hL]; omega) (by omega)
  rw [hL] at e hle
  refine ⟨_, e, Int.natCast_nonneg _, ?_, ?_⟩
  · have : size / 192000 * p / 100 * 48000 * 4 ≤ size := by omega
    exact_mod_cast this
  · exact ⟨((size / 192000 * p / 100 * 48000 : Nat) : Int), by push_cast; ring⟩

namespace NFMMod

theorem calculateLevels_append (xs ys : List ℚ) :
    ∀ m : LevelMeter, calculateLevels m (xs ++ ys)
      = ((calculateLevels (calculateLevels m xs).1 ys).1,
          (calculateLevels m xs).2 ++ (calculateLevels (calculateLevels m xs).1 ys).2) := by
  induction xs with
  | nil =>
    intro m
    simp [calculateLevels]
  | cons x xs ih =>
    intro m
    have e1 : calculateLevels m (x :: xs ++ ys)
        = ((calculateLevels (calculateLevel m x).1 (xs ++ ys)).1,
            (calculateLevel m x).2.toList
              ++ (calculateLevels (calculateLevel m x).1 (xs ++ ys)).2) := rfl
    have e2 : calculateLevels m (x :: xs)
        = ((calculateLevels (calculateLevel m x).1 xs).1,
            (calculateLevel m x).2.toList ++ (calculateLevels (calculateLevel m x).1 xs).2) :=
      rfl
    rw [e1, e2, ih]
    simp

/-- While the meter accumulates, samples that are not positive leave a peak level of 0 at
0. -/
theorem calculateLevels_nonpos (x : ℚ) (hx : x ≤ 0) (n : Nat) :
    ∀ m : LevelMeter, m.m_peakLevel = 0 → m.m_levelCalcCount + n ≤ 480 →
      calculateLevels m (List.replicate n x)
        = ({ m_levelCalcCount := m.m_levelCalcCount + n, m_peakLevel := 0,
             m_levelSum := m.m_levelSum + n * (x * x) }, []) := by
  induction n with
  | zero =>
    intro m hp _
    cases m
    simp only at hp
    subst hp
    simp [calculateLevels]
  | succ k ih =>
    intro m hp hc
    have hlt : m.m_levelCalcCount < m_levelNbSamples := by
      unfold m_levelNbSamples
      omega
    have h1 : calculateLevel m x
        = ({ m_peakLevel := 0
             m_levelSum := m.m_levelSum + x * x
             m_levelCalcCount := m.m_levelCalcCount + 1 }, none) := by
      unfold calculateLevel
      rw [if_pos hlt, hp, abs_zero, max_eq_left hx]
    rw [List.replicate_succ]
    unfold calculateLevels
    simp only
    rw [h1]
    simp only
    rw [ih _ rfl (by show m.m_levelCalcCount + 1 + k ≤ 480; omega)]
    simp only [Option.toList, List.nil_append, Prod.mk.injEq, and_true]
    congr 1
    · omega
    · push_cast
      ring

end NFMMod

/-- C30: for a window of 480 samples that all are -1/2, the emission of
`NFMMod::calculateLevel` on the 481st call reports a peak level of 0, where the maximum of
`|sample|` over the window is 1/2: `std::max(std::fabs(m_peakLevel), sample)` takes the
absolute value of the running peak, not of the sample. -/
theorem c30_peak_ignores_negative_samples :
    (NFMMod.calculateLevels NFMMod.LevelMeter.reset (List.replicate 481 (-1 / 2))).2
        = [{ rmsLevelSquared := 1 / 4, peakLevel := 0, numSamples := 480 }]
      ∧ (NFMMod.calculateLevel NFMMod.LevelMeter.reset (-1 / 2)).1.m_peakLevel = 0
      ∧ |(-1 / 2 : ℚ)| = 1 / 2 := by
  refine ⟨?_, by decide!, by norm_num [abs_of_neg]⟩
  rw [List.replicate_succ' 480, NFMMod.calculateLevels_append,
    NFMMod.calculateLevels_nonpos (-1 / 2) (by norm_num) 480 NFMMod.LevelMeter.reset rfl
      (by decide)]
  simp only [List.nil_append]
  unfold NFMMod.calculateLevels NFMMod.calculateLevel NFMMod.m_levelNbSamples
    NFMMod.LevelMeter.reset
  norm_num [NFMMod.calculateLevels]
